import Mathlib

set_option maxRecDepth 5000

/-
Verification of the ACFS cluster-based storage engine.

This file is a shallow embedding of the C sources of the repository
(`acfs_core` engine, public header, and the simulated EEPROM medium
adapter).  Conventions of the embedding:

* Machine integers (`uint16_t`, `uint32_t`, `size_t`) are modelled as `Nat`
  with an explicit `% 65536` / `% 4294967296` exactly where the C code can
  wrap (stores into `uint16_t`/`uint32_t` fields, the `uint16_t` return of
  `acfs_calculate_clusters_needed`).  Where a C subtraction is guarded so
  that it cannot underflow, plain `Nat` subtraction is used.
* C byte buffers owned by the caller are modelled as total functions
  `Nat → Nat` (byte index to byte value); the engine reads past `n` into
  the trailing-cluster padding exactly as the C code does.
* C strings (`data_id`) are lists of non-zero bytes without the NUL
  terminator; `strncmp`/`strncpy` are modelled on that representation.
* The storage medium is the simulated EEPROM's flat byte array, viewed
  through `clusterBytes`: the byte at absolute address `start_addr + p`
  is `clusterBytes (p / S) (p % S)` where `S` is the cluster size.
  Every medium access performs the adapter's range check
  (`addr + size > eeprom_size` fails with an I/O error).  Whole-cluster
  data I/O and the per-entry cluster-list slots (written at byte offset
  `sizeof(header) + data_entries*sizeof(entry) + i*ACFS_MAX_CLUSTERS*2`
  from `start_addr`, exactly the C address computation) go through this
  shared byte space, so a slot reaching past the reserved system area
  overwrites data-cluster bytes exactly as the C code does, and a slot
  reaching past the medium fails with an I/O error.  Two abstractions
  remain: the superblock record and the directory-entry records are
  mirrored as typed fields (`header`, `entryRecs`) of `Medium`, because
  the C code memcpys raw in-memory structs whose byte image (pointers,
  padding) is not representable — both regions lie below the first
  cluster-list slot and inside the reserved area whenever the directory
  capacity check of `acfs_write` holds; and the `uint32_t` address
  arithmetic is modelled without its mod-2^32 wrap (the round-trip
  theorems carry hypotheses under which no computed address reaches
  2^32).  The `cluster_list` pointer inside an entry record is
  `Option (List Nat)` with `none` for NULL.
* `malloc`/`calloc`/`free` always succeed in the model (out-of-memory and
  the heap itself are not modelled); NULL-pointer argument checks of the
  API are likewise not representable and are omitted.
-/

/-- Error codes of `acfs_error_t` (public header). -/
inductive AcfsError where
  | ACFS_OK
  | ACFS_ERROR_INVALID_PARAM
  | ACFS_ERROR_NOT_INITIALIZED
  | ACFS_ERROR_ALREADY_INITIALIZED
  | ACFS_ERROR_NO_SPACE
  | ACFS_ERROR_DATA_NOT_FOUND
  | ACFS_ERROR_DATA_CORRUPTED
  | ACFS_ERROR_IO_ERROR
  | ACFS_ERROR_INVALID_FILESYSTEM
  | ACFS_ERROR_CLUSTER_FULL
  | ACFS_ERROR_CRC_MISMATCH
deriving DecidableEq

open AcfsError

/-- Configuration constant `ACFS_MAX_DATA_ID_LEN` (header). -/
def ACFS_MAX_DATA_ID_LEN : Nat := 32

/-- Configuration constant `ACFS_MAGIC_NUMBER` (header). -/
def ACFS_MAGIC_NUMBER : Nat := 0x41434653

/-- Configuration constant `ACFS_MAX_CLUSTERS` (header). -/
def ACFS_MAX_CLUSTERS : Nat := 65535

/-- Size in bytes of the packed on-medium `acfs_header_t` record. -/
def SIZEOF_HEADER : Nat := 20

/-- Size in bytes of the in-memory `acfs_data_entry_t` record on an LP64
platform (32-byte id, u32 size, u16 count, padding, 8-byte pointer,
u32 crc, bool, tail padding). -/
def SIZEOF_ENTRY : Nat := 56

/-- The packed `acfs_header_t`. -/
structure Header where
  magic : Nat
  version : Nat
  cluster_size : Nat
  total_clusters : Nat
  sys_clusters : Nat
  data_entries : Nat
  free_clusters : Nat
  crc32 : Nat
deriving DecidableEq

/-- The `acfs_data_entry_t` record.  `cluster_list = none` models a NULL
`uint16_t *cluster_list` pointer. -/
structure Entry where
  data_id : List Nat
  data_size : Nat
  cluster_count : Nat
  cluster_list : Option (List Nat)
  crc32 : Nat
  is_valid : Bool
deriving DecidableEq

/-- The `acfs_config_t` record. -/
structure Config where
  cluster_size : Nat
  reserved_clusters : Nat
  format_if_invalid : Bool
  enable_crc_check : Bool

/-- The storage medium (device descriptor plus the simulated EEPROM byte
array, represented as described in the file header).  `clusterBytes c j`
is the byte at offset `c * cluster_size + j` from `start_addr`; cluster
data and cluster-list slots share this byte space.  `header` and
`entryRecs` mirror the two raw-struct regions. -/
structure Medium where
  start_addr : Nat
  size : Nat
  header : Option Header
  entryRecs : List Entry
  clusterBytes : Nat → Nat → Nat

/-- The in-memory `acfs_t` instance (the `storage` pointer is passed
separately as a `Medium`; the scratch `cluster_buffer` is unused by the
modelled operations). -/
structure Acfs where
  header : Header
  entries : Nat → Entry
  cluster_bitmap : Nat → Bool
  initialized : Bool

/-- A zeroed `acfs_data_entry_t` (result of `calloc`/`memset`). -/
def zeroEntry : Entry :=
  { data_id := [], data_size := 0, cluster_count := 0, cluster_list := none,
    crc32 := 0, is_valid := false }

/-- A zeroed `acfs_header_t`. -/
def emptyHeader : Header :=
  { magic := 0, version := 0, cluster_size := 0, total_clusters := 0,
    sys_clusters := 0, data_entries := 0, free_clusters := 0, crc32 := 0 }

/-- A zeroed `acfs_t` (result of `memset(acfs, 0, sizeof(acfs_t))`). -/
def emptyAcfs : Acfs :=
  { header := emptyHeader, entries := fun _ => zeroEntry,
    cluster_bitmap := fun _ => false, initialized := false }

/-- Modelled from the spec: one reflected CRC-32 bit step with polynomial
0xEDB88320.  The implementation of `acfs_crc32` is declared in the public
header but its source file is not under `src/`; spec §4.B fixes the
algorithm (reflected CRC-32, init 0xFFFFFFFF, final XOR 0xFFFFFFFF,
byte at a time). -/
def crc32_step (c : Nat) : Nat :=
  if c % 2 = 1 then Nat.xor (c / 2) 0xEDB88320 else c / 2

/-- Modelled from the spec: CRC-32 update by one input byte (eight bit
steps after XORing the byte into the low bits). -/
def crc32_byte (c b : Nat) : Nat :=
  crc32_step^[8] (Nat.xor c (b % 256))

/-- Modelled from the spec: `acfs_crc32` over a byte list (see §4.B of the
spec; the implementation file is not under `src/`). -/
def acfs_crc32 (data : List Nat) : Nat :=
  Nat.xor (data.foldl crc32_byte 0xFFFFFFFF) 0xFFFFFFFF

/-- Little-endian bytes of a `uint16_t` field. -/
def le16 (x : Nat) : List Nat := [x % 256, x / 256 % 256]

/-- Little-endian bytes of a `uint32_t` field. -/
def le32 (x : Nat) : List Nat :=
  [x % 256, x / 256 % 256, x / 65536 % 256, x / 16777216 % 256]

/-- The first `sizeof(acfs_header_t) - sizeof(uint32_t)` = 16 bytes of the
packed header record — the range the header CRC is computed over. -/
def headerBytes (h : Header) : List Nat :=
  le32 h.magic ++ le16 h.version ++ le16 h.cluster_size ++
    le16 h.total_clusters ++ le16 h.sys_clusters ++ le16 h.data_entries ++
    le16 h.free_clusters

/-- `strncmp(a, b, n) == 0` on NUL-terminated byte strings represented
without their terminator (end of list is the NUL). -/
def cstrncmpEq : List Nat → List Nat → Nat → Bool
  | _, _, 0 => true
  | [], [], _ + 1 => true
  | [], _ :: _, _ + 1 => false
  | _ :: _, [], _ + 1 => false
  | a :: as, b :: bs, n + 1 => a == b && cstrncmpEq as bs n

/-- The per-entry test of `acfs_find_entry`'s scan:
`entries[i].is_valid && strncmp(entries[i].data_id, data_id, ACFS_MAX_DATA_ID_LEN) == 0`. -/
def entryMatches (e : Entry) (id : List Nat) : Bool :=
  e.is_valid && cstrncmpEq e.data_id id ACFS_MAX_DATA_ID_LEN

/-- The scan loop of `acfs_find_entry`, returning the index of the first
match; `fuel` is the number of remaining directory slots. -/
def findLoop (entries : Nat → Entry) (id : List Nat) : Nat → Nat → Option Nat
  | _, 0 => none
  | i, fuel + 1 =>
    if entryMatches (entries i) id then some i
    else findLoop entries id (i + 1) fuel

/-- `acfs_find_entry`: linear scan of the first `data_entries` slots.  The
C function returns a pointer into the array; the model returns the index. -/
def acfs_find_entry (a : Acfs) (id : List Nat) : Option Nat :=
  findLoop a.entries id 0 a.header.data_entries

/-- Set bit `c` of the cluster bitmap
(`bitmap[c/8] |= 1 << (c%8)`, modelled on `Nat → Bool`). -/
def setBit (bm : Nat → Bool) (c : Nat) : Nat → Bool :=
  fun j => if j = c then true else bm j

/-- Clear bit `c` of the cluster bitmap
(`bitmap[c/8] &= ~(1 << (c%8))`, modelled on `Nat → Bool`). -/
def clearBit (bm : Nat → Bool) (c : Nat) : Nat → Bool :=
  fun j => if j = c then false else bm j

/-- The scan loop of `acfs_allocate_clusters`: walk indices upward from
`i` while `fuel` slots remain and fewer than `count` clusters were
collected; a clear bit is set and its index appended. -/
def allocLoop (count : Nat) :
    (Nat → Bool) → List Nat → Nat → Nat → (Nat → Bool) × List Nat
  | bm, acc, _, 0 => (bm, acc)
  | bm, acc, i, fuel + 1 =>
    if acc.length < count then
      if bm i then allocLoop count bm acc (i + 1) fuel
      else allocLoop count (setBit bm i) (acc ++ [i]) (i + 1) fuel
    else (bm, acc)

/-- `acfs_allocate_clusters`: fail early when the free counter is short;
scan `[sys_clusters, total_clusters)`; roll back and fail when fewer than
`count` clear bits were found; otherwise commit and decrement
`free_clusters`.  The returned list is the `cluster_list` output array. -/
def acfs_allocate_clusters (a : Acfs) (count : Nat) :
    AcfsError × Acfs × List Nat :=
  if a.header.free_clusters < count then (ACFS_ERROR_NO_SPACE, a, [])
  else
    let p := allocLoop count a.cluster_bitmap [] a.header.sys_clusters
      (a.header.total_clusters - a.header.sys_clusters)
    if p.2.length < count then
      (ACFS_ERROR_NO_SPACE, { a with cluster_bitmap := p.2.foldl clearBit p.1 }, p.2)
    else
      (ACFS_OK,
        { a with cluster_bitmap := p.1,
                 header := { a.header with
                   free_clusters := a.header.free_clusters - count } },
        p.2)

/-- The index view `cluster_list[0], …, cluster_list[count-1]` of a C
array modelled as a list (out-of-range access yields the default 0, the
model's stand-in for the C undefined behaviour). -/
def indexList (l : List Nat) (count : Nat) : List Nat :=
  (List.range count).map fun i => l.getD i 0

/-- `acfs_free_clusters`: clear the bit of every listed cluster and add
`count` to `free_clusters` (a `uint16_t` increment). -/
def acfs_free_clusters (a : Acfs) (l : List Nat) (count : Nat) : Acfs :=
  { a with cluster_bitmap := (indexList l count).foldl clearBit a.cluster_bitmap,
           header := { a.header with
             free_clusters := (a.header.free_clusters + count) % 65536 } }

/-- Replace the byte content of one data cluster on the medium. -/
def setCluster (m : Medium) (c : Nat) (bytes : Nat → Nat) : Medium :=
  { m with clusterBytes := fun c1 => if c1 = c then bytes else m.clusterBytes c1 }

/-- The loop of `acfs_write_clusters`: the `i`-th listed cluster receives
the `i`-th `S`-byte span of the caller's buffer; each medium write checks
`start_addr + c·S + S ≤ size` like the simulated EEPROM adapter. -/
def writeClustersAux (S : Nat) (buf : Nat → Nat) :
    Medium → List Nat → Nat → AcfsError × Medium
  | m, [], _ => (ACFS_OK, m)
  | m, c :: rest, i =>
    if m.size < m.start_addr + c * S + S then (ACFS_ERROR_IO_ERROR, m)
    else writeClustersAux S buf (setCluster m c fun j => buf (i * S + j)) rest (i + 1)

/-- `acfs_write_clusters` over `cluster_list[0..count)`. -/
def acfs_write_clusters (a : Acfs) (m : Medium) (l : List Nat) (count : Nat)
    (buf : Nat → Nat) : AcfsError × Medium :=
  writeClustersAux a.header.cluster_size buf m (indexList l count) 0

/-- The loop of `acfs_read_clusters`: each listed cluster is read in full
(`S` bytes) and appended to the bytes already deposited in the caller's
buffer; the same address range check as for writes applies. -/
def readClustersAux (S : Nat) (m : Medium) :
    List Nat → List Nat → AcfsError × List Nat
  | acc, [] => (ACFS_OK, acc)
  | acc, c :: rest =>
    if m.size < m.start_addr + c * S + S then (ACFS_ERROR_IO_ERROR, acc)
    else readClustersAux S m (acc ++ (List.range S).map (m.clusterBytes c)) rest

/-- `acfs_read_clusters` over `cluster_list[0..count)`; the returned list
is the byte sequence the C function deposits into the caller's buffer. -/
def acfs_read_clusters (a : Acfs) (m : Medium) (l : List Nat) (count : Nat) :
    AcfsError × List Nat :=
  readClustersAux a.header.cluster_size m [] (indexList l count)

/-- `acfs_save_header`: recompute the header CRC in memory, then write the
header record at `start_addr` (range-checked like any medium write). -/
def acfs_save_header (a : Acfs) (m : Medium) : AcfsError × Acfs × Medium :=
  let h := { a.header with crc32 := acfs_crc32 (headerBytes a.header) }
  if m.size < m.start_addr + SIZEOF_HEADER then
    (ACFS_ERROR_IO_ERROR, { a with header := h }, m)
  else
    (ACFS_OK, { a with header := h }, { m with header := some h })

/-- `acfs_load_header`: read the header record, check the magic, check the
CRC.  An unformatted medium (`header = none`) reads as garbage and fails
the magic check. -/
def acfs_load_header (a : Acfs) (m : Medium) : AcfsError × Acfs :=
  if m.size < m.start_addr + SIZEOF_HEADER then (ACFS_ERROR_IO_ERROR, a)
  else
    match m.header with
    | none => (ACFS_ERROR_INVALID_FILESYSTEM, a)
    | some h =>
      if h.magic ≠ ACFS_MAGIC_NUMBER then
        (ACFS_ERROR_INVALID_FILESYSTEM, { a with header := h })
      else if acfs_crc32 (headerBytes h) ≠ h.crc32 then
        (ACFS_ERROR_DATA_CORRUPTED, { a with header := h })
      else (ACFS_OK, { a with header := h })

/-- One cluster-list slot write into the flat byte space: the `2*count`
bytes at offsets `[off, off + 2*count)` from `start_addr` receive the
little-endian `uint16_t` cells of `l` (`memcpy` of the list array).  A
byte at flat offset `p` is byte `p % S` of cluster `p / S`, so a slot
overrunning the reserved area lands in data clusters. -/
def writeSlotBytes (S off : Nat) (l : List Nat) (count : Nat) (m : Medium) : Medium :=
  { m with clusterBytes := fun c j =>
      if off ≤ c * S + j ∧ c * S + j < off + 2 * count then
        (if (c * S + j - off) % 2 = 0 then l.getD ((c * S + j - off) / 2) 0 % 256
         else l.getD ((c * S + j - off) / 2) 0 / 256 % 256)
      else m.clusterBytes c j }

/-- Decode one cluster-list slot from the flat byte space: `count`
little-endian `uint16_t` cells read from offsets `[off, off + 2*count)`
from `start_addr`. -/
def readSlotBytes (S off count : Nat) (m : Medium) : List Nat :=
  (List.range count).map fun k =>
    m.clusterBytes ((off + 2 * k) / S) ((off + 2 * k) % S) % 256 +
      256 * (m.clusterBytes ((off + 2 * k + 1) / S) ((off + 2 * k + 1) % S) % 256)

/-- The slot-writing loop of `acfs_save_entries` over directory indices
`i, i+1, …` (`k` indices remain): each entry with `cluster_count > 0 &&
cluster_list != NULL` has its `2*cluster_count`-byte slot written at
offset `base + i*ACFS_MAX_CLUSTERS*2`, range-checked like every medium
write; the loop returns at the first failing write. -/
def saveSlotsLoop (S : Nat) (es : Nat → Entry) (base : Nat) :
    Medium → Nat → Nat → AcfsError × Medium
  | m, _, 0 => (ACFS_OK, m)
  | m, i, k + 1 =>
    if 0 < (es i).cluster_count ∧ (es i).cluster_list ≠ none then
      if m.size < m.start_addr + (base + i * (2 * ACFS_MAX_CLUSTERS)) +
          2 * (es i).cluster_count then
        (ACFS_ERROR_IO_ERROR, m)
      else
        saveSlotsLoop S es base
          (writeSlotBytes S (base + i * (2 * ACFS_MAX_CLUSTERS))
            ((es i).cluster_list.getD []) (es i).cluster_count m) (i + 1) k
    else saveSlotsLoop S es base m (i + 1) k

/-- `acfs_save_entries`: write the dense array of the first `data_entries`
entry records at offset `sizeof(acfs_header_t)` (range-checked; the record
bytes themselves are mirrored typed, see the file header), then each live
cluster-list slot at offset
`sizeof(acfs_header_t) + data_entries*sizeof(acfs_data_entry_t)
 + i*ACFS_MAX_CLUSTERS*sizeof(uint16_t)` through the shared byte space. -/
def acfs_save_entries (a : Acfs) (m : Medium) : AcfsError × Medium :=
  if m.size < m.start_addr + SIZEOF_HEADER +
      a.header.data_entries * SIZEOF_ENTRY then (ACFS_ERROR_IO_ERROR, m)
  else
    saveSlotsLoop a.header.cluster_size a.entries
      (SIZEOF_HEADER + a.header.data_entries * SIZEOF_ENTRY)
      { m with entryRecs := (List.range a.header.data_entries).map a.entries }
      0 a.header.data_entries

/-- The slot-reading loop of `acfs_load_entries`: each loaded record with
`cluster_count > 0` gets a freshly allocated list filled from its slot's
bytes (range-checked); the loop returns at the first failing read,
keeping the records and the lists read so far.  (On that failing read the
C code leaves the current entry's freshly malloc'd list uninitialised;
the model keeps the pointer value stored in the record — the difference
is confined to this error path, whose mount is then rejected.) -/
def loadSlotsLoop (S base : Nat) (m : Medium) :
    (Nat → Entry) → Nat → Nat → AcfsError × (Nat → Entry)
  | es, _, 0 => (ACFS_OK, es)
  | es, i, k + 1 =>
    if 0 < (es i).cluster_count then
      if m.size < m.start_addr + (base + i * (2 * ACFS_MAX_CLUSTERS)) +
          2 * (es i).cluster_count then
        (ACFS_ERROR_IO_ERROR, es)
      else
        loadSlotsLoop S base m
          (fun i2 => if i2 = i then
            { es i with cluster_list := some (readSlotBytes S
                (base + i * (2 * ACFS_MAX_CLUSTERS)) (es i).cluster_count m) }
          else es i2) (i + 1) k
    else loadSlotsLoop S base m es (i + 1) k

/-- `acfs_load_entries`: when the record array is non-empty, read it
(range-checked; the records come from the typed mirror `entryRecs`), then
read the cluster-list slot of each record with `cluster_count > 0` from
the shared byte space at the same computed offsets as `acfs_save_entries`
(a record read back with `cluster_count = 0` keeps the pointer value
stored in the record). -/
def acfs_load_entries (a : Acfs) (m : Medium) : AcfsError × Acfs :=
  if a.header.data_entries = 0 then (ACFS_OK, a)
  else if m.size < m.start_addr + SIZEOF_HEADER +
      a.header.data_entries * SIZEOF_ENTRY then (ACFS_ERROR_IO_ERROR, a)
  else
    let es0 := fun i => if i < a.header.data_entries
      then m.entryRecs.getD i zeroEntry else a.entries i
    let r := loadSlotsLoop a.header.cluster_size
      (SIZEOF_HEADER + a.header.data_entries * SIZEOF_ENTRY) m es0 0
      a.header.data_entries
    (r.1, { a with entries := r.2 })

/-- `acfs_init_bitmap`: zero the bitmap, mark `[0, sys_clusters)`, then
mark every cluster of every valid entry that has a cluster list. -/
def acfs_init_bitmap (a : Acfs) : Acfs :=
  let bm1 := (List.range a.header.sys_clusters).foldl setBit fun _ => false
  let bm2 := (List.range a.header.data_entries).foldl
    (fun bm i =>
      match (a.entries i).cluster_list with
      | some l =>
        if (a.entries i).is_valid then
          (indexList l (a.entries i).cluster_count).foldl setBit bm
        else bm
      | none => bm)
    bm1
  { a with cluster_bitmap := bm2 }

/-- The zeroing loop at the end of `acfs_format`: clusters `1 … sys-1` are
overwritten with all-zero bytes, each write range-checked. -/
def formatZeroLoop (a : Acfs) (S : Nat) :
    Medium → Nat → Nat → AcfsError × Acfs × Medium
  | m, _, 0 => (ACFS_OK, a, m)
  | m, i, k + 1 =>
    if m.size < m.start_addr + i * S + S then (ACFS_ERROR_IO_ERROR, a, m)
    else formatZeroLoop a S (setCluster m i fun _ => 0) (i + 1) k

/-- `acfs_format`: compute `total_clusters` (a `uint16_t` quotient) and
the reserved count, build and persist a fresh superblock, then zero the
rest of the reserved region. -/
def acfs_format (a : Acfs) (m : Medium) (cfg : Config) : AcfsError × Acfs × Medium :=
  let total := m.size / cfg.cluster_size % 65536
  if total = 0 then (ACFS_ERROR_INVALID_PARAM, a, m)
  else
    let sys0 := (SIZEOF_HEADER + cfg.cluster_size - 1) / cfg.cluster_size
    let sys := if cfg.reserved_clusters = 0 then (if sys0 < 2 then 2 else sys0)
               else cfg.reserved_clusters
    if total ≤ sys then (ACFS_ERROR_INVALID_PARAM, a, m)
    else
      let h0 : Header :=
        { magic := ACFS_MAGIC_NUMBER, version := 256,
          cluster_size := cfg.cluster_size, total_clusters := total,
          sys_clusters := sys, data_entries := 0,
          free_clusters := total - sys, crc32 := 0 }
      let h1 := { h0 with crc32 := acfs_crc32 (headerBytes h0) }
      let sh := acfs_save_header { a with header := h1 } m
      if sh.1 ≠ ACFS_OK then sh
      else formatZeroLoop sh.2.1 cfg.cluster_size sh.2.2 1 (sys - 1)

/-- `acfs_init`: reject double mounts and bad cluster sizes, zero the
instance, try to load and validate the header (formatting when allowed),
then load the directory and rebuild the bitmap. -/
def acfs_init (a : Acfs) (m : Medium) (cfg : Config) : AcfsError × Acfs × Medium :=
  if a.initialized then (ACFS_ERROR_ALREADY_INITIALIZED, a, m)
  else if cfg.cluster_size < 64 ∨ 4096 < cfg.cluster_size ∨
      Nat.land cfg.cluster_size (cfg.cluster_size - 1) ≠ 0 then
    (ACFS_ERROR_INVALID_PARAM, a, m)
  else
    let lh := acfs_load_header emptyAcfs m
    let step :=
      if lh.1 = ACFS_OK then
        if lh.2.header.magic ≠ ACFS_MAGIC_NUMBER ∨
            lh.2.header.cluster_size ≠ cfg.cluster_size then
          if cfg.format_if_invalid then acfs_format lh.2 m cfg
          else (ACFS_ERROR_INVALID_FILESYSTEM, lh.2, m)
        else (ACFS_OK, lh.2, m)
      else
        if cfg.format_if_invalid then acfs_format lh.2 m cfg
        else (ACFS_ERROR_INVALID_FILESYSTEM, lh.2, m)
    if step.1 ≠ ACFS_OK then step
    else
      let le := acfs_load_entries step.2.1 step.2.2
      if le.1 ≠ ACFS_OK then (le.1, le.2, step.2.2)
      else (ACFS_OK, { acfs_init_bitmap le.2 with initialized := true }, step.2.2)

/-- `acfs_deinit`: free everything and zero the instance. -/
def acfs_deinit (a : Acfs) : AcfsError × Acfs :=
  if a.initialized = false then (ACFS_ERROR_NOT_INITIALIZED, a)
  else (ACFS_OK, emptyAcfs)

/-- `acfs_calculate_clusters_needed` — note the `uint16_t` return type
truncates the `size_t` ceiling quotient. -/
def acfs_calculate_clusters_needed (cluster_size data_size : Nat) : Nat :=
  (data_size + cluster_size - 1) / cluster_size % 65536

/-- Store an entry record at one directory index. -/
def setEntry (a : Acfs) (idx : Nat) (e : Entry) : Acfs :=
  { a with entries := fun i => if i = idx then e else a.entries i }

/-- The directory capacity computed inline by `acfs_write`:
`(sys_clusters * cluster_size - sizeof(acfs_header_t)) / sizeof(acfs_data_entry_t)`. -/
def maxEntriesOf (h : Header) : Nat :=
  (h.sys_clusters * h.cluster_size - SIZEOF_HEADER) / SIZEOF_ENTRY

/-- The metadata persist tail shared by `acfs_write` and `acfs_delete`:
`acfs_save_header` then `acfs_save_entries`. -/
def persistMeta (a : Acfs) (m : Medium) : AcfsError × Acfs × Medium :=
  let sh := acfs_save_header a m
  if sh.1 ≠ ACFS_OK then sh
  else
    let se := acfs_save_entries sh.2.1 sh.2.2
    (se.1, sh.2.1, se.2)

/-- The common tail of `acfs_write` after the directory entry has its
cluster list: set `data_size` (a `uint32_t`) and the data CRC, write the
data clusters, then persist the superblock and the directory. -/
def finishWrite (a : Acfs) (m : Medium) (idx : Nat) (buf : Nat → Nat) (n : Nat) :
    AcfsError × Acfs × Medium :=
  let e1 := { a.entries idx with
    data_size := n % 4294967296,
    crc32 := acfs_crc32 ((List.range n).map buf) }
  let a1 := setEntry a idx e1
  let wc := acfs_write_clusters a1 m (e1.cluster_list.getD []) e1.cluster_count buf
  if wc.1 ≠ ACFS_OK then (wc.1, a1, wc.2)
  else persistMeta a1 wc.2

/-- `acfs_write`.  Validation (the NULL-pointer checks are not
representable), cluster-count computation, directory hit/miss handling
with (re)allocation, then the shared `finishWrite` tail. -/
def acfs_write (a : Acfs) (m : Medium) (id : List Nat) (buf : Nat → Nat) (n : Nat) :
    AcfsError × Acfs × Medium :=
  if n = 0 then (ACFS_ERROR_INVALID_PARAM, a, m)
  else if a.initialized = false then (ACFS_ERROR_NOT_INITIALIZED, a, m)
  else if ACFS_MAX_DATA_ID_LEN ≤ id.length then (ACFS_ERROR_INVALID_PARAM, a, m)
  else
    let K := acfs_calculate_clusters_needed a.header.cluster_size n
    match acfs_find_entry a id with
    | some idx =>
      let e := a.entries idx
      if e.cluster_count ≠ K then
        let a1 := acfs_free_clusters a (e.cluster_list.getD []) e.cluster_count
        let al := acfs_allocate_clusters a1 K
        if al.1 ≠ ACFS_OK then
          (al.1, setEntry al.2.1 idx { e with cluster_list := none }, m)
        else
          finishWrite
            (setEntry al.2.1 idx { e with cluster_list := some al.2.2, cluster_count := K })
            m idx buf n
      else finishWrite a m idx buf n
    | none =>
      if maxEntriesOf a.header ≤ a.header.data_entries then
        (ACFS_ERROR_CLUSTER_FULL, a, m)
      else
        let idx := a.header.data_entries
        let e1 := { a.entries idx with data_id := id.take (ACFS_MAX_DATA_ID_LEN - 1) }
        let al := acfs_allocate_clusters a K
        if al.1 ≠ ACFS_OK then
          (al.1, setEntry al.2.1 idx { e1 with cluster_list := none }, m)
        else
          let a3 := setEntry al.2.1 idx
            { e1 with cluster_list := some al.2.2, cluster_count := K, is_valid := true }
          finishWrite
            { a3 with header := { a3.header with
                data_entries := (a3.header.data_entries + 1) % 65536 } }
            m idx buf n

/-- `acfs_read`.  The result carries, after the error code, the unchanged
`acfs_t` and medium, the byte sequence deposited into the caller's buffer
and the value stored through `actual_size` (if any). -/
def acfs_read (a : Acfs) (m : Medium) (id : List Nat) (buflen : Nat) :
    AcfsError × Acfs × Medium × List Nat × Option Nat :=
  if a.initialized = false then (ACFS_ERROR_NOT_INITIALIZED, a, m, [], none)
  else
    match acfs_find_entry a id with
    | none => (ACFS_ERROR_DATA_NOT_FOUND, a, m, [], none)
    | some idx =>
      let e := a.entries idx
      if buflen < e.data_size then
        (ACFS_ERROR_INVALID_PARAM, a, m, [], some e.data_size)
      else
        let rc := acfs_read_clusters a m (e.cluster_list.getD []) e.cluster_count
        if rc.1 ≠ ACFS_OK then (rc.1, a, m, rc.2, none)
        else if acfs_crc32 (rc.2.take e.data_size) ≠ e.crc32 then
          (ACFS_ERROR_CRC_MISMATCH, a, m, rc.2, none)
        else (ACFS_OK, a, m, rc.2, some e.data_size)

/-- `acfs_delete`: free the entry's clusters, shift the higher entries
down, zero the vacated tail slot, decrement `data_entries`, persist. -/
def acfs_delete (a : Acfs) (m : Medium) (id : List Nat) : AcfsError × Acfs × Medium :=
  if a.initialized = false then (ACFS_ERROR_NOT_INITIALIZED, a, m)
  else
    match acfs_find_entry a id with
    | none => (ACFS_ERROR_DATA_NOT_FOUND, a, m)
    | some idx =>
      let e := a.entries idx
      let a1 := acfs_free_clusters a (e.cluster_list.getD []) e.cluster_count
      let E := a1.header.data_entries
      let a2 : Acfs :=
        { a1 with
          entries := fun i =>
            if i = E - 1 then zeroEntry
            else if idx ≤ i ∧ i < E - 1 then a1.entries (i + 1)
            else a1.entries i,
          header := { a1.header with data_entries := E - 1 } }
      persistMeta a2 m

/-- `acfs_exists`. -/
def acfs_exists (a : Acfs) (id : List Nat) : Bool :=
  if a.initialized = false then false
  else (acfs_find_entry a id).isSome

/-- Well-formedness of one live directory entry as maintained by the
engine: valid, with an allocated cluster list whose length matches
`cluster_count`, without duplicate clusters, all inside the data area. -/
def EntryOK (h : Header) (e : Entry) : Prop :=
  e.is_valid = true ∧
  e.cluster_list = some (e.cluster_list.getD []) ∧
  (e.cluster_list.getD []).length = e.cluster_count ∧
  (e.cluster_list.getD []).Nodup ∧
  ∀ c ∈ e.cluster_list.getD [], h.sys_clusters ≤ c ∧ c < h.total_clusters

instance (h : Header) (e : Entry) : Decidable (EntryOK h e) := by
  unfold EntryOK; infer_instance

/-- A mounted filesystem state: the invariants of spec §3 that the claims
quantify over (`for every mounted filesystem`), including the `uint16_t`
ranges of the superblock counters. -/
def Mounted (a : Acfs) : Prop :=
  a.initialized = true ∧
  a.header.magic = ACFS_MAGIC_NUMBER ∧
  64 ≤ a.header.cluster_size ∧ a.header.cluster_size ≤ 4096 ∧
  Nat.land a.header.cluster_size (a.header.cluster_size - 1) = 0 ∧
  a.header.free_clusters < 65536 ∧
  a.header.data_entries < 65535 ∧
  ∀ i < a.header.data_entries, EntryOK a.header (a.entries i)

instance (a : Acfs) : Decidable (Mounted a) := by
  unfold Mounted; infer_instance

/-- Sum of `cluster_count` over the live directory entries. -/
def sumK (a : Acfs) : Nat :=
  Finset.sum (Finset.range a.header.data_entries) fun i => (a.entries i).cluster_count

/-- States reachable from a freshly formatted medium by successful API
operations (queries such as `acfs_read` and `acfs_exists` do not change
the state).  The side condition on `data_entries` in the write step rules
out the `uint16_t` wrap of the entry counter. -/
inductive Reachable : Acfs → Medium → Prop where
  | root (m0 : Medium) (cfg : Config) (a1 : Acfs) (m1 : Medium) :
      m0.header = none →
      acfs_init emptyAcfs m0 cfg = (ACFS_OK, a1, m1) →
      Reachable a1 m1
  | write_ok (a : Acfs) (m : Medium) (id : List Nat) (buf : Nat → Nat) (n : Nat)
      (a1 : Acfs) (m1 : Medium) :
      Reachable a m →
      a.header.data_entries < 65535 →
      acfs_write a m id buf n = (ACFS_OK, a1, m1) →
      Reachable a1 m1
  | delete_ok (a : Acfs) (m : Medium) (id : List Nat) (a1 : Acfs) (m1 : Medium) :
      Reachable a m →
      acfs_delete a m id = (ACFS_OK, a1, m1) →
      Reachable a1 m1

/-- A fresh 256-byte simulated EEPROM medium. -/
def demoMedium : Medium :=
  { start_addr := 0, size := 256, header := none, entryRecs := [],
    clusterBytes := fun _ _ => 0 }

/-- A 64-byte-cluster configuration with 2 reserved clusters. -/
def demoCfg : Config :=
  { cluster_size := 64, reserved_clusters := 2, format_if_invalid := true,
    enable_crc_check := true }

/-- A concrete caller buffer. -/
def demoBuf : Nat → Nat := fun j => (j + 7) % 256

/-- Mount (and thereby format) the fresh 256-byte medium: 4 clusters of
64 bytes, 2 reserved, 2 free, directory capacity 1. -/
def traceInit : AcfsError × Acfs × Medium := acfs_init emptyAcfs demoMedium demoCfg

/-- Write 64 bytes under id `"a"` (one cluster). -/
def traceW1 : AcfsError × Acfs × Medium :=
  acfs_write traceInit.2.1 traceInit.2.2 [97] demoBuf 64

/-- Rewrite id `"a"` with 192 bytes (three clusters): the reallocation
frees the old cluster and then fails with `ACFS_ERROR_NO_SPACE`. -/
def traceW2 : AcfsError × Acfs × Medium :=
  acfs_write traceW1.2.1 traceW1.2.2 [97] demoBuf 192

/-- A fresh 512-byte simulated EEPROM medium. -/
def bigMedium : Medium :=
  { start_addr := 0, size := 512, header := none, entryRecs := [],
    clusterBytes := fun _ _ => 0 }

/-- A 64-byte-cluster configuration with 3 reserved clusters (directory
capacity 3). -/
def bigCfg : Config :=
  { cluster_size := 64, reserved_clusters := 3, format_if_invalid := true,
    enable_crc_check := true }

/-- Mount (and thereby format) the fresh 512-byte medium: 8 clusters,
3 reserved, 5 free. -/
def bInit : AcfsError × Acfs × Medium := acfs_init emptyAcfs bigMedium bigCfg

/-- Write 100 bytes under id `"a"` (two clusters) on the mounted
512-byte medium. -/
def bW1 : AcfsError × Acfs × Medium :=
  acfs_write bInit.2.1 bInit.2.2 [97] demoBuf 100

/-- Write 2 bytes under id `"hi"` (one cluster) on the mounted 512-byte
medium. -/
def bW2s : AcfsError × Acfs × Medium :=
  acfs_write bInit.2.1 bInit.2.2 [104, 105] demoBuf 2

/-- Specification-side description of the allocator scan: the first
`need` clear bits of `bm` at indices `[i, i + fuel)`, in ascending order. -/
def scanFree (bm : Nat → Bool) : Nat → Nat → Nat → List Nat
  | _, 0, _ => []
  | _, _ + 1, 0 => []
  | i, fuel + 1, need + 1 =>
    if bm i then scanFree bm (i + 1) fuel (need + 1)
    else i :: scanFree bm (i + 1) fuel need

/-- The list of clusters `acfs_allocate_clusters` hands out on success:
the first `count` clear bits scanning from `sys_clusters`. -/
def allocScan (a : Acfs) (count : Nat) : List Nat :=
  scanFree a.cluster_bitmap a.header.sys_clusters
    (a.header.total_clusters - a.header.sys_clusters) count

/-- A concrete mounted state used to exhibit the direction of the
free-counter update: 8 clusters, 3 reserved (bits 0-2 set), 5 free. -/
def cexAcfs : Acfs :=
  { header :=
      { emptyHeader with
        magic := ACFS_MAGIC_NUMBER, cluster_size := 64,
        total_clusters := 8, sys_clusters := 3, free_clusters := 5 },
    entries := fun _ => zeroEntry,
    cluster_bitmap := fun c => decide (c < 3), initialized := true }

/-- The directory metadata of `a` fits inside the reserved system area:
for every live entry with a non-empty cluster list, its slot — at byte
offset `sizeof(header) + data_entries*sizeof(entry)
 + i*ACFS_MAX_CLUSTERS*2` — ends at or before
`sys_clusters * cluster_size`.  `acfs_save_entries` performs no such
check, so outside this condition its slot writes overwrite data-cluster
bytes (see the C1/C2 counterexamples). -/
def MetaInReserved (a : Acfs) : Prop :=
  ∀ i, i < a.header.data_entries → 0 < (a.entries i).cluster_count →
    SIZEOF_HEADER + a.header.data_entries * SIZEOF_ENTRY +
      i * (2 * ACFS_MAX_CLUSTERS) + 2 * (a.entries i).cluster_count ≤
    a.header.sys_clusters * a.header.cluster_size

instance (a : Acfs) : Decidable (MetaInReserved a) := by
  unfold MetaInReserved; infer_instance

/-- A mounted state on a 384-byte medium (6 clusters of 64 bytes, 3
reserved) whose directory holds three entries; the first owns the three
data clusters.  Its cluster-list slot sits at offset
`20 + 3*56 + 0 = 188` and ends at `194`, two bytes past the reserved
area (`3*64 = 192`) — saving the directory overwrites the first two
bytes of data cluster 3. -/
def cexAliasAcfs : Acfs :=
  { header :=
      { magic := ACFS_MAGIC_NUMBER, version := 256, cluster_size := 64,
        total_clusters := 6, sys_clusters := 3, data_entries := 3,
        free_clusters := 0, crc32 := 0 },
    entries := fun i =>
      if i = 0 then
        { data_id := [97], data_size := 192, cluster_count := 3,
          cluster_list := some [3, 4, 5], crc32 := 0, is_valid := true }
      else if i < 3 then
        { zeroEntry with cluster_list := some [], is_valid := true }
      else zeroEntry,
    cluster_bitmap := fun c => decide (c < 6), initialized := true }

/-- The 384-byte medium under `cexAliasAcfs`. -/
def cexAliasMedium : Medium :=
  { start_addr := 0, size := 384, header := none, entryRecs := [],
    clusterBytes := fun _ _ => 0 }

/-- Rewrite the id `"a"` of `cexAliasAcfs` with 192 bytes (three
clusters, matching the entry's current `cluster_count`). -/
def cexAliasW : AcfsError × Acfs × Medium :=
  acfs_write cexAliasAcfs cexAliasMedium [97] demoBuf 192

/-- Remount the medium left by `cexAliasW`. -/
def cexAliasRemount : AcfsError × Acfs × Medium :=
  acfs_init (acfs_deinit cexAliasW.2.1).2 cexAliasW.2.2 demoCfg

/-- The 192 data-area bytes the post-write medium holds for clusters
3, 4 and 5: the written buffer, except bytes 0 and 1 of cluster 3, which
the directory save overwrote with the little-endian slot cells of the
third cluster-list entry (value 5). -/

def cexDataSeg1 : List Nat :=
  [5, 0, 9, 10, 11, 12, 13, 14, 15, 16, 17, 18, 19, 20, 21, 22, 23, 24, 25, 26, 27, 28, 29, 30, 31, 32, 33, 34, 35, 36, 37, 38]

def cexDataSeg2 : List Nat :=
  [39, 40, 41, 42, 43, 44, 45, 46, 47, 48, 49, 50, 51, 52, 53, 54, 55, 56, 57, 58, 59, 60, 61, 62, 63, 64, 65, 66, 67, 68, 69, 70]

def cexDataSeg3 : List Nat :=
  [71, 72, 73, 74, 75, 76, 77, 78, 79, 80, 81, 82, 83, 84, 85, 86, 87, 88, 89, 90, 91, 92, 93, 94, 95, 96, 97, 98, 99, 100, 101, 102]

def cexDataSeg4 : List Nat :=
  [103, 104, 105, 106, 107, 108, 109, 110, 111, 112, 113, 114, 115, 116, 117, 118, 119, 120, 121, 122, 123, 124, 125, 126, 127, 128, 129, 130, 131, 132, 133, 134]

def cexDataSeg5 : List Nat :=
  [135, 136, 137, 138, 139, 140, 141, 142, 143, 144, 145, 146, 147, 148, 149, 150, 151, 152, 153, 154, 155, 156, 157, 158, 159, 160, 161, 162, 163, 164, 165, 166]

def cexDataSeg6 : List Nat :=
  [167, 168, 169, 170, 171, 172, 173, 174, 175, 176, 177, 178, 179, 180, 181, 182, 183, 184, 185, 186, 187, 188, 189, 190, 191, 192, 193, 194, 195, 196, 197, 198]

/-- 32-byte segments of the written buffer `(List.range 192).map demoBuf`. -/

def cexBufSeg1 : List Nat :=
  [7, 8, 9, 10, 11, 12, 13, 14, 15, 16, 17, 18, 19, 20, 21, 22, 23, 24, 25, 26, 27, 28, 29, 30, 31, 32, 33, 34, 35, 36, 37, 38]

def cexBufSeg2 : List Nat :=
  [39, 40, 41, 42, 43, 44, 45, 46, 47, 48, 49, 50, 51, 52, 53, 54, 55, 56, 57, 58, 59, 60, 61, 62, 63, 64, 65, 66, 67, 68, 69, 70]

def cexBufSeg3 : List Nat :=
  [71, 72, 73, 74, 75, 76, 77, 78, 79, 80, 81, 82, 83, 84, 85, 86, 87, 88, 89, 90, 91, 92, 93, 94, 95, 96, 97, 98, 99, 100, 101, 102]

def cexBufSeg4 : List Nat :=
  [103, 104, 105, 106, 107, 108, 109, 110, 111, 112, 113, 114, 115, 116, 117, 118, 119, 120, 121, 122, 123, 124, 125, 126, 127, 128, 129, 130, 131, 132, 133, 134]

def cexBufSeg5 : List Nat :=
  [135, 136, 137, 138, 139, 140, 141, 142, 143, 144, 145, 146, 147, 148, 149, 150, 151, 152, 153, 154, 155, 156, 157, 158, 159, 160, 161, 162, 163, 164, 165, 166]

def cexBufSeg6 : List Nat :=
  [167, 168, 169, 170, 171, 172, 173, 174, 175, 176, 177, 178, 179, 180, 181, 182, 183, 184, 185, 186, 187, 188, 189, 190, 191, 192, 193, 194, 195, 196, 197, 198]

/-- Specification-side description of the in-memory state and the typed
medium regions after a successful `acfs_write`: the written entry is
found under `id` at index `idx` with cluster list `l` and metadata
matching the written data, and the superblock and entry records on the
medium reflect the in-memory state.  (What the data clusters and the
on-medium slot bytes hold is stated separately, in
`acfs_write_ok_data`-style lemmas, because the directory save can
overwrite data clusters.) -/
def WriteOk (a : Acfs) (m : Medium) (id : List Nat) (buf : Nat → Nat) (n : Nat)
    (r : AcfsError × Acfs × Medium) (idx : Nat) (l : List Nat) : Prop :=
  acfs_find_entry r.2.1 id = some idx ∧
  idx < r.2.1.header.data_entries ∧
  (r.2.1.entries idx).data_size = n % 4294967296 ∧
  (r.2.1.entries idx).crc32 = acfs_crc32 ((List.range n).map buf) ∧
  (r.2.1.entries idx).cluster_list = some l ∧
  (r.2.1.entries idx).cluster_count =
    acfs_calculate_clusters_needed a.header.cluster_size n ∧
  (r.2.1.entries idx).is_valid = true ∧
  l.Nodup ∧
  l.length = acfs_calculate_clusters_needed a.header.cluster_size n ∧
  r.2.1.header.cluster_size = a.header.cluster_size ∧
  r.2.1.header.magic = a.header.magic ∧
  r.2.1.header.data_entries < 65536 ∧
  r.2.1.initialized = true ∧
  r.2.1.header.crc32 = acfs_crc32 (headerBytes r.2.1.header) ∧
  r.2.2.header = some r.2.1.header ∧
  r.2.2.entryRecs = (List.range r.2.1.header.data_entries).map r.2.1.entries ∧
  ¬ (r.2.2.size < r.2.2.start_addr + SIZEOF_HEADER)

theorem cstrncmpEq_refl : ∀ (l : List Nat) (n : Nat), l.length < n → cstrncmpEq l l n = true := by
  intro l
  induction l with
  | nil => intro n hn; cases n with
    | zero => omega
    | succ m => rfl
  | cons a as ih =>
    intro n hn
    cases n with
    | zero => omega
    | succ m =>
      simp only [cstrncmpEq, beq_self_eq_true, Bool.true_and]
      exact ih m (by simpa using hn)

theorem findLoop_eq_none (es : Nat → Entry) (id : List Nat) :
    ∀ fuel i, (findLoop es id i fuel = none ↔
      ∀ k, k < fuel → entryMatches (es (i + k)) id = false) := by
  intro fuel
  induction fuel with
  | zero => intro i; simp [findLoop]
  | succ f ih =>
    intro i
    simp only [findLoop]
    by_cases h : entryMatches (es i) id = true
    · simp only [h, if_true]
      constructor
      · intro hc; exact absurd hc (by simp)
      · intro hall
        have := hall 0 (Nat.succ_pos f)
        simp [h] at this
    · have hf : entryMatches (es i) id = false := by
        cases hb : entryMatches (es i) id
        · rfl
        · exact absurd hb h
      simp only [hf, Bool.false_eq_true, if_false]
      rw [ih (i + 1)]
      constructor
      · intro hall k hk
        cases k with
        | zero => simpa using hf
        | succ k1 =>
          have := hall k1 (by omega)
          simpa [Nat.add_comm, Nat.add_assoc, Nat.add_left_comm] using this
      · intro hall k hk
        have := hall (k + 1) (by omega)
        simpa [Nat.add_comm, Nat.add_assoc, Nat.add_left_comm] using this

theorem findLoop_eq_some (es : Nat → Entry) (id : List Nat) :
    ∀ fuel i j, (findLoop es id i fuel = some j ↔
      i ≤ j ∧ j < i + fuel ∧ entryMatches (es j) id = true ∧
        ∀ t, i ≤ t → t < j → entryMatches (es t) id = false) := by
  intro fuel
  induction fuel with
  | zero =>
    intro i j
    simp only [findLoop]
    constructor
    · intro hc; exact absurd hc (by simp)
    · intro ⟨h1, h2, _⟩; omega
  | succ f ih =>
    intro i j
    simp only [findLoop]
    by_cases h : entryMatches (es i) id = true
    · simp only [h, if_true]
      constructor
      · intro hs
        have hij : i = j := by simpa using hs
        subst hij
        exact ⟨Nat.le_refl i, by omega, h, fun t ht1 ht2 => by omega⟩
      · intro ⟨h1, _, h3, h4⟩
        by_cases hij : i = j
        · subst hij; rfl
        · have := h4 i (Nat.le_refl i) (by omega)
          rw [h] at this
          exact absurd this (by simp)
    · have hf : entryMatches (es i) id = false := by
        cases hb : entryMatches (es i) id
        · rfl
        · exact absurd hb h
      simp only [hf, Bool.false_eq_true, if_false]
      rw [ih (i + 1) j]
      constructor
      · intro ⟨h1, h2, h3, h4⟩
        refine ⟨by omega, by omega, h3, fun t ht1 ht2 => ?_⟩
        by_cases hti : t = i
        · subst hti; exact hf
        · exact h4 t (by omega) ht2
      · intro ⟨h1, h2, h3, h4⟩
        have hij : i ≠ j := by
          intro he; subst he; rw [h3] at hf; exact absurd hf (by simp)
        exact ⟨by omega, by omega, h3, fun t ht1 ht2 => h4 t (by omega) ht2⟩

theorem foldl_setBit_apply : ∀ (l : List Nat) (bm : Nat → Bool) (c : Nat),
    (l.foldl setBit bm) c = if c ∈ l then true else bm c := by
  intro l
  induction l with
  | nil => intro bm c; simp
  | cons a as ih =>
    intro bm c
    simp only [List.foldl_cons, ih, List.mem_cons]
    by_cases hc : c ∈ as
    · simp [hc]
    · by_cases hca : c = a
      · simp [hca, hc, setBit]
      · simp [hca, hc, setBit]

theorem foldl_clearBit_apply : ∀ (l : List Nat) (bm : Nat → Bool) (c : Nat),
    (l.foldl clearBit bm) c = if c ∈ l then false else bm c := by
  intro l
  induction l with
  | nil => intro bm c; simp
  | cons a as ih =>
    intro bm c
    simp only [List.foldl_cons, ih, List.mem_cons]
    by_cases hc : c ∈ as
    · simp [hc]
    · by_cases hca : c = a
      · simp [hca, hc, clearBit]
      · simp [hca, hc, clearBit]

theorem indexList_eq_self (l : List Nat) : indexList l l.length = l := by
  apply List.ext_getElem
  · simp [indexList]
  · intro i h1 h2
    simp only [indexList, List.getElem_map, List.getElem_range]
    rw [List.getD_eq_getElem l 0 (by simpa [indexList] using h2)]

theorem indexList_length (l : List Nat) (count : Nat) :
    (indexList l count).length = count := by
  simp [indexList]

theorem scanFree_setBit_out (bm : Nat → Bool) (j : Nat) :
    ∀ fuel i need, j < i →
      scanFree (setBit bm j) i fuel need = scanFree bm i fuel need := by
  intro fuel
  induction fuel with
  | zero => intro i need hj; rfl
  | succ f ih =>
    intro i need hj
    cases need with
    | zero => rfl
    | succ d =>
      have hb : setBit bm j i = bm i := by
        simp only [setBit]
        rw [if_neg (by omega)]
      simp only [scanFree, hb]
      by_cases h : bm i
      · rw [if_pos h, if_pos h, ih (i + 1) (d + 1) (by omega)]
      · rw [if_neg h, if_neg h, ih (i + 1) d (by omega)]

theorem allocLoop_eq_scanFree (count : Nat) :
    ∀ (fuel : Nat) (bm : Nat → Bool) (acc : List Nat) (i : Nat),
      acc.length ≤ count →
      allocLoop count bm acc i fuel =
        ((scanFree bm i fuel (count - acc.length)).foldl setBit bm,
          acc ++ scanFree bm i fuel (count - acc.length)) := by
  intro fuel
  induction fuel with
  | zero => intro bm acc i _; simp [allocLoop, scanFree]
  | succ f ih =>
    intro bm acc i hlen
    by_cases hlt : acc.length < count
    · obtain ⟨d, hd⟩ : ∃ d, count - acc.length = d + 1 := ⟨count - acc.length - 1, by omega⟩
      rw [hd]
      simp only [allocLoop, if_pos hlt]
      by_cases hb : bm i
      · simp only [scanFree, if_pos hb]
        rw [ih bm acc (i + 1) hlen, hd]
      · simp only [scanFree, if_neg hb]
        have hlen1 : (acc ++ [i]).length ≤ count := by simp; omega
        rw [ih (setBit bm i) (acc ++ [i]) (i + 1) hlen1]
        have hd1 : count - (acc ++ [i]).length = d := by simp; omega
        rw [hd1, scanFree_setBit_out bm i f (i + 1) d (by omega)]
        simp [List.foldl_cons, List.append_assoc]
    · have h0 : count - acc.length = 0 := by omega
      rw [h0]
      simp only [allocLoop, if_neg hlt, scanFree]
      simp

theorem scanFree_mem (bm : Nat → Bool) :
    ∀ fuel i need c, c ∈ scanFree bm i fuel need →
      i ≤ c ∧ c < i + fuel ∧ bm c = false := by
  intro fuel
  induction fuel with
  | zero => intro i need c hc; simp [scanFree] at hc
  | succ f ih =>
    intro i need c hc
    cases need with
    | zero => simp [scanFree] at hc
    | succ d =>
      simp only [scanFree] at hc
      by_cases hb : bm i
      · rw [if_pos hb] at hc
        have := ih (i + 1) (d + 1) c hc
        exact ⟨by omega, by omega, this.2.2⟩
      · rw [if_neg hb] at hc
        rcases List.mem_cons.mp hc with h1 | h1
        · subst h1
          exact ⟨Nat.le_refl c, by omega, by simpa using hb⟩
        · have := ih (i + 1) d c h1
          exact ⟨by omega, by omega, this.2.2⟩

theorem scanFree_pairwise (bm : Nat → Bool) :
    ∀ fuel i need, (scanFree bm i fuel need).Pairwise (· < ·) := by
  intro fuel
  induction fuel with
  | zero => intro i need; simp [scanFree]
  | succ f ih =>
    intro i need
    cases need with
    | zero => simp [scanFree]
    | succ d =>
      simp only [scanFree]
      by_cases hb : bm i
      · rw [if_pos hb]; exact ih (i + 1) (d + 1)
      · rw [if_neg hb]
        refine List.Pairwise.cons ?_ (ih (i + 1) d)
        intro x hx
        have := scanFree_mem bm f (i + 1) d x hx
        omega

theorem scanFree_length_le (bm : Nat → Bool) :
    ∀ fuel i need, (scanFree bm i fuel need).length ≤ need := by
  intro fuel
  induction fuel with
  | zero => intro i need; simp [scanFree]
  | succ f ih =>
    intro i need
    cases need with
    | zero => simp [scanFree]
    | succ d =>
      simp only [scanFree]
      by_cases hb : bm i
      · rw [if_pos hb]; exact ih (i + 1) (d + 1)
      · rw [if_neg hb]
        simpa using ih (i + 1) d

theorem scanFree_lowest (bm : Nat → Bool) :
    ∀ fuel i need c, i ≤ c → bm c = false → c ∉ scanFree bm i fuel need →
      ∀ x ∈ scanFree bm i fuel need, x < c := by
  intro fuel
  induction fuel with
  | zero => intro i need c _ _ _ x hx; simp [scanFree] at hx
  | succ f ih =>
    intro i need c hic hbc hnc x hx
    cases need with
    | zero => simp [scanFree] at hx
    | succ d =>
      simp only [scanFree] at hnc hx
      by_cases hb : bm i
      · rw [if_pos hb] at hnc hx
        have hci : c ≠ i := by
          intro he; subst he; rw [hbc] at hb; exact absurd hb (by simp)
        exact ih (i + 1) (d + 1) c (by omega) hbc hnc x hx
      · rw [if_neg hb] at hnc hx
        have hci : c ≠ i := by
          intro he; exact hnc (by rw [he]; exact List.mem_cons_self i _)
        rcases List.mem_cons.mp hx with h1 | h1
        · omega
        · exact ih (i + 1) d c (by omega) hbc (fun hc1 => hnc (List.mem_cons_of_mem i hc1)) x h1

theorem allocate_ok_eq (a : Acfs) (count : Nat)
    (h : (acfs_allocate_clusters a count).1 = ACFS_OK) :
    acfs_allocate_clusters a count =
      (ACFS_OK,
        { a with
          cluster_bitmap := (allocScan a count).foldl setBit a.cluster_bitmap,
          header := { a.header with
            free_clusters := a.header.free_clusters - count } },
        allocScan a count) ∧
    (allocScan a count).length = count ∧
    count ≤ a.header.free_clusters := by
  by_cases h1 : a.header.free_clusters < count
  · rw [acfs_allocate_clusters, if_pos h1] at h
    exact absurd h (by simp)
  · have hrw : allocLoop count a.cluster_bitmap [] a.header.sys_clusters
        (a.header.total_clusters - a.header.sys_clusters) =
        ((allocScan a count).foldl setBit a.cluster_bitmap, allocScan a count) := by
      have := allocLoop_eq_scanFree count
        (a.header.total_clusters - a.header.sys_clusters) a.cluster_bitmap []
        a.header.sys_clusters (by simp)
      simpa [allocScan] using this
    rw [acfs_allocate_clusters, if_neg h1] at h
    simp only [hrw] at h
    by_cases h2 : (allocScan a count).length < count
    · rw [if_pos h2] at h
      exact absurd h (by simp)
    · have hlen : (allocScan a count).length = count := by
        have := scanFree_length_le a.cluster_bitmap
          (a.header.total_clusters - a.header.sys_clusters)
          a.header.sys_clusters count
        simp only [allocScan]
        simp only [allocScan] at h2
        omega
      refine ⟨?_, hlen, by omega⟩
      rw [acfs_allocate_clusters, if_neg h1]
      simp only [hrw]
      rw [if_neg h2]

theorem allocate_fail_eq (a : Acfs) (count : Nat)
    (h : (acfs_allocate_clusters a count).1 ≠ ACFS_OK) :
    (acfs_allocate_clusters a count).1 = ACFS_ERROR_NO_SPACE ∧
    (∀ c, (acfs_allocate_clusters a count).2.1.cluster_bitmap c = a.cluster_bitmap c) ∧
    (acfs_allocate_clusters a count).2.1.header = a.header ∧
    (acfs_allocate_clusters a count).2.1.entries = a.entries ∧
    (acfs_allocate_clusters a count).2.1.initialized = a.initialized := by
  by_cases h1 : a.header.free_clusters < count
  · rw [acfs_allocate_clusters, if_pos h1]
    exact ⟨rfl, fun c => rfl, rfl, rfl, rfl⟩
  · have hrw : allocLoop count a.cluster_bitmap [] a.header.sys_clusters
        (a.header.total_clusters - a.header.sys_clusters) =
        ((allocScan a count).foldl setBit a.cluster_bitmap, allocScan a count) := by
      have := allocLoop_eq_scanFree count
        (a.header.total_clusters - a.header.sys_clusters) a.cluster_bitmap []
        a.header.sys_clusters (by simp)
      simpa [allocScan] using this
    rw [acfs_allocate_clusters, if_neg h1] at h ⊢
    simp only [hrw] at h ⊢
    by_cases h2 : (allocScan a count).length < count
    · rw [if_pos h2] at h ⊢
      refine ⟨rfl, fun c => ?_, rfl, rfl, rfl⟩
      show ((allocScan a count).foldl clearBit
        ((allocScan a count).foldl setBit a.cluster_bitmap)) c = a.cluster_bitmap c
      rw [foldl_clearBit_apply, foldl_setBit_apply]
      by_cases hc : c ∈ allocScan a count
      · rw [if_pos hc]
        have := scanFree_mem a.cluster_bitmap
          (a.header.total_clusters - a.header.sys_clusters)
          a.header.sys_clusters count c (by simpa [allocScan] using hc)
        exact this.2.2.symm
      · rw [if_neg hc, if_neg hc]
    · rw [if_neg h2] at h
      exact absurd rfl h

/-- C8: for every mounted filesystem and every request for `k` clusters,
the allocator either returns the `k` lowest-indexed free clusters scanning
forward from `sys_clusters`, in strictly ascending order, with exactly
those `k` bits newly set in the bitmap, or it fails with
`ACFS_ERROR_NO_SPACE` leaving the bitmap unchanged (bits set during the
scan are rolled back). -/
theorem acfs_allocate_clusters_correct (a : Acfs) (k : Nat) :
    ((acfs_allocate_clusters a k).1 = ACFS_OK ∧
      (acfs_allocate_clusters a k).2.2.length = k ∧
      (acfs_allocate_clusters a k).2.2.Pairwise (· < ·) ∧
      (∀ c ∈ (acfs_allocate_clusters a k).2.2,
        a.header.sys_clusters ≤ c ∧ c < a.header.total_clusters ∧
          a.cluster_bitmap c = false) ∧
      (∀ c, a.header.sys_clusters ≤ c → c < a.header.total_clusters →
        a.cluster_bitmap c = false → c ∉ (acfs_allocate_clusters a k).2.2 →
        ∀ x ∈ (acfs_allocate_clusters a k).2.2, x < c) ∧
      (∀ c, (acfs_allocate_clusters a k).2.1.cluster_bitmap c =
        (a.cluster_bitmap c || decide (c ∈ (acfs_allocate_clusters a k).2.2))) ∧
      (acfs_allocate_clusters a k).2.1.header.free_clusters =
        a.header.free_clusters - k) ∨
    ((acfs_allocate_clusters a k).1 = ACFS_ERROR_NO_SPACE ∧
      (∀ c, (acfs_allocate_clusters a k).2.1.cluster_bitmap c = a.cluster_bitmap c) ∧
      (acfs_allocate_clusters a k).2.1.header.free_clusters =
        a.header.free_clusters) := by
  by_cases h : (acfs_allocate_clusters a k).1 = ACFS_OK
  · left
    obtain ⟨heq, hlen, _⟩ := allocate_ok_eq a k h
    rw [heq]
    refine ⟨rfl, hlen, ?_, ?_, ?_, ?_, rfl⟩
    · exact scanFree_pairwise a.cluster_bitmap _ _ _
    · intro c hc
      have := scanFree_mem a.cluster_bitmap
        (a.header.total_clusters - a.header.sys_clusters)
        a.header.sys_clusters k c (by simpa [allocScan] using hc)
      exact ⟨this.1, by omega, this.2.2⟩
    · intro c hc1 hc2 hc3 hc4
      exact scanFree_lowest a.cluster_bitmap
        (a.header.total_clusters - a.header.sys_clusters)
        a.header.sys_clusters k c hc1 hc3 (by simpa [allocScan] using hc4)
    · intro c
      show ((allocScan a k).foldl setBit a.cluster_bitmap) c =
        (a.cluster_bitmap c || decide (c ∈ allocScan a k))
      rw [foldl_setBit_apply]
      by_cases hc : c ∈ allocScan a k
      · simp [hc]
      · simp [hc]
  · right
    obtain ⟨h1, h2, h3, _⟩ := allocate_fail_eq a k h
    exact ⟨h1, h2, by rw [h3]⟩

/-- C6 counterexample: on a mounted state with `free_clusters = 5`,
freeing the one-element cluster list `[2]` leaves `free_clusters = 6`;
the claimed decrement would leave `5 - 1 = 4`. -/
theorem free_clusters_decrement_counterexample :
    (acfs_free_clusters cexAcfs [2] 1).header.free_clusters = 6 ∧
    ¬ (acfs_free_clusters cexAcfs [2] 1).header.free_clusters =
        cexAcfs.header.free_clusters - 1 := by decide

/-- C6 (amended): `acfs_free_clusters` clears each listed bit and
increments (not decrements) the free-cluster counter by the length of the
list, as a `uint16_t` addition. -/
theorem acfs_free_clusters_correct (a : Acfs) (l : List Nat) (count : Nat)
    (hc : count = l.length) :
    (∀ c, (acfs_free_clusters a l count).cluster_bitmap c =
      if c ∈ l then false else a.cluster_bitmap c) ∧
    (acfs_free_clusters a l count).header.free_clusters =
      (a.header.free_clusters + count) % 65536 := by
  constructor
  · intro c
    show ((indexList l count).foldl clearBit a.cluster_bitmap) c = _
    rw [hc, indexList_eq_self, foldl_clearBit_apply]
  · rfl

/-- Witness for the amended C6 theorem at a concrete input. -/
theorem acfs_free_clusters_correct_witness :
    (1 : Nat) = ([2] : List Nat).length ∧
    ((∀ c, (acfs_free_clusters cexAcfs [2] 1).cluster_bitmap c =
      if c ∈ [2] then false else cexAcfs.cluster_bitmap c) ∧
     (acfs_free_clusters cexAcfs [2] 1).header.free_clusters =
      (cexAcfs.header.free_clusters + 1) % 65536) :=
  ⟨by decide, acfs_free_clusters_correct cexAcfs [2] 1 (by decide)⟩

theorem allocate_err (a : Acfs) (k : Nat) :
    (acfs_allocate_clusters a k).1 = ACFS_OK ∨
    (acfs_allocate_clusters a k).1 = ACFS_ERROR_NO_SPACE := by
  by_cases h : (acfs_allocate_clusters a k).1 = ACFS_OK
  · exact Or.inl h
  · exact Or.inr (allocate_fail_eq a k h).1

theorem writeClustersAux_err (S : Nat) (buf : Nat → Nat) :
    ∀ (todo : List Nat) (m : Medium) (i : Nat),
      (writeClustersAux S buf m todo i).1 = ACFS_OK ∨
      (writeClustersAux S buf m todo i).1 = ACFS_ERROR_IO_ERROR := by
  intro todo
  induction todo with
  | nil => intro m i; exact Or.inl rfl
  | cons c rest ih =>
    intro m i
    rw [writeClustersAux]
    by_cases hb : m.size < m.start_addr + c * S + S
    · rw [if_pos hb]; exact Or.inr rfl
    · rw [if_neg hb]; exact ih _ _

theorem save_header_err (a : Acfs) (m : Medium) :
    (acfs_save_header a m).1 = ACFS_OK ∨
    (acfs_save_header a m).1 = ACFS_ERROR_IO_ERROR := by
  rw [acfs_save_header]
  by_cases hb : m.size < m.start_addr + SIZEOF_HEADER
  · rw [if_pos hb]; exact Or.inr rfl
  · rw [if_neg hb]; exact Or.inl rfl

theorem saveSlotsLoop_err (S : Nat) (es : Nat → Entry) (base : Nat) :
    ∀ (k : Nat) (m : Medium) (i : Nat),
      (saveSlotsLoop S es base m i k).1 = ACFS_OK ∨
      (saveSlotsLoop S es base m i k).1 = ACFS_ERROR_IO_ERROR := by
  intro k
  induction k with
  | zero => intro m i; exact Or.inl rfl
  | succ k2 ih =>
    intro m i
    rw [saveSlotsLoop]
    by_cases hc : 0 < (es i).cluster_count ∧ (es i).cluster_list ≠ none
    · rw [if_pos hc]
      by_cases hb : m.size < m.start_addr + (base + i * (2 * ACFS_MAX_CLUSTERS)) +
          2 * (es i).cluster_count
      · rw [if_pos hb]; exact Or.inr rfl
      · rw [if_neg hb]; exact ih _ (i + 1)
    · rw [if_neg hc]; exact ih m (i + 1)

theorem save_entries_err (a : Acfs) (m : Medium) :
    (acfs_save_entries a m).1 = ACFS_OK ∨
    (acfs_save_entries a m).1 = ACFS_ERROR_IO_ERROR := by
  rw [acfs_save_entries]
  by_cases hb : m.size < m.start_addr + SIZEOF_HEADER +
      a.header.data_entries * SIZEOF_ENTRY
  · rw [if_pos hb]; exact Or.inr rfl
  · rw [if_neg hb]
    exact saveSlotsLoop_err _ _ _ _ _ 0

theorem persistMeta_err (a : Acfs) (m : Medium) :
    (persistMeta a m).1 = ACFS_OK ∨ (persistMeta a m).1 = ACFS_ERROR_IO_ERROR := by
  rw [persistMeta]
  rcases save_header_err a m with h | h
  · rw [if_neg (by rw [h]; simp)]
    exact save_entries_err _ _
  · rw [if_pos (by rw [h]; simp)]
    exact Or.inr h

theorem finishWrite_err_aux (a1 : Acfs) (q : AcfsError × Medium)
    (hq : q.1 = ACFS_OK ∨ q.1 = ACFS_ERROR_IO_ERROR) :
    (if q.1 ≠ ACFS_OK then (q.1, a1, q.2) else persistMeta a1 q.2).1 = ACFS_OK ∨
    (if q.1 ≠ ACFS_OK then (q.1, a1, q.2) else persistMeta a1 q.2).1 =
      ACFS_ERROR_IO_ERROR := by
  rcases hq with h | h
  · rw [if_neg (by rw [h]; simp)]
    exact persistMeta_err _ _
  · rw [if_pos (by rw [h]; simp)]
    exact Or.inr h

theorem finishWrite_err (a : Acfs) (m : Medium) (idx : Nat) (buf : Nat → Nat) (n : Nat) :
    (finishWrite a m idx buf n).1 = ACFS_OK ∨
    (finishWrite a m idx buf n).1 = ACFS_ERROR_IO_ERROR := by
  simp only [finishWrite, acfs_write_clusters]
  exact finishWrite_err_aux _ _ (writeClustersAux_err _ buf _ _ _)

/-- C9 counterexample: an empty id passes validation — on a freshly
mounted 512-byte filesystem, `acfs_write` with the empty id and one byte
of data returns `ACFS_OK`, not `ACFS_ERROR_INVALID_PARAM`. -/
theorem write_empty_id_accepted :
    (acfs_write bInit.2.1 bInit.2.2 [] demoBuf 1).1 = ACFS_OK ∧
    ¬ (acfs_write bInit.2.1 bInit.2.2 [] demoBuf 1).1 =
        ACFS_ERROR_INVALID_PARAM := by decide

/-- C9 (amended): `acfs_write` validation as implemented — it fails with
`ACFS_ERROR_INVALID_PARAM` when `n = 0` or when the id length (without
terminator) is 32 or more; an id of length at most 31 (including the
empty id) is never rejected with `ACFS_ERROR_INVALID_PARAM`. -/
theorem acfs_write_validation (a : Acfs) (m : Medium) (id : List Nat)
    (buf : Nat → Nat) (n : Nat) :
    (n = 0 → (acfs_write a m id buf n).1 = ACFS_ERROR_INVALID_PARAM) ∧
    (n ≠ 0 → a.initialized = true → ACFS_MAX_DATA_ID_LEN ≤ id.length →
      (acfs_write a m id buf n).1 = ACFS_ERROR_INVALID_PARAM) ∧
    (n ≠ 0 → id.length ≤ 31 →
      (acfs_write a m id buf n).1 ≠ ACFS_ERROR_INVALID_PARAM) := by
  refine ⟨?_, ?_, ?_⟩
  · intro hn
    rw [acfs_write, if_pos hn]
  · intro hn hi hlen
    rw [acfs_write, if_neg hn, if_neg (by rw [hi]; simp), if_pos hlen]
  · intro hn hlen
    rw [acfs_write, if_neg hn]
    by_cases hi : a.initialized = false
    · rw [if_pos hi]; simp
    · rw [if_neg hi, if_neg (by simp [ACFS_MAX_DATA_ID_LEN]; omega)]
      rcases hf : acfs_find_entry a id with _ | idx
      · simp only [hf]
        by_cases hcap : maxEntriesOf a.header ≤ a.header.data_entries
        · rw [if_pos hcap]; simp
        · rw [if_neg hcap]
          by_cases hal : (acfs_allocate_clusters a
              (acfs_calculate_clusters_needed a.header.cluster_size n)).1 = ACFS_OK
          · rw [if_neg (by rw [hal]; simp)]
            rcases finishWrite_err _ m a.header.data_entries buf n with h | h
            · rw [h]; simp
            · rw [h]; simp
          · rw [if_pos (by simpa using hal)]
            rcases allocate_err a
              (acfs_calculate_clusters_needed a.header.cluster_size n) with h | h
            · exact absurd h hal
            · rw [h]; simp
      · simp only [hf]
        by_cases hk : (a.entries idx).cluster_count =
            acfs_calculate_clusters_needed a.header.cluster_size n
        · rw [if_neg (by simpa using hk)]
          rcases finishWrite_err a m idx buf n with h | h
          · rw [h]; simp
          · rw [h]; simp
        · rw [if_pos (by simpa using hk)]
          by_cases hal : (acfs_allocate_clusters
              (acfs_free_clusters a ((a.entries idx).cluster_list.getD [])
                (a.entries idx).cluster_count)
              (acfs_calculate_clusters_needed a.header.cluster_size n)).1 = ACFS_OK
          · rw [if_neg (by rw [hal]; simp)]
            rcases finishWrite_err _ m idx buf n with h | h
            · rw [h]; simp
            · rw [h]; simp
          · rw [if_pos (by simpa using hal)]
            rcases allocate_err
              (acfs_free_clusters a ((a.entries idx).cluster_list.getD [])
                (a.entries idx).cluster_count)
              (acfs_calculate_clusters_needed a.header.cluster_size n) with h | h
            · exact absurd h hal
            · rw [h]; simp

/-- Witness for the amended C9 theorem: on the freshly mounted 512-byte
filesystem, a ten-byte write with an id of length 31 is not rejected as
`ACFS_ERROR_INVALID_PARAM`, while an id of length 32 is rejected. -/
theorem acfs_write_validation_witness :
    (acfs_write bInit.2.1 bInit.2.2 ((List.range 31).map (fun i => i + 65))
      demoBuf 10).1 ≠ ACFS_ERROR_INVALID_PARAM ∧
    (acfs_write bInit.2.1 bInit.2.2 ((List.range 32).map (fun i => i + 65))
      demoBuf 10).1 = ACFS_ERROR_INVALID_PARAM :=
  ⟨(acfs_write_validation bInit.2.1 bInit.2.2 ((List.range 31).map (fun i => i + 65))
      demoBuf 10).2.2 (by decide) (by decide),
    (acfs_write_validation bInit.2.1 bInit.2.2 ((List.range 32).map (fun i => i + 65))
      demoBuf 10).2.1 (by decide) (by decide) (by decide)⟩

/-- C3 counterexample: on the 256-byte filesystem, after writing one
cluster under `"a"` and then rewriting `"a"` with a three-cluster size,
the allocation fails with `ACFS_ERROR_NO_SPACE` and the entry is left
with `cluster_list = NULL` but `cluster_count = 1`, not `0` as claimed. -/
theorem write_realloc_failure_counterexample :
    traceW2.1 = ACFS_ERROR_NO_SPACE ∧
    (traceW2.2.1.entries 0).cluster_list = none ∧
    (traceW2.2.1.entries 0).cluster_count = 1 ∧
    ¬ (traceW2.2.1.entries 0).cluster_count = 0 := by decide

/-- C3 (amended): when a rewrite of an existing id needs a different
cluster count and the allocation fails, `acfs_write` returns the
allocator's error and the entry is left in the directory with no
`cluster_list` and with `cluster_count` still equal to its previous value
(the count is not reset to 0). -/
theorem write_realloc_failure (a : Acfs) (m : Medium) (id : List Nat)
    (buf : Nat → Nat) (n : Nat) (idx : Nat)
    (hn : n ≠ 0) (hi : a.initialized = true) (hlen : id.length ≤ 31)
    (hf : acfs_find_entry a id = some idx)
    (hk : (a.entries idx).cluster_count ≠
      acfs_calculate_clusters_needed a.header.cluster_size n)
    (hal : (acfs_allocate_clusters
        (acfs_free_clusters a ((a.entries idx).cluster_list.getD [])
          (a.entries idx).cluster_count)
        (acfs_calculate_clusters_needed a.header.cluster_size n)).1 ≠ ACFS_OK) :
    (acfs_write a m id buf n).1 =
      (acfs_allocate_clusters
        (acfs_free_clusters a ((a.entries idx).cluster_list.getD [])
          (a.entries idx).cluster_count)
        (acfs_calculate_clusters_needed a.header.cluster_size n)).1 ∧
    ((acfs_write a m id buf n).2.1.entries idx).cluster_list = none ∧
    ((acfs_write a m id buf n).2.1.entries idx).cluster_count =
      (a.entries idx).cluster_count := by
  rw [acfs_write, if_neg hn, if_neg (by rw [hi]; simp),
    if_neg (by simp [ACFS_MAX_DATA_ID_LEN]; omega)]
  simp only [hf]
  rw [if_pos hk, if_pos hal]
  exact ⟨rfl, by simp [setEntry], by simp [setEntry]⟩

/-- Witness for the amended C3 theorem on the concrete failing rewrite. -/
theorem write_realloc_failure_witness :
    (acfs_write traceW1.2.1 traceW1.2.2 [97] demoBuf 192).1 =
      (acfs_allocate_clusters
        (acfs_free_clusters traceW1.2.1
          ((traceW1.2.1.entries 0).cluster_list.getD [])
          (traceW1.2.1.entries 0).cluster_count)
        (acfs_calculate_clusters_needed traceW1.2.1.header.cluster_size 192)).1 ∧
    ((acfs_write traceW1.2.1 traceW1.2.2 [97] demoBuf 192).2.1.entries 0).cluster_list
      = none ∧
    ((acfs_write traceW1.2.1 traceW1.2.2 [97] demoBuf 192).2.1.entries 0).cluster_count
      = (traceW1.2.1.entries 0).cluster_count :=
  write_realloc_failure traceW1.2.1 traceW1.2.2 [97] demoBuf 192 0
    (by decide) (by decide) (by decide) (by decide) (by decide) (by decide)

/-- C10: `acfs_read` leaves the entire filesystem state — superblock,
directory, bitmap, `initialized` flag — and the medium unchanged on every
outcome (success, `DataNotFound`, `InvalidParam` on a short buffer, `Io`,
`CrcMismatch`, `NotInitialized`). -/
theorem acfs_read_frame (a : Acfs) (m : Medium) (id : List Nat) (buflen : Nat) :
    (acfs_read a m id buflen).2.1 = a ∧ (acfs_read a m id buflen).2.2.1 = m := by
  rw [acfs_read]
  by_cases hi : a.initialized = false
  · rw [if_pos hi]; exact ⟨rfl, rfl⟩
  · rw [if_neg hi]
    rcases hf : acfs_find_entry a id with _ | idx <;> simp only [hf]
    · exact ⟨trivial, trivial⟩
    · by_cases hb : buflen < (a.entries idx).data_size
      · rw [if_pos hb]; exact ⟨rfl, rfl⟩
      · rw [if_neg hb]
        by_cases hrc : (acfs_read_clusters a m ((a.entries idx).cluster_list.getD [])
            (a.entries idx).cluster_count).1 = ACFS_OK
        · rw [if_neg (by simp [hrc])]
          by_cases hcrc : acfs_crc32 ((acfs_read_clusters a m
              ((a.entries idx).cluster_list.getD [])
              (a.entries idx).cluster_count).2.take (a.entries idx).data_size) ≠
              (a.entries idx).crc32
          · rw [if_pos hcrc]; exact ⟨rfl, rfl⟩
          · rw [if_neg hcrc]; exact ⟨rfl, rfl⟩
        · rw [if_pos hrc]; exact ⟨rfl, rfl⟩

theorem readClustersAux_ok_length (S : Nat) (m : Medium) :
    ∀ (todo acc : List Nat),
      (readClustersAux S m acc todo).1 = ACFS_OK →
      (readClustersAux S m acc todo).2.length = acc.length + todo.length * S := by
  intro todo
  induction todo with
  | nil => intro acc _; simp [readClustersAux]
  | cons c rest ih =>
    intro acc h
    rw [readClustersAux] at h ⊢
    by_cases hb : m.size < m.start_addr + c * S + S
    · rw [if_pos hb] at h; exact absurd h (by simp)
    · rw [if_neg hb] at h ⊢
      rw [ih (acc ++ (List.range S).map (m.clusterBytes c)) h]
      simp [List.length_append]
      ring

/-- C4: a successful `acfs_read` deposits exactly
`cluster_count * cluster_size` bytes into the caller's buffer — the
trailing cluster is read in full, so `buf_len ≥ data_size` keeps the copy
inside the caller's buffer only when `buf_len ≥ K·S`. -/
theorem acfs_read_copies_whole_clusters (a : Acfs) (m : Medium) (id : List Nat)
    (buflen idx : Nat)
    (hf : acfs_find_entry a id = some idx)
    (hok : (acfs_read a m id buflen).1 = ACFS_OK) :
    (acfs_read a m id buflen).2.2.2.1.length =
      (a.entries idx).cluster_count * a.header.cluster_size := by
  rw [acfs_read] at hok ⊢
  by_cases hi : a.initialized = false
  · rw [if_pos hi] at hok; exact absurd hok (by simp)
  · rw [if_neg hi] at hok ⊢
    simp only [hf] at hok ⊢
    by_cases hb : buflen < (a.entries idx).data_size
    · rw [if_pos hb] at hok; exact absurd hok (by simp)
    · rw [if_neg hb] at hok ⊢
      by_cases hrc : (acfs_read_clusters a m ((a.entries idx).cluster_list.getD [])
          (a.entries idx).cluster_count).1 = ACFS_OK
      · rw [if_neg (by simp [hrc])] at hok ⊢
        by_cases hcrc : acfs_crc32 ((acfs_read_clusters a m
            ((a.entries idx).cluster_list.getD [])
            (a.entries idx).cluster_count).2.take (a.entries idx).data_size) ≠
            (a.entries idx).crc32
        · rw [if_pos hcrc] at hok; exact absurd hok (by simp)
        · rw [if_neg hcrc]
          show (acfs_read_clusters a m ((a.entries idx).cluster_list.getD [])
            (a.entries idx).cluster_count).2.length = _
          rw [acfs_read_clusters] at hrc ⊢
          rw [readClustersAux_ok_length a.header.cluster_size m _ [] hrc]
          simp [indexList_length]
      · rw [if_pos hrc] at hok
        exact absurd hok hrc

/-- Witness for C4 at a concrete successful read: 2 bytes stored in one
64-byte cluster are read back as 64 buffer bytes. -/
theorem acfs_read_copies_whole_clusters_witness :
    acfs_find_entry bW2s.2.1 [104, 105] = some 0 ∧
    (acfs_read bW2s.2.1 bW2s.2.2 [104, 105] 10).1 = ACFS_OK ∧
    (acfs_read bW2s.2.1 bW2s.2.2 [104, 105] 10).2.2.2.1.length =
      (bW2s.2.1.entries 0).cluster_count * bW2s.2.1.header.cluster_size :=
  ⟨by decide, by decide,
    acfs_read_copies_whole_clusters bW2s.2.1 bW2s.2.2 [104, 105] 10 0
      (by decide) (by decide)⟩

theorem writeClustersAux_preserves (S : Nat) (buf : Nat → Nat) :
    ∀ (todo : List Nat) (m : Medium) (i : Nat),
      (writeClustersAux S buf m todo i).2.start_addr = m.start_addr ∧
      (writeClustersAux S buf m todo i).2.size = m.size ∧
      (writeClustersAux S buf m todo i).2.header = m.header ∧
      (writeClustersAux S buf m todo i).2.entryRecs = m.entryRecs := by
  intro todo
  induction todo with
  | nil => intro m i; exact ⟨rfl, rfl, rfl, rfl⟩
  | cons c rest ih =>
    intro m i
    rw [writeClustersAux]
    by_cases hb : m.size < m.start_addr + c * S + S
    · rw [if_pos hb]; exact ⟨rfl, rfl, rfl, rfl⟩
    · rw [if_neg hb]; exact ih (setCluster m c fun j => buf (i * S + j)) (i + 1)

theorem writeClustersAux_not_touched (S : Nat) (buf : Nat → Nat) :
    ∀ (todo : List Nat) (m : Medium) (i : Nat) (c : Nat), c ∉ todo →
      (writeClustersAux S buf m todo i).2.clusterBytes c = m.clusterBytes c := by
  intro todo
  induction todo with
  | nil => intro m i c _; rfl
  | cons c0 rest ih =>
    intro m i c hc
    rw [writeClustersAux]
    by_cases hb : m.size < m.start_addr + c0 * S + S
    · rw [if_pos hb]
    · rw [if_neg hb]
      rw [ih (setCluster m c0 fun j => buf (i * S + j)) (i + 1) c
        (fun h1 => hc (List.mem_cons_of_mem c0 h1))]
      simp only [setCluster]
      rw [if_neg (by intro he; exact hc (he ▸ List.mem_cons_self c0 rest))]

theorem clusters_roundtrip (S : Nat) (buf : Nat → Nat) :
    ∀ (todo : List Nat) (m : Medium) (i : Nat) (acc : List Nat),
      todo.Nodup →
      (writeClustersAux S buf m todo i).1 = ACFS_OK →
      readClustersAux S (writeClustersAux S buf m todo i).2 acc todo =
        (ACFS_OK, acc ++ (List.range (todo.length * S)).map fun t => buf (i * S + t)) := by
  intro todo
  induction todo with
  | nil => intro m i acc _ _; simp [readClustersAux, writeClustersAux]
  | cons c rest ih =>
    intro m i acc hnd hok
    rw [writeClustersAux] at hok ⊢
    by_cases hb : m.size < m.start_addr + c * S + S
    · rw [if_pos hb] at hok; exact absurd hok (by simp)
    · rw [if_neg hb] at hok ⊢
      have hpres := writeClustersAux_preserves S buf rest
        (setCluster m c fun j => buf (i * S + j)) (i + 1)
      rw [readClustersAux]
      rw [if_neg (by rw [hpres.1, hpres.2.1]; exact hb)]
      have hcb : (writeClustersAux S buf (setCluster m c fun j => buf (i * S + j))
          rest (i + 1)).2.clusterBytes c = fun j => buf (i * S + j) := by
        rw [writeClustersAux_not_touched S buf rest _ (i + 1) c
          (List.Nodup.not_mem hnd)]
        simp [setCluster]
      rw [hcb]
      rw [ih (setCluster m c fun j => buf (i * S + j)) (i + 1)
        (acc ++ (List.range S).map fun j => buf (i * S + j))
        (List.Nodup.of_cons hnd) hok]
      congr 1
      rw [List.append_assoc]
      congr 1
      have hsplit : (c :: rest : List Nat).length * S = S + rest.length * S := by
        simp [List.length_cons]; ring
      rw [hsplit, List.range_add, List.map_append, List.map_map]
      congr 1
      apply List.map_congr_left
      intro t _
      simp only [Function.comp_apply]
      congr 1
      ring

theorem readClustersAux_congr (S : Nat) (m1 m2 : Medium)
    (hs : m1.start_addr = m2.start_addr) (hz : m1.size = m2.size)
    (hc : ∀ c, m1.clusterBytes c = m2.clusterBytes c) :
    ∀ (todo acc : List Nat),
      readClustersAux S m1 acc todo = readClustersAux S m2 acc todo := by
  intro todo
  induction todo with
  | nil => intro acc; rfl
  | cons c rest ih =>
    intro acc
    rw [readClustersAux, readClustersAux, hs, hz, hc c]
    by_cases hb : m2.size < m2.start_addr + c * S + S
    · rw [if_pos hb, if_pos hb]
    · rw [if_neg hb, if_neg hb, ih]

theorem findLoop_congr (es1 es2 : Nat → Entry) (id : List Nat) :
    ∀ (fuel i : Nat),
      (∀ k, k < fuel → entryMatches (es1 (i + k)) id = entryMatches (es2 (i + k)) id) →
      findLoop es1 id i fuel = findLoop es2 id i fuel := by
  intro fuel
  induction fuel with
  | zero => intro i _; rfl
  | succ f ih =>
    intro i h
    rw [findLoop, findLoop]
    have h0 : entryMatches (es1 i) id = entryMatches (es2 i) id := by
      have := h 0 (Nat.succ_pos f); simpa using this
    rw [h0]
    by_cases hm : entryMatches (es2 i) id = true
    · rw [if_pos hm, if_pos hm]
    · rw [if_neg hm, if_neg hm]
      exact ih (i + 1) fun k hk => by
        have := h (k + 1) (by omega)
        simpa [Nat.add_comm, Nat.add_assoc, Nat.add_left_comm] using this

theorem find_setEntry_eq (a : Acfs) (idx : Nat) (e : Entry) (id : List Nat)
    (hm : entryMatches e id = entryMatches (a.entries idx) id) :
    acfs_find_entry (setEntry a idx e) id = acfs_find_entry a id := by
  rw [acfs_find_entry, acfs_find_entry]
  show findLoop _ id 0 a.header.data_entries = _
  apply findLoop_congr
  intro k _
  show entryMatches (if 0 + k = idx then e else a.entries (0 + k)) id = _
  by_cases hk : 0 + k = idx
  · rw [if_pos hk, hk, hm]
  · rw [if_neg hk]

theorem writeSlotBytes_out (S off : Nat) (l : List Nat) (count : Nat) (m : Medium)
    (c j : Nat) (h : ¬ (off ≤ c * S + j ∧ c * S + j < off + 2 * count)) :
    (writeSlotBytes S off l count m).clusterBytes c j = m.clusterBytes c j := by
  simp only [writeSlotBytes]
  rw [if_neg h]

theorem writeSlotBytes_in (S off : Nat) (l : List Nat) (count : Nat) (m : Medium)
    (c j : Nat) (h : off ≤ c * S + j ∧ c * S + j < off + 2 * count) :
    (writeSlotBytes S off l count m).clusterBytes c j =
      (if (c * S + j - off) % 2 = 0 then l.getD ((c * S + j - off) / 2) 0 % 256
       else l.getD ((c * S + j - off) / 2) 0 / 256 % 256) := by
  simp only [writeSlotBytes]
  rw [if_pos h]

theorem saveSlotsLoop_frame (S : Nat) (es : Nat → Entry) (base : Nat) :
    ∀ (k : Nat) (m : Medium) (i : Nat),
      (saveSlotsLoop S es base m i k).2.start_addr = m.start_addr ∧
      (saveSlotsLoop S es base m i k).2.size = m.size ∧
      (saveSlotsLoop S es base m i k).2.header = m.header ∧
      (saveSlotsLoop S es base m i k).2.entryRecs = m.entryRecs := by
  intro k
  induction k with
  | zero => intro m i; exact ⟨rfl, rfl, rfl, rfl⟩
  | succ k2 ih =>
    intro m i
    rw [saveSlotsLoop]
    by_cases hc : 0 < (es i).cluster_count ∧ (es i).cluster_list ≠ none
    · rw [if_pos hc]
      by_cases hb : m.size < m.start_addr + (base + i * (2 * ACFS_MAX_CLUSTERS)) +
          2 * (es i).cluster_count
      · rw [if_pos hb]; exact ⟨rfl, rfl, rfl, rfl⟩
      · rw [if_neg hb]
        exact ih (writeSlotBytes S (base + i * (2 * ACFS_MAX_CLUSTERS))
          ((es i).cluster_list.getD []) (es i).cluster_count m) (i + 1)
    · rw [if_neg hc]; exact ih m (i + 1)

theorem saveSlotsLoop_untouched (S : Nat) (es : Nat → Entry) (base B : Nat) :
    ∀ (k : Nat) (m : Medium) (i : Nat),
      (∀ t, t < i + k → 0 < (es t).cluster_count →
        base + t * (2 * ACFS_MAX_CLUSTERS) + 2 * (es t).cluster_count ≤ B) →
      ∀ c j, B ≤ c * S + j →
        (saveSlotsLoop S es base m i k).2.clusterBytes c j = m.clusterBytes c j := by
  intro k
  induction k with
  | zero => intro m i _ c j _; rfl
  | succ k2 ih =>
    intro m i hB c j hcj
    rw [saveSlotsLoop]
    by_cases hc : 0 < (es i).cluster_count ∧ (es i).cluster_list ≠ none
    · rw [if_pos hc]
      by_cases hb : m.size < m.start_addr + (base + i * (2 * ACFS_MAX_CLUSTERS)) +
          2 * (es i).cluster_count
      · rw [if_pos hb]
      · rw [if_neg hb]
        rw [ih _ (i + 1) (fun t ht hcnt => hB t (by omega) hcnt) c j hcj]
        apply writeSlotBytes_out
        have hBi := hB i (by omega) hc.1
        omega
    · rw [if_neg hc]
      exact ih m (i + 1) (fun t ht hcnt => hB t (by omega) hcnt) c j hcj

theorem saveSlotsLoop_untouched_below (S : Nat) (es : Nat → Entry) (base : Nat) :
    ∀ (k : Nat) (m : Medium) (i : Nat) (c j : Nat),
      c * S + j < base + i * (2 * ACFS_MAX_CLUSTERS) →
      (saveSlotsLoop S es base m i k).2.clusterBytes c j = m.clusterBytes c j := by
  intro k
  induction k with
  | zero => intro m i c j _; rfl
  | succ k2 ih =>
    intro m i c j hcj
    have hstep : i * (2 * ACFS_MAX_CLUSTERS) ≤ (i + 1) * (2 * ACFS_MAX_CLUSTERS) :=
      Nat.mul_le_mul_right _ (Nat.le_succ i)
    rw [saveSlotsLoop]
    by_cases hc : 0 < (es i).cluster_count ∧ (es i).cluster_list ≠ none
    · rw [if_pos hc]
      by_cases hb : m.size < m.start_addr + (base + i * (2 * ACFS_MAX_CLUSTERS)) +
          2 * (es i).cluster_count
      · rw [if_pos hb]
      · rw [if_neg hb]
        rw [ih _ (i + 1) c j (by omega)]
        apply writeSlotBytes_out
        omega
    · rw [if_neg hc]
      exact ih m (i + 1) c j (by omega)

theorem saveSlotsLoop_slot_bytes (S : Nat) (es : Nat → Entry) (base : Nat)
    (idx : Nat) (l : List Nat)
    (hl : (es idx).cluster_list = some l)
    (hc65 : (es idx).cluster_count ≤ 65535) :
    ∀ (k : Nat) (m : Medium) (i : Nat), i ≤ idx → idx < i + k →
      (saveSlotsLoop S es base m i k).1 = ACFS_OK →
      ∀ p, base + idx * (2 * ACFS_MAX_CLUSTERS) ≤ p →
        p < base + idx * (2 * ACFS_MAX_CLUSTERS) + 2 * (es idx).cluster_count →
        ∀ c j, c * S + j = p →
        (saveSlotsLoop S es base m i k).2.clusterBytes c j =
          (if (p - (base + idx * (2 * ACFS_MAX_CLUSTERS))) % 2 = 0 then
            l.getD ((p - (base + idx * (2 * ACFS_MAX_CLUSTERS))) / 2) 0 % 256
          else
            l.getD ((p - (base + idx * (2 * ACFS_MAX_CLUSTERS))) / 2) 0 / 256 % 256) := by
  intro k
  induction k with
  | zero => intro m i h1 h2 _; omega
  | succ k2 ih =>
    intro m i h1 h2 hok p hp1 hp2 c j hcj
    have hM2 : 2 * (es idx).cluster_count ≤ 2 * ACFS_MAX_CLUSTERS := by
      simp only [ACFS_MAX_CLUSTERS]
      omega
    by_cases hii : i = idx
    · subst hii
      have hcnt : 0 < (es i).cluster_count := by omega
      have hcond : 0 < (es i).cluster_count ∧ (es i).cluster_list ≠ none := by
        refine ⟨hcnt, ?_⟩
        rw [hl]
        simp
      rw [saveSlotsLoop] at hok ⊢
      rw [if_pos hcond] at hok ⊢
      by_cases hb : m.size < m.start_addr + (base + i * (2 * ACFS_MAX_CLUSTERS)) +
          2 * (es i).cluster_count
      · rw [if_pos hb] at hok
        exact absurd hok (by simp)
      · rw [if_neg hb] at hok ⊢
        have hexp : (i + 1) * (2 * ACFS_MAX_CLUSTERS) =
            i * (2 * ACFS_MAX_CLUSTERS) + 2 * ACFS_MAX_CLUSTERS := by ring
        rw [saveSlotsLoop_untouched_below S es base k2 _ (i + 1) c j (by omega)]
        rw [writeSlotBytes_in S _ _ _ m c j (by omega)]
        rw [hl, Option.getD_some, hcj]
    · have hlt : i < idx := by omega
      rw [saveSlotsLoop] at hok ⊢
      by_cases hc : 0 < (es i).cluster_count ∧ (es i).cluster_list ≠ none
      · rw [if_pos hc] at hok ⊢
        by_cases hb : m.size < m.start_addr + (base + i * (2 * ACFS_MAX_CLUSTERS)) +
            2 * (es i).cluster_count
        · rw [if_pos hb] at hok
          exact absurd hok (by simp)
        · rw [if_neg hb] at hok ⊢
          exact ih _ (i + 1) (by omega) (by omega) hok p hp1 hp2 c j hcj
      · rw [if_neg hc] at hok ⊢
        exact ih m (i + 1) (by omega) (by omega) hok p hp1 hp2 c j hcj

theorem readSlotBytes_decode (S off : Nat) (l : List Nat) (m : Medium)
    (hb : ∀ p, off ≤ p → p < off + 2 * l.length →
      ∀ c j, c * S + j = p →
      m.clusterBytes c j =
        (if (p - off) % 2 = 0 then l.getD ((p - off) / 2) 0 % 256
         else l.getD ((p - off) / 2) 0 / 256 % 256))
    (hv : ∀ v ∈ l, v < 65536) :
    readSlotBytes S off l.length m = l := by
  apply List.ext_getElem
  · simp [readSlotBytes]
  · intro k h1 h2
    simp only [readSlotBytes, List.getElem_map, List.getElem_range]
    have hk : k < l.length := h2
    have hdm0 : ((off + 2 * k) / S) * S + (off + 2 * k) % S = off + 2 * k := by
      rw [Nat.mul_comm]
      exact Nat.div_add_mod _ _
    have hdm1 : ((off + 2 * k + 1) / S) * S + (off + 2 * k + 1) % S =
        off + 2 * k + 1 := by
      rw [Nat.mul_comm]
      exact Nat.div_add_mod _ _
    have e0 := hb (off + 2 * k) (by omega) (by omega) _ _ hdm0
    have e1 := hb (off + 2 * k + 1) (by omega) (by omega) _ _ hdm1
    have hs0 : off + 2 * k - off = 2 * k := by omega
    have hs1 : off + 2 * k + 1 - off = 2 * k + 1 := by omega
    rw [hs0] at e0
    rw [hs1] at e1
    rw [if_pos (by omega)] at e0
    rw [if_neg (by omega)] at e1
    rw [e0, e1]
    rw [show 2 * k / 2 = k from by omega, show (2 * k + 1) / 2 = k from by omega]
    have hvk : l.getD k 0 < 65536 := by
      rw [List.getD_eq_getElem l 0 hk]
      exact hv _ (List.getElem_mem hk)
    rw [List.getD_eq_getElem l 0 hk] at hvk ⊢
    omega

theorem readClustersAux_congr_mem (S : Nat) (m1 m2 : Medium)
    (hs : m1.start_addr = m2.start_addr) (hz : m1.size = m2.size) :
    ∀ (todo acc : List Nat),
      (∀ c ∈ todo, ∀ j, m1.clusterBytes c j = m2.clusterBytes c j) →
      readClustersAux S m1 acc todo = readClustersAux S m2 acc todo := by
  intro todo
  induction todo with
  | nil => intro acc _; rfl
  | cons c rest ih =>
    intro acc hc
    rw [readClustersAux, readClustersAux, hs, hz]
    have hmap : (List.range S).map (m1.clusterBytes c) =
        (List.range S).map (m2.clusterBytes c) :=
      List.map_congr_left fun j _ => hc c (List.mem_cons_self c rest) j
    by_cases hb : m2.size < m2.start_addr + c * S + S
    · rw [if_pos hb, if_pos hb]
    · rw [if_neg hb, if_neg hb, hmap,
        ih _ (fun c2 hc2 j => hc c2 (List.mem_cons_of_mem c hc2) j)]

theorem readClustersAux_ok_ranges (S : Nat) (m : Medium) :
    ∀ (todo acc : List Nat),
      (readClustersAux S m acc todo).1 = ACFS_OK →
      ∀ c ∈ todo, ¬ (m.size < m.start_addr + c * S + S) := by
  intro todo
  induction todo with
  | nil => intro acc _ c hc; exact absurd hc (by simp)
  | cons c0 rest ih =>
    intro acc hok c hc
    rw [readClustersAux] at hok
    by_cases hb : m.size < m.start_addr + c0 * S + S
    · rw [if_pos hb] at hok
      exact absurd hok (by simp)
    · rw [if_neg hb] at hok
      rcases List.mem_cons.mp hc with h1 | h1
      · rw [h1]; exact hb
      · exact ih _ hok c h1

theorem save_entries_frame (a : Acfs) (m : Medium) :
    (acfs_save_entries a m).2.start_addr = m.start_addr ∧
    (acfs_save_entries a m).2.size = m.size ∧
    (acfs_save_entries a m).2.header = m.header := by
  rw [acfs_save_entries]
  by_cases hb : m.size < m.start_addr + SIZEOF_HEADER +
      a.header.data_entries * SIZEOF_ENTRY
  · rw [if_pos hb]; exact ⟨rfl, rfl, rfl⟩
  · rw [if_neg hb]
    have hfr := saveSlotsLoop_frame a.header.cluster_size a.entries
      (SIZEOF_HEADER + a.header.data_entries * SIZEOF_ENTRY)
      a.header.data_entries
      { m with entryRecs := (List.range a.header.data_entries).map a.entries } 0
    exact ⟨hfr.1, hfr.2.1, hfr.2.2.1⟩

theorem save_entries_ok_recs (a : Acfs) (m : Medium)
    (hok : (acfs_save_entries a m).1 = ACFS_OK) :
    (acfs_save_entries a m).2.entryRecs =
      (List.range a.header.data_entries).map a.entries := by
  rw [acfs_save_entries] at hok ⊢
  by_cases hb : m.size < m.start_addr + SIZEOF_HEADER +
      a.header.data_entries * SIZEOF_ENTRY
  · rw [if_pos hb] at hok
    exact absurd hok (by simp)
  · rw [if_neg hb]
    exact (saveSlotsLoop_frame a.header.cluster_size a.entries
      (SIZEOF_HEADER + a.header.data_entries * SIZEOF_ENTRY)
      a.header.data_entries
      { m with entryRecs := (List.range a.header.data_entries).map a.entries }
      0).2.2.2

theorem save_entries_data_intact (a : Acfs) (m : Medium) (B : Nat)
    (hmeta : ∀ t, t < a.header.data_entries → 0 < (a.entries t).cluster_count →
      SIZEOF_HEADER + a.header.data_entries * SIZEOF_ENTRY +
        t * (2 * ACFS_MAX_CLUSTERS) + 2 * (a.entries t).cluster_count ≤ B) :
    ∀ c j, B ≤ c * a.header.cluster_size + j →
      (acfs_save_entries a m).2.clusterBytes c j = m.clusterBytes c j := by
  intro c j hcj
  rw [acfs_save_entries]
  by_cases hb : m.size < m.start_addr + SIZEOF_HEADER +
      a.header.data_entries * SIZEOF_ENTRY
  · rw [if_pos hb]
  · rw [if_neg hb]
    rw [saveSlotsLoop_untouched a.header.cluster_size a.entries
      (SIZEOF_HEADER + a.header.data_entries * SIZEOF_ENTRY) B
      a.header.data_entries
      { m with entryRecs := (List.range a.header.data_entries).map a.entries } 0
      (fun t ht hcnt => by
        have := hmeta t (by omega) hcnt
        omega) c j hcj]

theorem save_entries_slot_saved (a : Acfs) (m : Medium) (idx : Nat) (l : List Nat)
    (hl : (a.entries idx).cluster_list = some l)
    (hidx : idx < a.header.data_entries)
    (hc65 : (a.entries idx).cluster_count ≤ 65535)
    (hlen : l.length = (a.entries idx).cluster_count)
    (hv : ∀ v ∈ l, v < 65536)
    (hok : (acfs_save_entries a m).1 = ACFS_OK) :
    readSlotBytes a.header.cluster_size
      (SIZEOF_HEADER + a.header.data_entries * SIZEOF_ENTRY +
        idx * (2 * ACFS_MAX_CLUSTERS)) l.length (acfs_save_entries a m).2 = l := by
  rw [acfs_save_entries] at hok ⊢
  by_cases hb : m.size < m.start_addr + SIZEOF_HEADER +
      a.header.data_entries * SIZEOF_ENTRY
  · rw [if_pos hb] at hok
    exact absurd hok (by simp)
  · rw [if_neg hb] at hok ⊢
    refine readSlotBytes_decode a.header.cluster_size _ l _ ?_ hv
    intro p hp1 hp2 c j hcj
    have := saveSlotsLoop_slot_bytes a.header.cluster_size a.entries
      (SIZEOF_HEADER + a.header.data_entries * SIZEOF_ENTRY) idx l hl hc65
      a.header.data_entries
      { m with entryRecs := (List.range a.header.data_entries).map a.entries } 0
      (Nat.zero_le idx) (by omega) hok p
      (by
        have hadd : SIZEOF_HEADER + a.header.data_entries * SIZEOF_ENTRY +
            idx * (2 * ACFS_MAX_CLUSTERS) =
            SIZEOF_HEADER + a.header.data_entries * SIZEOF_ENTRY +
              idx * (2 * ACFS_MAX_CLUSTERS) := rfl
        omega)
      (by rw [hlen] at hp2; omega) c j hcj
    exact this

theorem persistMeta_unfold (a : Acfs) (m : Medium)
    (hb : ¬ (m.size < m.start_addr + SIZEOF_HEADER)) :
    persistMeta a m =
      ((acfs_save_entries
          { a with
              header := { a.header with crc32 := acfs_crc32 (headerBytes a.header) } }
          { m with
              header := some ({ a.header with crc32 := acfs_crc32 (headerBytes a.header) }) }).1,
        { a with
            header := { a.header with crc32 := acfs_crc32 (headerBytes a.header) } },
        (acfs_save_entries
          { a with
              header := { a.header with crc32 := acfs_crc32 (headerBytes a.header) } }
          { m with
              header := some ({ a.header with crc32 := acfs_crc32 (headerBytes a.header) }) }).2) := by
  simp only [persistMeta, acfs_save_header]
  rw [if_neg hb]
  simp

theorem persistMeta_fail_bound (a : Acfs) (m : Medium)
    (hok : (persistMeta a m).1 = ACFS_OK) :
    ¬ (m.size < m.start_addr + SIZEOF_HEADER) := by
  intro hb
  rw [persistMeta, acfs_save_header] at hok
  rw [if_pos hb] at hok
  rw [if_pos (by simp)] at hok
  exact absurd hok (by simp)

theorem setEntry_header (a : Acfs) (idx : Nat) (e : Entry) :
    (setEntry a idx e).header = a.header := rfl

theorem setEntry_entries_self (a : Acfs) (idx : Nat) (e : Entry) :
    (setEntry a idx e).entries idx = e := by simp [setEntry]

theorem setEntry_entries_ne (a : Acfs) (idx : Nat) (e : Entry) (i : Nat)
    (h : i ≠ idx) : (setEntry a idx e).entries i = a.entries i := by
  simp [setEntry, h]

theorem finishWrite_unfold (a1 : Acfs) (m : Medium) (idx : Nat)
    (buf : Nat → Nat) (n : Nat) (l : List Nat)
    (hl : (a1.entries idx).cluster_list = some l) :
    finishWrite a1 m idx buf n =
      (if (acfs_write_clusters
            (setEntry a1 idx
              { a1.entries idx with
                data_size := n % 4294967296,
                crc32 := acfs_crc32 ((List.range n).map buf) })
            m l (a1.entries idx).cluster_count buf).1 ≠ ACFS_OK then
        ((acfs_write_clusters
            (setEntry a1 idx
              { a1.entries idx with
                data_size := n % 4294967296,
                crc32 := acfs_crc32 ((List.range n).map buf) })
            m l (a1.entries idx).cluster_count buf).1,
          setEntry a1 idx
            { a1.entries idx with
              data_size := n % 4294967296,
              crc32 := acfs_crc32 ((List.range n).map buf) },
          (acfs_write_clusters
            (setEntry a1 idx
              { a1.entries idx with
                data_size := n % 4294967296,
                crc32 := acfs_crc32 ((List.range n).map buf) })
            m l (a1.entries idx).cluster_count buf).2)
      else
        persistMeta
          (setEntry a1 idx
            { a1.entries idx with
              data_size := n % 4294967296,
              crc32 := acfs_crc32 ((List.range n).map buf) })
          (acfs_write_clusters
            (setEntry a1 idx
              { a1.entries idx with
                data_size := n % 4294967296,
                crc32 := acfs_crc32 ((List.range n).map buf) })
            m l (a1.entries idx).cluster_count buf).2) := by
  simp only [finishWrite, hl, Option.getD_some]

theorem tuple3_fst (e : AcfsError) (x : Acfs) (md : Medium) :
    ((e, x, md) : AcfsError × Acfs × Medium).1 = e := rfl

theorem tuple3_snd1 (e : AcfsError) (x : Acfs) (md : Medium) :
    ((e, x, md) : AcfsError × Acfs × Medium).2.1 = x := rfl

theorem tuple3_snd2 (e : AcfsError) (x : Acfs) (md : Medium) :
    ((e, x, md) : AcfsError × Acfs × Medium).2.2 = md := rfl

theorem persistMeta_medium (a : Acfs) (m : Medium) :
    (persistMeta a m).2.2.start_addr = m.start_addr ∧
    (persistMeta a m).2.2.size = m.size := by
  rw [persistMeta, acfs_save_header]
  by_cases hb : m.size < m.start_addr + SIZEOF_HEADER
  · rw [if_pos hb, if_pos (by simp)]
    exact ⟨rfl, rfl⟩
  · rw [if_neg hb, if_neg (by simp)]
    exact ⟨(save_entries_frame _ _).1, (save_entries_frame _ _).2.1⟩

theorem persistMeta_data_intact (a : Acfs) (m : Medium) (B : Nat)
    (hmeta : ∀ t, t < a.header.data_entries → 0 < (a.entries t).cluster_count →
      SIZEOF_HEADER + a.header.data_entries * SIZEOF_ENTRY +
        t * (2 * ACFS_MAX_CLUSTERS) + 2 * (a.entries t).cluster_count ≤ B) :
    ∀ c j, B ≤ c * a.header.cluster_size + j →
      (persistMeta a m).2.2.clusterBytes c j = m.clusterBytes c j := by
  intro c j hcj
  rw [persistMeta, acfs_save_header]
  by_cases hb : m.size < m.start_addr + SIZEOF_HEADER
  · rw [if_pos hb, if_pos (by simp)]
  · rw [if_neg hb, if_neg (by simp)]
    exact save_entries_data_intact _ _ B hmeta c j hcj

theorem persistMeta_slot_saved (a : Acfs) (m : Medium) (idx : Nat) (l : List Nat)
    (hl : (a.entries idx).cluster_list = some l)
    (hidx : idx < a.header.data_entries)
    (hc65 : (a.entries idx).cluster_count ≤ 65535)
    (hlen : l.length = (a.entries idx).cluster_count)
    (hv : ∀ v ∈ l, v < 65536)
    (hok : (persistMeta a m).1 = ACFS_OK) :
    readSlotBytes a.header.cluster_size
      (SIZEOF_HEADER + a.header.data_entries * SIZEOF_ENTRY +
        idx * (2 * ACFS_MAX_CLUSTERS)) l.length (persistMeta a m).2.2 = l := by
  have hbm := persistMeta_fail_bound a m hok
  rw [persistMeta_unfold a m hbm] at hok ⊢
  rw [tuple3_fst] at hok
  rw [tuple3_snd2]
  exact save_entries_slot_saved
    { a with
        header := { a.header with crc32 := acfs_crc32 (headerBytes a.header) } }
    { m with
        header := some ({ a.header with crc32 := acfs_crc32 (headerBytes a.header) }) }
    idx l hl hidx hc65 hlen hv hok

theorem finishWrite_ok_spec (a1 : Acfs) (m : Medium) (idx : Nat)
    (buf : Nat → Nat) (n : Nat) (l : List Nat)
    (hl : (a1.entries idx).cluster_list = some l)
    (hlen : l.length = (a1.entries idx).cluster_count)
    (hok : (finishWrite a1 m idx buf n).1 = ACFS_OK) :
    (finishWrite a1 m idx buf n).2.1.entries idx =
      { a1.entries idx with
        data_size := n % 4294967296,
        crc32 := acfs_crc32 ((List.range n).map buf) } ∧
    (∀ i, i ≠ idx → (finishWrite a1 m idx buf n).2.1.entries i = a1.entries i) ∧
    (finishWrite a1 m idx buf n).2.1.header =
      { a1.header with crc32 := acfs_crc32 (headerBytes a1.header) } ∧
    (finishWrite a1 m idx buf n).2.1.cluster_bitmap = a1.cluster_bitmap ∧
    (finishWrite a1 m idx buf n).2.1.initialized = a1.initialized ∧
    (finishWrite a1 m idx buf n).2.2.header =
      some (finishWrite a1 m idx buf n).2.1.header ∧
    (finishWrite a1 m idx buf n).2.2.entryRecs =
      (List.range a1.header.data_entries).map (finishWrite a1 m idx buf n).2.1.entries ∧
    (finishWrite a1 m idx buf n).2.2.size = m.size ∧
    (finishWrite a1 m idx buf n).2.2.start_addr = m.start_addr ∧
    ¬ (m.size < m.start_addr + SIZEOF_HEADER) := by
  have hil : indexList l ((a1.entries idx).cluster_count) = l := by
    rw [← hlen, indexList_eq_self]
  have hunf := finishWrite_unfold a1 m idx buf n l hl
  have hwc : (acfs_write_clusters
      (setEntry a1 idx
        { a1.entries idx with
          data_size := n % 4294967296,
          crc32 := acfs_crc32 ((List.range n).map buf) })
      m l (a1.entries idx).cluster_count buf).1 = ACFS_OK := by
    by_contra hno
    rw [hunf, if_pos hno] at hok
    exact hno hok
  rw [hunf, if_neg (by simp [hwc])] at hok ⊢
  rw [acfs_write_clusters, hil] at hwc hok ⊢
  simp only [setEntry_header] at hwc hok ⊢
  have hpres : (writeClustersAux a1.header.cluster_size buf m l 0).2.start_addr =
      m.start_addr ∧
      (writeClustersAux a1.header.cluster_size buf m l 0).2.size = m.size := by
    have := writeClustersAux_preserves a1.header.cluster_size buf l m 0
    exact ⟨this.1, this.2.1⟩
  have hbm : ¬ (m.size < m.start_addr + SIZEOF_HEADER) := by
    have := persistMeta_fail_bound _ _ hok
    rwa [hpres.1, hpres.2] at this
  have hper := persistMeta_unfold
    (setEntry a1 idx
      { a1.entries idx with
        data_size := n % 4294967296,
        crc32 := acfs_crc32 ((List.range n).map buf) })
    (writeClustersAux a1.header.cluster_size buf m l 0).2
    (by rw [hpres.1, hpres.2]; exact hbm)
  rw [hper] at hok
  rw [tuple3_fst] at hok
  refine ⟨?_, ?_, ?_, ?_, ?_, ?_, ?_, ?_, ?_, hbm⟩
  · rw [hper]; simp [setEntry]
  · intro i hi; rw [hper]; simp [setEntry, hi]
  · rw [hper]; rfl
  · rw [hper]; rfl
  · rw [hper]; rfl
  · rw [hper, tuple3_snd2, tuple3_snd1, (save_entries_frame _ _).2.2]
  · rw [hper, tuple3_snd2, tuple3_snd1, save_entries_ok_recs _ _ hok]
    rfl
  · rw [hper, tuple3_snd2, (save_entries_frame _ _).2.1]
    exact hpres.2
  · rw [hper, tuple3_snd2, (save_entries_frame _ _).1]
    exact hpres.1

theorem finishWrite_data_intact (a1 : Acfs) (m : Medium) (idx : Nat)
    (buf : Nat → Nat) (n : Nat) (l : List Nat)
    (hl : (a1.entries idx).cluster_list = some l)
    (hlen : l.length = (a1.entries idx).cluster_count)
    (hnodup : l.Nodup)
    (hsys : ∀ c ∈ l, a1.header.sys_clusters ≤ c)
    (hmeta : ∀ t, t < a1.header.data_entries → 0 < (a1.entries t).cluster_count →
      SIZEOF_HEADER + a1.header.data_entries * SIZEOF_ENTRY +
        t * (2 * ACFS_MAX_CLUSTERS) + 2 * (a1.entries t).cluster_count ≤
      a1.header.sys_clusters * a1.header.cluster_size)
    (hok : (finishWrite a1 m idx buf n).1 = ACFS_OK) :
    readClustersAux a1.header.cluster_size (finishWrite a1 m idx buf n).2.2 [] l =
      (ACFS_OK,
        (List.range ((a1.entries idx).cluster_count * a1.header.cluster_size)).map
          buf) := by
  have hil : indexList l ((a1.entries idx).cluster_count) = l := by
    rw [← hlen, indexList_eq_self]
  have hunf := finishWrite_unfold a1 m idx buf n l hl
  have hwc : (acfs_write_clusters
      (setEntry a1 idx
        { a1.entries idx with
          data_size := n % 4294967296,
          crc32 := acfs_crc32 ((List.range n).map buf) })
      m l (a1.entries idx).cluster_count buf).1 = ACFS_OK := by
    by_contra hno
    rw [hunf, if_pos hno] at hok
    exact hno hok
  rw [hunf, if_neg (by simp [hwc])] at hok ⊢
  rw [acfs_write_clusters, hil] at hwc hok ⊢
  simp only [setEntry_header] at hwc hok ⊢
  obtain ⟨hms, hmz⟩ := persistMeta_medium
    (setEntry a1 idx
      { a1.entries idx with
        data_size := n % 4294967296,
        crc32 := acfs_crc32 ((List.range n).map buf) })
    (writeClustersAux a1.header.cluster_size buf m l 0).2
  rw [readClustersAux_congr_mem a1.header.cluster_size _
    (writeClustersAux a1.header.cluster_size buf m l 0).2 hms hmz l []
    (fun c hcm j => by
      refine persistMeta_data_intact _ _
        (a1.header.sys_clusters * a1.header.cluster_size) ?_ c j ?_
      · intro t ht hcnt
        by_cases hti : t = idx
        · subst hti
          rw [setEntry_entries_self] at hcnt ⊢
          exact hmeta t ht hcnt
        · rw [setEntry_entries_ne _ _ _ _ hti] at hcnt ⊢
          exact hmeta t ht hcnt
      · have hc1 := hsys c hcm
        have hc2 : a1.header.sys_clusters * a1.header.cluster_size ≤
            c * a1.header.cluster_size := Nat.mul_le_mul_right _ hc1
        rw [setEntry_header]
        omega)]
  rw [clusters_roundtrip a1.header.cluster_size buf l m 0 [] hnodup hwc]
  rw [List.nil_append, hlen]
  congr 1
  apply List.map_congr_left
  intro t _
  simp

theorem finishWrite_slot_saved (a1 : Acfs) (m : Medium) (idx : Nat)
    (buf : Nat → Nat) (n : Nat) (l : List Nat)
    (hl : (a1.entries idx).cluster_list = some l)
    (hlen : l.length = (a1.entries idx).cluster_count)
    (hidx : idx < a1.header.data_entries)
    (hc65 : (a1.entries idx).cluster_count ≤ 65535)
    (hv : ∀ v ∈ l, v < 65536)
    (hok : (finishWrite a1 m idx buf n).1 = ACFS_OK) :
    readSlotBytes a1.header.cluster_size
      (SIZEOF_HEADER + a1.header.data_entries * SIZEOF_ENTRY +
        idx * (2 * ACFS_MAX_CLUSTERS)) l.length
      (finishWrite a1 m idx buf n).2.2 = l := by
  have hil : indexList l ((a1.entries idx).cluster_count) = l := by
    rw [← hlen, indexList_eq_self]
  have hunf := finishWrite_unfold a1 m idx buf n l hl
  have hwc : (acfs_write_clusters
      (setEntry a1 idx
        { a1.entries idx with
          data_size := n % 4294967296,
          crc32 := acfs_crc32 ((List.range n).map buf) })
      m l (a1.entries idx).cluster_count buf).1 = ACFS_OK := by
    by_contra hno
    rw [hunf, if_pos hno] at hok
    exact hno hok
  rw [hunf, if_neg (by simp [hwc])] at hok ⊢
  rw [acfs_write_clusters, hil] at hwc hok ⊢
  simp only [setEntry_header] at hwc hok ⊢
  exact persistMeta_slot_saved
    (setEntry a1 idx
      { a1.entries idx with
        data_size := n % 4294967296,
        crc32 := acfs_crc32 ((List.range n).map buf) })
    (writeClustersAux a1.header.cluster_size buf m l 0).2 idx l
    (by rw [setEntry_entries_self]; exact hl)
    (by rw [setEntry_header]; exact hidx)
    (by rw [setEntry_entries_self]; exact hc65)
    (by rw [setEntry_entries_self]; exact hlen)
    hv hok

theorem write_ok_valid (a : Acfs) (m : Medium) (id : List Nat) (buf : Nat → Nat)
    (n : Nat) (hw : (acfs_write a m id buf n).1 = ACFS_OK) :
    n ≠ 0 ∧ a.initialized = true ∧ id.length < 32 := by
  have hn : n ≠ 0 := by
    intro hn
    rw [acfs_write, if_pos hn] at hw
    exact absurd hw (by simp)
  have hi : a.initialized = true := by
    by_contra hi
    have hif : a.initialized = false := by
      cases h : a.initialized
      · rfl
      · exact absurd h hi
    rw [acfs_write, if_neg hn, if_pos hif] at hw
    exact absurd hw (by simp)
  have hlen : id.length < 32 := by
    by_contra hl
    rw [acfs_write, if_neg hn, if_neg (by rw [hi]; simp),
      if_pos (by simp only [ACFS_MAX_DATA_ID_LEN]; omega)] at hw
    exact absurd hw (by simp)
  exact ⟨hn, hi, hlen⟩

theorem acfs_write_unfold_hit_eq (a : Acfs) (m : Medium) (id : List Nat)
    (buf : Nat → Nat) (n : Nat) (idx : Nat)
    (hn : n ≠ 0) (hi : a.initialized = true) (hlen : id.length < 32)
    (hf : acfs_find_entry a id = some idx)
    (hkeq : (a.entries idx).cluster_count =
      acfs_calculate_clusters_needed a.header.cluster_size n) :
    acfs_write a m id buf n = finishWrite a m idx buf n := by
  rw [acfs_write, if_neg hn, if_neg (by rw [hi]; simp),
    if_neg (by simp only [ACFS_MAX_DATA_ID_LEN]; omega)]
  simp only [hf]
  rw [if_neg (by simp [hkeq])]

theorem acfs_write_unfold_hit_realloc (a : Acfs) (m : Medium) (id : List Nat)
    (buf : Nat → Nat) (n : Nat) (idx : Nat)
    (hn : n ≠ 0) (hi : a.initialized = true) (hlen : id.length < 32)
    (hf : acfs_find_entry a id = some idx)
    (hkne : (a.entries idx).cluster_count ≠
      acfs_calculate_clusters_needed a.header.cluster_size n)
    (hal : (acfs_allocate_clusters
        (acfs_free_clusters a ((a.entries idx).cluster_list.getD [])
          (a.entries idx).cluster_count)
        (acfs_calculate_clusters_needed a.header.cluster_size n)).1 = ACFS_OK) :
    acfs_write a m id buf n =
      finishWrite
        (setEntry
          (acfs_allocate_clusters
            (acfs_free_clusters a ((a.entries idx).cluster_list.getD [])
              (a.entries idx).cluster_count)
            (acfs_calculate_clusters_needed a.header.cluster_size n)).2.1
          idx
          { a.entries idx with
            cluster_list := some (acfs_allocate_clusters
              (acfs_free_clusters a ((a.entries idx).cluster_list.getD [])
                (a.entries idx).cluster_count)
              (acfs_calculate_clusters_needed a.header.cluster_size n)).2.2,
            cluster_count := acfs_calculate_clusters_needed a.header.cluster_size n })
        m idx buf n := by
  rw [acfs_write, if_neg hn, if_neg (by rw [hi]; simp),
    if_neg (by simp only [ACFS_MAX_DATA_ID_LEN]; omega)]
  simp only [hf]
  rw [if_pos hkne, if_neg (by simp [hal])]

theorem acfs_write_unfold_miss (a : Acfs) (m : Medium) (id : List Nat)
    (buf : Nat → Nat) (n : Nat)
    (hn : n ≠ 0) (hi : a.initialized = true) (hlen : id.length < 32)
    (hf : acfs_find_entry a id = none)
    (hcap : a.header.data_entries < maxEntriesOf a.header)
    (hal : (acfs_allocate_clusters a
      (acfs_calculate_clusters_needed a.header.cluster_size n)).1 = ACFS_OK) :
    acfs_write a m id buf n =
      finishWrite
        { setEntry
            (acfs_allocate_clusters a
              (acfs_calculate_clusters_needed a.header.cluster_size n)).2.1
            a.header.data_entries
            { a.entries a.header.data_entries with
              data_id := id.take (ACFS_MAX_DATA_ID_LEN - 1),
              cluster_list := some (acfs_allocate_clusters a
                (acfs_calculate_clusters_needed a.header.cluster_size n)).2.2,
              cluster_count := acfs_calculate_clusters_needed a.header.cluster_size n,
              is_valid := true } with
          header := { (acfs_allocate_clusters a
              (acfs_calculate_clusters_needed a.header.cluster_size n)).2.1.header with
            data_entries := ((acfs_allocate_clusters a
              (acfs_calculate_clusters_needed a.header.cluster_size n)).2.1.header.data_entries
              + 1) % 65536 } }
        m a.header.data_entries buf n := by
  rw [acfs_write, if_neg hn, if_neg (by rw [hi]; simp),
    if_neg (by simp only [ACFS_MAX_DATA_ID_LEN]; omega)]
  simp only [hf]
  rw [if_neg (by omega), if_neg (by simp [hal])]
  rfl

theorem entryMatches_set_size_crc (e : Entry) (x y : Nat) (id : List Nat) :
    entryMatches { e with data_size := x, crc32 := y } id = entryMatches e id := rfl

theorem find_some_facts (a : Acfs) (id : List Nat) (idx : Nat)
    (hf : acfs_find_entry a id = some idx) :
    idx < a.header.data_entries ∧ entryMatches (a.entries idx) id = true ∧
    ∀ t, t < idx → entryMatches (a.entries t) id = false := by
  rw [acfs_find_entry] at hf
  have h := (findLoop_eq_some a.entries id a.header.data_entries 0 idx).mp hf
  exact ⟨by omega, h.2.2.1, fun t ht => h.2.2.2 t (by omega) ht⟩

theorem find_none_facts (a : Acfs) (id : List Nat)
    (hf : acfs_find_entry a id = none) :
    ∀ t, t < a.header.data_entries → entryMatches (a.entries t) id = false := by
  rw [acfs_find_entry] at hf
  have h := (findLoop_eq_none a.entries id a.header.data_entries 0).mp hf
  intro t ht
  have := h t ht
  simpa using this

theorem find_of_facts (a : Acfs) (id : List Nat) (idx : Nat)
    (h1 : idx < a.header.data_entries)
    (h2 : entryMatches (a.entries idx) id = true)
    (h3 : ∀ t, t < idx → entryMatches (a.entries t) id = false) :
    acfs_find_entry a id = some idx := by
  rw [acfs_find_entry]
  exact (findLoop_eq_some a.entries id a.header.data_entries 0 idx).mpr
    ⟨Nat.zero_le idx, by omega, h2, fun t _ ht => h3 t ht⟩

theorem acfs_find_entry_congr (a2 a1 : Acfs) (id : List Nat)
    (hE : a2.header.data_entries = a1.header.data_entries)
    (h : ∀ i, entryMatches (a2.entries i) id = entryMatches (a1.entries i) id) :
    acfs_find_entry a2 id = acfs_find_entry a1 id := by
  rw [acfs_find_entry, acfs_find_entry, hE]
  exact findLoop_congr a2.entries a1.entries id a1.header.data_entries 0
    fun k _ => h (0 + k)

theorem allocate_ok_state (a : Acfs) (count : Nat)
    (hal : (acfs_allocate_clusters a count).1 = ACFS_OK) :
    (acfs_allocate_clusters a count).2.1.entries = a.entries ∧
    (acfs_allocate_clusters a count).2.1.header.cluster_size = a.header.cluster_size ∧
    (acfs_allocate_clusters a count).2.1.header.magic = a.header.magic ∧
    (acfs_allocate_clusters a count).2.1.header.data_entries = a.header.data_entries ∧
    (acfs_allocate_clusters a count).2.1.initialized = a.initialized ∧
    (acfs_allocate_clusters a count).2.2.length = count ∧
    (acfs_allocate_clusters a count).2.2.Nodup := by
  obtain ⟨heq, hlen, _⟩ := allocate_ok_eq a count hal
  rw [heq]
  refine ⟨rfl, rfl, rfl, rfl, rfl, hlen, ?_⟩
  show (allocScan a count).Nodup
  exact (scanFree_pairwise a.cluster_bitmap _ _ _).imp Nat.ne_of_lt

theorem write_ok_spec_hit_eq (a : Acfs) (m : Medium) (id : List Nat)
    (buf : Nat → Nat) (n : Nat) (idx : Nat)
    (hM : Mounted a)
    (hf : acfs_find_entry a id = some idx)
    (hkeq : (a.entries idx).cluster_count =
      acfs_calculate_clusters_needed a.header.cluster_size n)
    (hw : (acfs_write a m id buf n).1 = ACFS_OK) :
    WriteOk a m id buf n (acfs_write a m id buf n) idx
      ((a.entries idx).cluster_list.getD []) := by
  obtain ⟨hn, hi, hlen32⟩ := write_ok_valid a m id buf n hw
  obtain ⟨hidx, hmatch, _⟩ := find_some_facts a id idx hf
  have heok := hM.2.2.2.2.2.2.2 idx hidx
  have hunf := acfs_write_unfold_hit_eq a m id buf n idx hn hi hlen32 hf hkeq
  have hokF : (finishWrite a m idx buf n).1 = ACFS_OK := by
    rw [← hunf]; exact hw
  obtain ⟨b1, b2, b3, b4, b5, b6, b7, b8, b9, b10⟩ :=
    finishWrite_ok_spec a m idx buf n ((a.entries idx).cluster_list.getD [])
      heok.2.1 heok.2.2.1 hokF
  rw [hunf] at hw ⊢
  have hfind : acfs_find_entry (finishWrite a m idx buf n).2.1 id =
      acfs_find_entry a id := by
    apply acfs_find_entry_congr
    · rw [b3]
    · intro i
      by_cases hii : i = idx
      · subst hii; rw [b1, entryMatches_set_size_crc]
      · rw [b2 i hii]
  refine ⟨by rw [hfind]; exact hf, by rw [b3]; exact hidx, by rw [b1],
    by rw [b1], ?_, ?_, ?_, heok.2.2.2.1, heok.2.2.1.trans hkeq, ?_, ?_, ?_, ?_, ?_,
    b6, ?_, ?_⟩
  · rw [b1]
    show (a.entries idx).cluster_list = _
    exact heok.2.1
  · rw [b1]
    show (a.entries idx).cluster_count = _
    exact hkeq
  · rw [b1]
    show (a.entries idx).is_valid = true
    exact heok.1
  · rw [b3]
  · rw [b3]
  · rw [b3]
    show a.header.data_entries < 65536
    have hE65 : a.header.data_entries < 65535 := hM.2.2.2.2.2.2.1
    omega
  · rw [b5]
    exact hi
  · rw [b3]
    exact rfl
  · rw [b3]
    exact b7
  · rw [b8, b9]
    exact b10

theorem entryMatches_set_list_count (e : Entry) (ol : Option (List Nat)) (c : Nat)
    (id : List Nat) :
    entryMatches { e with cluster_list := ol, cluster_count := c } id =
      entryMatches e id := rfl

theorem write_ok_spec_hit_realloc (a : Acfs) (m : Medium) (id : List Nat)
    (buf : Nat → Nat) (n : Nat) (idx : Nat)
    (hM : Mounted a)
    (hf : acfs_find_entry a id = some idx)
    (hkne : (a.entries idx).cluster_count ≠
      acfs_calculate_clusters_needed a.header.cluster_size n)
    (hw : (acfs_write a m id buf n).1 = ACFS_OK) :
    WriteOk a m id buf n (acfs_write a m id buf n) idx
      (acfs_allocate_clusters
        (acfs_free_clusters a ((a.entries idx).cluster_list.getD [])
          (a.entries idx).cluster_count)
        (acfs_calculate_clusters_needed a.header.cluster_size n)).2.2 := by
  obtain ⟨hn, hi, hlen32⟩ := write_ok_valid a m id buf n hw
  obtain ⟨hidx, hmatch, _⟩ := find_some_facts a id idx hf
  have heok := hM.2.2.2.2.2.2.2 idx hidx
  have hal : (acfs_allocate_clusters
      (acfs_free_clusters a ((a.entries idx).cluster_list.getD [])
        (a.entries idx).cluster_count)
      (acfs_calculate_clusters_needed a.header.cluster_size n)).1 = ACFS_OK := by
    rcases allocate_err
      (acfs_free_clusters a ((a.entries idx).cluster_list.getD [])
        (a.entries idx).cluster_count)
      (acfs_calculate_clusters_needed a.header.cluster_size n) with h | h
    · exact h
    · exfalso
      rw [acfs_write, if_neg hn, if_neg (by rw [hi]; simp),
        if_neg (by simp only [ACFS_MAX_DATA_ID_LEN]; omega)] at hw
      simp only [hf] at hw
      rw [if_pos hkne, if_pos (by simp [h])] at hw
      rw [h] at hw
      exact absurd hw (by simp)
  obtain ⟨hALent, hALcs, hALmagic, hALE, hALinit, hLlen, hLnd⟩ :=
    allocate_ok_state
      (acfs_free_clusters a ((a.entries idx).cluster_list.getD [])
        (a.entries idx).cluster_count)
      (acfs_calculate_clusters_needed a.header.cluster_size n) hal
  have hunf := acfs_write_unfold_hit_realloc a m id buf n idx hn hi hlen32 hf hkne hal
  rw [hunf] at hw
  obtain ⟨b1, b2, b3, b4, b5, b6, b7, b8, b9, b10⟩ :=
    finishWrite_ok_spec _ m idx buf n
      (acfs_allocate_clusters
        (acfs_free_clusters a ((a.entries idx).cluster_list.getD [])
          (a.entries idx).cluster_count)
        (acfs_calculate_clusters_needed a.header.cluster_size n)).2.2
      (by rw [setEntry_entries_self])
      (by rw [setEntry_entries_self]; exact hLlen)
      hw
  have hfind1 : acfs_find_entry
      (setEntry
        (acfs_allocate_clusters
          (acfs_free_clusters a ((a.entries idx).cluster_list.getD [])
            (a.entries idx).cluster_count)
          (acfs_calculate_clusters_needed a.header.cluster_size n)).2.1
        idx
        { a.entries idx with
          cluster_list := some (acfs_allocate_clusters
            (acfs_free_clusters a ((a.entries idx).cluster_list.getD [])
              (a.entries idx).cluster_count)
            (acfs_calculate_clusters_needed a.header.cluster_size n)).2.2,
          cluster_count := acfs_calculate_clusters_needed a.header.cluster_size n })
      id = some idx := by
    rw [find_setEntry_eq _ idx _ id
      (by rw [hALent]; exact entryMatches_set_list_count _ _ _ id)]
    rw [acfs_find_entry_congr _ a id (by exact hALE)
      (fun i => by exact congrArg (fun e => entryMatches e id) (congrFun hALent i))]
    exact hf
  rw [hunf]
  have hcc : ((finishWrite
      (setEntry
        (acfs_allocate_clusters
          (acfs_free_clusters a ((a.entries idx).cluster_list.getD [])
            (a.entries idx).cluster_count)
          (acfs_calculate_clusters_needed a.header.cluster_size n)).2.1
        idx
        { a.entries idx with
          cluster_list := some (acfs_allocate_clusters
            (acfs_free_clusters a ((a.entries idx).cluster_list.getD [])
              (a.entries idx).cluster_count)
            (acfs_calculate_clusters_needed a.header.cluster_size n)).2.2,
          cluster_count := acfs_calculate_clusters_needed a.header.cluster_size n })
      m idx buf n).2.1.entries idx).cluster_count =
      acfs_calculate_clusters_needed a.header.cluster_size n := by
    rw [b1, setEntry_entries_self]
  refine ⟨?_, ?_, by rw [b1], by rw [b1], ?_, hcc, ?_, hLnd, hLlen, ?_, ?_, ?_, ?_, ?_,
    b6, ?_, ?_⟩
  · have hfind : acfs_find_entry (finishWrite
        (setEntry
          (acfs_allocate_clusters
            (acfs_free_clusters a ((a.entries idx).cluster_list.getD [])
              (a.entries idx).cluster_count)
            (acfs_calculate_clusters_needed a.header.cluster_size n)).2.1
          idx
          { a.entries idx with
            cluster_list := some (acfs_allocate_clusters
              (acfs_free_clusters a ((a.entries idx).cluster_list.getD [])
                (a.entries idx).cluster_count)
              (acfs_calculate_clusters_needed a.header.cluster_size n)).2.2,
            cluster_count := acfs_calculate_clusters_needed a.header.cluster_size n })
        m idx buf n).2.1 id =
      acfs_find_entry
        (setEntry
          (acfs_allocate_clusters
            (acfs_free_clusters a ((a.entries idx).cluster_list.getD [])
              (a.entries idx).cluster_count)
            (acfs_calculate_clusters_needed a.header.cluster_size n)).2.1
          idx
          { a.entries idx with
            cluster_list := some (acfs_allocate_clusters
              (acfs_free_clusters a ((a.entries idx).cluster_list.getD [])
                (a.entries idx).cluster_count)
              (acfs_calculate_clusters_needed a.header.cluster_size n)).2.2,
            cluster_count := acfs_calculate_clusters_needed a.header.cluster_size n })
        id := by
      apply acfs_find_entry_congr
      · rw [b3]
      · intro i
        by_cases hii : i = idx
        · subst hii; rw [b1, entryMatches_set_size_crc]
        · rw [b2 i hii]
    rw [hfind]
    exact hfind1
  · rw [b3]
    exact lt_of_lt_of_eq hidx hALE.symm
  · rw [b1]
    rw [setEntry_entries_self]
  · rw [b1]
    rw [setEntry_entries_self]
    exact heok.1
  · rw [b3]
    exact hALcs
  · rw [b3]
    exact hALmagic
  · rw [b3]
    exact lt_of_eq_of_lt hALE (show a.header.data_entries < 65536 by
      have hE65 : a.header.data_entries < 65535 := hM.2.2.2.2.2.2.1
      omega)
  · rw [b5]
    exact hALinit.trans hi
  · rw [b3]
    exact rfl
  · rw [b3]
    exact b7
  · rw [b8, b9]
    exact b10
theorem withHeader_entries (x : Acfs) (h : Header) :
    ({ x with header := h } : Acfs).entries = x.entries := rfl

theorem withHeader_header (x : Acfs) (h : Header) :
    ({ x with header := h } : Acfs).header = h := rfl

theorem withHeader_initialized (x : Acfs) (h : Header) :
    ({ x with header := h } : Acfs).initialized = x.initialized := rfl

theorem write_ok_spec_miss (a : Acfs) (m : Medium) (id : List Nat)
    (buf : Nat → Nat) (n : Nat)
    (hM : Mounted a)
    (hf : acfs_find_entry a id = none)
    (hw : (acfs_write a m id buf n).1 = ACFS_OK) :
    WriteOk a m id buf n (acfs_write a m id buf n) a.header.data_entries
      (acfs_allocate_clusters a
        (acfs_calculate_clusters_needed a.header.cluster_size n)).2.2 := by
  obtain ⟨hn, hi, hlen32⟩ := write_ok_valid a m id buf n hw
  have hE65 : a.header.data_entries < 65535 := hM.2.2.2.2.2.2.1
  have hcap : a.header.data_entries < maxEntriesOf a.header := by
    by_contra hc
    rw [acfs_write, if_neg hn, if_neg (by rw [hi]; simp),
      if_neg (by simp only [ACFS_MAX_DATA_ID_LEN]; omega)] at hw
    simp only [hf] at hw
    rw [if_pos (by omega)] at hw
    exact absurd hw (by simp)
  have hal : (acfs_allocate_clusters a
      (acfs_calculate_clusters_needed a.header.cluster_size n)).1 = ACFS_OK := by
    rcases allocate_err a
      (acfs_calculate_clusters_needed a.header.cluster_size n) with h | h
    · exact h
    · exfalso
      rw [acfs_write, if_neg hn, if_neg (by rw [hi]; simp),
        if_neg (by simp only [ACFS_MAX_DATA_ID_LEN]; omega)] at hw
      simp only [hf] at hw
      rw [if_neg (by omega), if_pos (by simp [h])] at hw
      rw [h] at hw
      exact absurd hw (by simp)
  obtain ⟨hALent, hALcs, hALmagic, hALE, hALinit, hLlen, hLnd⟩ :=
    allocate_ok_state a (acfs_calculate_clusters_needed a.header.cluster_size n) hal
  have hidxA : a.header.data_entries <
      ((acfs_allocate_clusters a
        (acfs_calculate_clusters_needed a.header.cluster_size n)).2.1.header.data_entries
        + 1) % 65536 := by
    rw [hALE, Nat.mod_eq_of_lt (by omega)]
    omega
  have hunf := acfs_write_unfold_miss a m id buf n hn hi hlen32 hf hcap hal
  rw [hunf] at hw
  obtain ⟨b1, b2, b3, b4, b5, b6, b7, b8, b9, b10⟩ :=
    finishWrite_ok_spec _ m a.header.data_entries buf n
      (acfs_allocate_clusters a
        (acfs_calculate_clusters_needed a.header.cluster_size n)).2.2
      (by rw [withHeader_entries, setEntry_entries_self])
      (by rw [withHeader_entries, setEntry_entries_self]; exact hLlen)
      hw
  have hS2 : ({ setEntry
      (acfs_allocate_clusters a
        (acfs_calculate_clusters_needed a.header.cluster_size n)).2.1
      a.header.data_entries
      { a.entries a.header.data_entries with
        data_id := id.take (ACFS_MAX_DATA_ID_LEN - 1),
        cluster_list := some (acfs_allocate_clusters a
          (acfs_calculate_clusters_needed a.header.cluster_size n)).2.2,
        cluster_count := acfs_calculate_clusters_needed a.header.cluster_size n,
        is_valid := true } with
    header := { (acfs_allocate_clusters a
        (acfs_calculate_clusters_needed a.header.cluster_size n)).2.1.header with
      data_entries := ((acfs_allocate_clusters a
        (acfs_calculate_clusters_needed a.header.cluster_size n)).2.1.header.data_entries
        + 1) % 65536 } } : Acfs).header.cluster_size = a.header.cluster_size := by
    rw [withHeader_header]
    exact hALcs
  have hcntA2 : (({ setEntry
      (acfs_allocate_clusters a
        (acfs_calculate_clusters_needed a.header.cluster_size n)).2.1
      a.header.data_entries
      { a.entries a.header.data_entries with
        data_id := id.take (ACFS_MAX_DATA_ID_LEN - 1),
        cluster_list := some (acfs_allocate_clusters a
          (acfs_calculate_clusters_needed a.header.cluster_size n)).2.2,
        cluster_count := acfs_calculate_clusters_needed a.header.cluster_size n,
        is_valid := true } with
    header := { (acfs_allocate_clusters a
        (acfs_calculate_clusters_needed a.header.cluster_size n)).2.1.header with
      data_entries := ((acfs_allocate_clusters a
        (acfs_calculate_clusters_needed a.header.cluster_size n)).2.1.header.data_entries
        + 1) % 65536 } } : Acfs).entries a.header.data_entries).cluster_count =
      acfs_calculate_clusters_needed a.header.cluster_size n := by
    rw [withHeader_entries, setEntry_entries_self]
  have hfind2 : acfs_find_entry
      ({ setEntry
        (acfs_allocate_clusters a
          (acfs_calculate_clusters_needed a.header.cluster_size n)).2.1
        a.header.data_entries
        { a.entries a.header.data_entries with
          data_id := id.take (ACFS_MAX_DATA_ID_LEN - 1),
          cluster_list := some (acfs_allocate_clusters a
            (acfs_calculate_clusters_needed a.header.cluster_size n)).2.2,
          cluster_count := acfs_calculate_clusters_needed a.header.cluster_size n,
          is_valid := true } with
      header := { (acfs_allocate_clusters a
          (acfs_calculate_clusters_needed a.header.cluster_size n)).2.1.header with
        data_entries := ((acfs_allocate_clusters a
          (acfs_calculate_clusters_needed a.header.cluster_size n)).2.1.header.data_entries
          + 1) % 65536 } } : Acfs) id = some a.header.data_entries := by
    have htake : id.take (ACFS_MAX_DATA_ID_LEN - 1) = id :=
      List.take_of_length_le (by simp only [ACFS_MAX_DATA_ID_LEN]; omega)
    refine find_of_facts _ id a.header.data_entries ?_ ?_ ?_
    · rw [withHeader_header]
      exact hidxA
    · rw [withHeader_entries, setEntry_entries_self]
      show (true && cstrncmpEq (id.take (ACFS_MAX_DATA_ID_LEN - 1)) id
        ACFS_MAX_DATA_ID_LEN) = true
      rw [htake, Bool.true_and]
      exact cstrncmpEq_refl id ACFS_MAX_DATA_ID_LEN hlen32
    · intro t ht
      rw [withHeader_entries, setEntry_entries_ne _ _ _ _ (Nat.ne_of_lt ht), hALent]
      exact find_none_facts a id hf t ht
  rw [hunf]
  have hcc : ((finishWrite
      ({ setEntry
        (acfs_allocate_clusters a
          (acfs_calculate_clusters_needed a.header.cluster_size n)).2.1
        a.header.data_entries
        { a.entries a.header.data_entries with
          data_id := id.take (ACFS_MAX_DATA_ID_LEN - 1),
          cluster_list := some (acfs_allocate_clusters a
            (acfs_calculate_clusters_needed a.header.cluster_size n)).2.2,
          cluster_count := acfs_calculate_clusters_needed a.header.cluster_size n,
          is_valid := true } with
      header := { (acfs_allocate_clusters a
          (acfs_calculate_clusters_needed a.header.cluster_size n)).2.1.header with
        data_entries := ((acfs_allocate_clusters a
          (acfs_calculate_clusters_needed a.header.cluster_size n)).2.1.header.data_entries
          + 1) % 65536 } } : Acfs)
      m a.header.data_entries buf n).2.1.entries a.header.data_entries).cluster_count =
      acfs_calculate_clusters_needed a.header.cluster_size n := by
    rw [b1, withHeader_entries, setEntry_entries_self]
  refine ⟨?_, ?_, by rw [b1], by rw [b1], ?_, hcc, ?_, hLnd, hLlen, ?_, ?_, ?_, ?_, ?_,
    b6, ?_, ?_⟩
  · have hfind : acfs_find_entry (finishWrite
        ({ setEntry
          (acfs_allocate_clusters a
            (acfs_calculate_clusters_needed a.header.cluster_size n)).2.1
          a.header.data_entries
          { a.entries a.header.data_entries with
            data_id := id.take (ACFS_MAX_DATA_ID_LEN - 1),
            cluster_list := some (acfs_allocate_clusters a
              (acfs_calculate_clusters_needed a.header.cluster_size n)).2.2,
            cluster_count := acfs_calculate_clusters_needed a.header.cluster_size n,
            is_valid := true } with
        header := { (acfs_allocate_clusters a
            (acfs_calculate_clusters_needed a.header.cluster_size n)).2.1.header with
          data_entries := ((acfs_allocate_clusters a
            (acfs_calculate_clusters_needed a.header.cluster_size n)).2.1.header.data_entries
            + 1) % 65536 } } : Acfs)
        m a.header.data_entries buf n).2.1 id =
      acfs_find_entry
        ({ setEntry
          (acfs_allocate_clusters a
            (acfs_calculate_clusters_needed a.header.cluster_size n)).2.1
          a.header.data_entries
          { a.entries a.header.data_entries with
            data_id := id.take (ACFS_MAX_DATA_ID_LEN - 1),
            cluster_list := some (acfs_allocate_clusters a
              (acfs_calculate_clusters_needed a.header.cluster_size n)).2.2,
            cluster_count := acfs_calculate_clusters_needed a.header.cluster_size n,
            is_valid := true } with
        header := { (acfs_allocate_clusters a
            (acfs_calculate_clusters_needed a.header.cluster_size n)).2.1.header with
          data_entries := ((acfs_allocate_clusters a
            (acfs_calculate_clusters_needed a.header.cluster_size n)).2.1.header.data_entries
            + 1) % 65536 } } : Acfs) id := by
      apply acfs_find_entry_congr
      · rw [b3]
      · intro i
        by_cases hii : i = a.header.data_entries
        · subst hii; rw [b1, entryMatches_set_size_crc]
        · rw [b2 i hii]
    rw [hfind]
    exact hfind2
  · rw [b3]
    rw [withHeader_header]
    exact hidxA
  · rw [b1]
    rw [withHeader_entries, setEntry_entries_self]
  · rw [b1]
    rw [withHeader_entries, setEntry_entries_self]
  · rw [b3]
    exact hS2
  · rw [b3]
    rw [withHeader_header]
    exact hALmagic
  · rw [b3]
    rw [withHeader_header]
    show ((acfs_allocate_clusters a
      (acfs_calculate_clusters_needed a.header.cluster_size n)).2.1.header.data_entries
      + 1) % 65536 < 65536
    exact Nat.mod_lt _ (by omega)
  · rw [b5]
    rw [withHeader_initialized]
    exact hALinit.trans hi
  · rw [b3]
    exact rfl
  · rw [b3]
    exact b7
  · rw [b8, b9]
    exact b10
theorem acfs_write_ok_spec (a : Acfs) (m : Medium) (id : List Nat)
    (buf : Nat → Nat) (n : Nat)
    (hM : Mounted a)
    (hw : (acfs_write a m id buf n).1 = ACFS_OK) :
    ∃ idx l, WriteOk a m id buf n (acfs_write a m id buf n) idx l := by
  cases hfe : acfs_find_entry a id with
  | none =>
    exact ⟨_, _, write_ok_spec_miss a m id buf n hM hfe hw⟩
  | some idx =>
    by_cases hk : (a.entries idx).cluster_count =
        acfs_calculate_clusters_needed a.header.cluster_size n
    · exact ⟨idx, _, write_ok_spec_hit_eq a m id buf n idx hM hfe hk hw⟩
    · exact ⟨idx, _, write_ok_spec_hit_realloc a m id buf n idx hM hfe hk hw⟩

theorem withHeader_bitmap (x : Acfs) (h : Header) :
    ({ x with header := h } : Acfs).cluster_bitmap = x.cluster_bitmap := rfl

theorem withEH_entries (x : Acfs) (f : Nat → Entry) (h : Header) :
    ({ x with entries := f, header := h } : Acfs).entries = f := rfl

theorem withEH_header (x : Acfs) (f : Nat → Entry) (h : Header) :
    ({ x with entries := f, header := h } : Acfs).header = h := rfl

theorem withEH_bitmap (x : Acfs) (f : Nat → Entry) (h : Header) :
    ({ x with entries := f, header := h } : Acfs).cluster_bitmap =
      x.cluster_bitmap := rfl

theorem setEntry_bitmap (a : Acfs) (idx : Nat) (e : Entry) :
    (setEntry a idx e).cluster_bitmap = a.cluster_bitmap := rfl

theorem headerWithCrc_free (h : Header) (v : Nat) :
    ({ h with crc32 := v } : Header).free_clusters = h.free_clusters := rfl

theorem headerWithCrc_data (h : Header) (v : Nat) :
    ({ h with crc32 := v } : Header).data_entries = h.data_entries := rfl

theorem headerWithData_free (h : Header) (v : Nat) :
    ({ h with data_entries := v } : Header).free_clusters = h.free_clusters := rfl

theorem headerWithData_data (h : Header) (v : Nat) :
    ({ h with data_entries := v } : Header).data_entries = v := rfl

theorem free_clusters_data_entries (a : Acfs) (l : List Nat) (c : Nat) :
    (acfs_free_clusters a l c).header.data_entries = a.header.data_entries := rfl

theorem free_clusters_entries (a : Acfs) (l : List Nat) (c : Nat) :
    (acfs_free_clusters a l c).entries = a.entries := rfl

theorem free_clusters_bitmap (a : Acfs) (l : List Nat) (c : Nat) :
    (acfs_free_clusters a l c).cluster_bitmap =
      (indexList l c).foldl clearBit a.cluster_bitmap := rfl

theorem free_clusters_free (a : Acfs) (l : List Nat) (c : Nat) :
    (acfs_free_clusters a l c).header.free_clusters =
      (a.header.free_clusters + c) % 65536 := rfl

theorem persistMeta_acfs (a : Acfs) (m : Medium) :
    (persistMeta a m).2.1 =
      { a with
        header := { a.header with crc32 := acfs_crc32 (headerBytes a.header) } } := by
  rw [persistMeta, acfs_save_header]
  by_cases hb : m.size < m.start_addr + SIZEOF_HEADER
  · rw [if_pos hb, if_pos (by simp)]
  · rw [if_neg hb, if_neg (by simp)]

theorem finishWrite_state (a1 : Acfs) (m : Medium) (idx : Nat) (buf : Nat → Nat)
    (n : Nat) :
    (finishWrite a1 m idx buf n).2.1.cluster_bitmap = a1.cluster_bitmap ∧
    (finishWrite a1 m idx buf n).2.1.header.free_clusters =
      a1.header.free_clusters ∧
    (finishWrite a1 m idx buf n).2.1.header.data_entries =
      a1.header.data_entries ∧
    (finishWrite a1 m idx buf n).2.1.entries =
      (setEntry a1 idx
        { a1.entries idx with
          data_size := n % 4294967296,
          crc32 := acfs_crc32 ((List.range n).map buf) }).entries := by
  rw [finishWrite]
  split
  · exact ⟨rfl, rfl, rfl, rfl⟩
  · rw [persistMeta_acfs]
    exact ⟨rfl, rfl, rfl, rfl⟩
/-- C7: on a mounted filesystem, writing a fresh id successfully and then
deleting it restores the cluster bitmap and `free_clusters` to their exact
pre-write values, and afterwards `acfs_exists(id)` returns `false`. -/
theorem write_delete_undoes_allocation (a : Acfs) (m : Medium) (id : List Nat)
    (buf : Nat → Nat) (n : Nat)
    (hM : Mounted a)
    (hf : acfs_find_entry a id = none)
    (hw : (acfs_write a m id buf n).1 = ACFS_OK) :
    (∀ c, (acfs_delete (acfs_write a m id buf n).2.1
        (acfs_write a m id buf n).2.2 id).2.1.cluster_bitmap c =
      a.cluster_bitmap c) ∧
    (acfs_delete (acfs_write a m id buf n).2.1
        (acfs_write a m id buf n).2.2 id).2.1.header.free_clusters =
      a.header.free_clusters ∧
    acfs_exists (acfs_delete (acfs_write a m id buf n).2.1
        (acfs_write a m id buf n).2.2 id).2.1 id = false := by
  obtain ⟨hn, hi, hlen32⟩ := write_ok_valid a m id buf n hw
  have hE65 : a.header.data_entries < 65535 := hM.2.2.2.2.2.2.1
  have hfree65 : a.header.free_clusters < 65536 := hM.2.2.2.2.2.1
  have hcap : a.header.data_entries < maxEntriesOf a.header := by
    by_contra hc
    rw [acfs_write, if_neg hn, if_neg (by rw [hi]; simp),
      if_neg (by simp only [ACFS_MAX_DATA_ID_LEN]; omega)] at hw
    simp only [hf] at hw
    rw [if_pos (by omega)] at hw
    exact absurd hw (by simp)
  have hal : (acfs_allocate_clusters a
      (acfs_calculate_clusters_needed a.header.cluster_size n)).1 = ACFS_OK := by
    rcases allocate_err a
      (acfs_calculate_clusters_needed a.header.cluster_size n) with h | h
    · exact h
    · exfalso
      rw [acfs_write, if_neg hn, if_neg (by rw [hi]; simp),
        if_neg (by simp only [ACFS_MAX_DATA_ID_LEN]; omega)] at hw
      simp only [hf] at hw
      rw [if_neg (by omega), if_pos (by simp [h])] at hw
      rw [h] at hw
      exact absurd hw (by simp)
  obtain ⟨heq, hlenL, hFK⟩ := allocate_ok_eq a
    (acfs_calculate_clusters_needed a.header.cluster_size n) hal
  obtain ⟨hALent, hALcs, hALmagic, hALE, hALinit, hLlen2, hLnd2⟩ :=
    allocate_ok_state a (acfs_calculate_clusters_needed a.header.cluster_size n) hal
  have hunf := acfs_write_unfold_miss a m id buf n hn hi hlen32 hf hcap hal
  obtain ⟨w1, _, _, _, w5, w6, _, _, _, _, _, _, w14, _, _, _, _⟩ :=
    write_ok_spec_miss a m id buf n hM hf hw
  have hLe : (acfs_allocate_clusters a
      (acfs_calculate_clusters_needed a.header.cluster_size n)).2.2 =
      allocScan a (acfs_calculate_clusters_needed a.header.cluster_size n) := by
    rw [heq]
  have hILL : indexList
      (acfs_allocate_clusters a
        (acfs_calculate_clusters_needed a.header.cluster_size n)).2.2
      (acfs_calculate_clusters_needed a.header.cluster_size n) =
      (acfs_allocate_clusters a
        (acfs_calculate_clusters_needed a.header.cluster_size n)).2.2 := by
    have hself := indexList_eq_self
      (acfs_allocate_clusters a
        (acfs_calculate_clusters_needed a.header.cluster_size n)).2.2
    rw [hLlen2] at hself
    exact hself
  have hbm : (acfs_write a m id buf n).2.1.cluster_bitmap =
      (allocScan a (acfs_calculate_clusters_needed a.header.cluster_size n)).foldl
        setBit a.cluster_bitmap := by
    rw [hunf, (finishWrite_state _ _ _ _ _).1, withHeader_bitmap, setEntry_bitmap,
      heq]
  have hF : (acfs_write a m id buf n).2.1.header.free_clusters =
      a.header.free_clusters -
        acfs_calculate_clusters_needed a.header.cluster_size n := by
    rw [hunf, (finishWrite_state _ _ _ _ _).2.1, withHeader_header,
      headerWithData_free, heq]
  have hE1 : (acfs_write a m id buf n).2.1.header.data_entries =
      a.header.data_entries + 1 := by
    rw [hunf, (finishWrite_state _ _ _ _ _).2.2.1, withHeader_header,
      headerWithData_data, hALE,
      Nat.mod_eq_of_lt (show a.header.data_entries + 1 < 65536 by omega)]
  have hEnt : ∀ i, i ≠ a.header.data_entries →
      (acfs_write a m id buf n).2.1.entries i = a.entries i := by
    intro i hi2
    rw [hunf, (finishWrite_state _ _ _ _ _).2.2.2,
      setEntry_entries_ne _ _ _ _ hi2, withHeader_entries,
      setEntry_entries_ne _ _ _ _ hi2, hALent]
  have hdelE : (acfs_delete (acfs_write a m id buf n).2.1
      (acfs_write a m id buf n).2.2 id).2.1.header.data_entries =
      a.header.data_entries := by
    rw [acfs_delete, if_neg (by rw [w14]; simp)]
    simp only [w1]
    rw [persistMeta_acfs, withHeader_header, headerWithCrc_data, withEH_header,
      headerWithData_data, free_clusters_data_entries, hE1]
    omega
  have hdelEnt : ∀ i, i < a.header.data_entries →
      (acfs_delete (acfs_write a m id buf n).2.1
        (acfs_write a m id buf n).2.2 id).2.1.entries i = a.entries i := by
    intro i hilt
    rw [acfs_delete, if_neg (by rw [w14]; simp)]
    simp only [w1]
    rw [persistMeta_acfs, withHeader_entries, withEH_entries]
    simp only [free_clusters_data_entries, free_clusters_entries, hE1]
    rw [if_neg (by omega), if_neg (by omega)]
    exact hEnt i (by omega)
  have hfindnone : acfs_find_entry (acfs_delete (acfs_write a m id buf n).2.1
      (acfs_write a m id buf n).2.2 id).2.1 id = none := by
    rw [acfs_find_entry, hdelE]
    refine (findLoop_eq_none _ id a.header.data_entries 0).mpr ?_
    intro k hk
    rw [hdelEnt (0 + k) (by omega)]
    have hall := find_none_facts a id hf (0 + k) (by omega)
    simpa using hall
  refine ⟨?_, ?_, ?_⟩
  · intro c
    rw [acfs_delete, if_neg (by rw [w14]; simp)]
    simp only [w1]
    rw [persistMeta_acfs, withHeader_bitmap, withEH_bitmap, free_clusters_bitmap,
      w5, Option.getD_some, w6, hILL, hLe, foldl_clearBit_apply, hbm,
      foldl_setBit_apply]
    by_cases hc : c ∈ allocScan a (acfs_calculate_clusters_needed
        a.header.cluster_size n)
    · rw [if_pos hc]
      exact ((scanFree_mem a.cluster_bitmap _ _ _ c
        (by simpa [allocScan] using hc)).2.2).symm
    · rw [if_neg hc, if_neg hc]
  · rw [acfs_delete, if_neg (by rw [w14]; simp)]
    simp only [w1]
    rw [persistMeta_acfs, withHeader_header, headerWithCrc_free, withEH_header,
      headerWithData_free, free_clusters_free, w6, hF,
      Nat.sub_add_cancel hFK, Nat.mod_eq_of_lt hfree65]
  · rw [acfs_exists, hfindnone]
    simp

/-- C7 witness: write two bytes under the fresh id `"hi"` on the mounted
512-byte medium, then delete it. -/
theorem write_delete_undoes_allocation_witness :
    Mounted bInit.2.1 ∧ acfs_find_entry bInit.2.1 [104, 105] = none ∧
    (acfs_write bInit.2.1 bInit.2.2 [104, 105] demoBuf 2).1 = ACFS_OK ∧
    ((∀ c, (acfs_delete (acfs_write bInit.2.1 bInit.2.2 [104, 105] demoBuf 2).2.1
        (acfs_write bInit.2.1 bInit.2.2 [104, 105] demoBuf 2).2.2
        [104, 105]).2.1.cluster_bitmap c = bInit.2.1.cluster_bitmap c) ∧
      (acfs_delete (acfs_write bInit.2.1 bInit.2.2 [104, 105] demoBuf 2).2.1
        (acfs_write bInit.2.1 bInit.2.2 [104, 105] demoBuf 2).2.2
        [104, 105]).2.1.header.free_clusters =
        bInit.2.1.header.free_clusters ∧
      acfs_exists (acfs_delete
        (acfs_write bInit.2.1 bInit.2.2 [104, 105] demoBuf 2).2.1
        (acfs_write bInit.2.1 bInit.2.2 [104, 105] demoBuf 2).2.2
        [104, 105]).2.1 [104, 105] = false) :=
  ⟨by decide, by decide, by decide,
    write_delete_undoes_allocation bInit.2.1 bInit.2.2 [104, 105] demoBuf 2
      (by decide) (by decide) (by decide)⟩

theorem withEntries_entries (x : Acfs) (f : Nat → Entry) :
    ({ x with entries := f } : Acfs).entries = f := rfl

theorem withInit_entries (x : Acfs) (b : Bool) :
    ({ x with initialized := b } : Acfs).entries = x.entries := rfl

theorem withInit_header (x : Acfs) (b : Bool) :
    ({ x with initialized := b } : Acfs).header = x.header := rfl

theorem init_bitmap_entries (a : Acfs) :
    (acfs_init_bitmap a).entries = a.entries := rfl

theorem init_bitmap_header (a : Acfs) :
    (acfs_init_bitmap a).header = a.header := rfl

theorem load_entries_E0 (a : Acfs) (m : Medium)
    (h : a.header.data_entries = 0) :
    acfs_load_entries a m = (ACFS_OK, a) := by
  rw [acfs_load_entries, if_pos h]

theorem load_entries_header (a : Acfs) (m : Medium) :
    (acfs_load_entries a m).2.header = a.header := by
  rw [acfs_load_entries]
  by_cases h0 : a.header.data_entries = 0
  · rw [if_pos h0]
  · rw [if_neg h0]
    by_cases hb : m.size < m.start_addr + SIZEOF_HEADER +
        a.header.data_entries * SIZEOF_ENTRY
    · rw [if_pos hb]
    · rw [if_neg hb]

theorem loadSlotsLoop_spec (S base : Nat) (m : Medium) (es0 : Nat → Entry) :
    ∀ (k : Nat) (es : Nat → Entry) (i : Nat),
      (∀ t, i ≤ t → t < i + k → es t = es0 t) →
      (∀ t, i ≤ t → t < i + k → 0 < (es0 t).cluster_count →
        ¬ (m.size < m.start_addr + (base + t * (2 * ACFS_MAX_CLUSTERS)) +
          2 * (es0 t).cluster_count)) →
      (loadSlotsLoop S base m es i k).1 = ACFS_OK ∧
      ∀ i2, (loadSlotsLoop S base m es i k).2 i2 =
        if i ≤ i2 ∧ i2 < i + k ∧ 0 < (es0 i2).cluster_count then
          { es0 i2 with cluster_list := some (readSlotBytes S
              (base + i2 * (2 * ACFS_MAX_CLUSTERS)) (es0 i2).cluster_count m) }
        else es i2 := by
  intro k
  induction k with
  | zero =>
    intro es i _ _
    refine ⟨rfl, fun i2 => ?_⟩
    rw [if_neg (fun hcon => by
      have h1 := hcon.1
      have h2 := hcon.2.1
      omega)]
    rfl
  | succ k2 ih =>
    intro es i hagree hrange
    rw [loadSlotsLoop]
    have hei : es i = es0 i := hagree i (Nat.le_refl i) (by omega)
    rw [hei]
    by_cases hc : 0 < (es0 i).cluster_count
    · rw [if_pos hc]
      rw [if_neg (hrange i (Nat.le_refl i) (by omega) hc)]
      obtain ⟨hok, hch⟩ := ih
        (fun i2 => if i2 = i then
          { es0 i with cluster_list := some (readSlotBytes S
              (base + i * (2 * ACFS_MAX_CLUSTERS)) (es0 i).cluster_count m) }
        else es i2) (i + 1)
        (fun t h1 h2 => by
          beta_reduce
          rw [if_neg (show ¬ t = i by omega)]
          exact hagree t (by omega) (by omega))
        (fun t h1 h2 hcnt => hrange t (by omega) (by omega) hcnt)
      refine ⟨hok, fun i2 => ?_⟩
      rw [hch i2]
      by_cases h1 : i2 = i
      · subst h1
        rw [if_neg (fun hcon => by
          have := hcon.1
          omega)]
        rw [if_pos rfl, if_pos ⟨Nat.le_refl _, by omega, hc⟩]
      · by_cases h2 : i + 1 ≤ i2 ∧ i2 < i + 1 + k2 ∧ 0 < (es0 i2).cluster_count
        · rw [if_pos h2, if_pos ⟨by omega, by omega, h2.2.2⟩]
        · rw [if_neg h2, if_neg (show ¬ (i ≤ i2 ∧ i2 < i + (k2 + 1) ∧
              0 < (es0 i2).cluster_count) from fun hcon => h2
              ⟨by omega, by omega, hcon.2.2⟩)]
          rw [if_neg h1]
    · rw [if_neg hc]
      obtain ⟨hok, hch⟩ := ih es (i + 1)
        (fun t h1 h2 => hagree t (by omega) (by omega))
        (fun t h1 h2 hcnt => hrange t (by omega) (by omega) hcnt)
      refine ⟨hok, fun i2 => ?_⟩
      rw [hch i2]
      by_cases h1 : i2 = i
      · subst h1
        rw [if_neg (fun hcon => by
          have := hcon.1
          omega)]
        rw [if_neg (show ¬ (i2 ≤ i2 ∧ i2 < i2 + (k2 + 1) ∧
          0 < (es0 i2).cluster_count) from fun hcon => hc hcon.2.2)]
      · by_cases h2 : i + 1 ≤ i2 ∧ i2 < i + 1 + k2 ∧ 0 < (es0 i2).cluster_count
        · rw [if_pos h2, if_pos ⟨by omega, by omega, h2.2.2⟩]
        · rw [if_neg h2, if_neg (show ¬ (i ≤ i2 ∧ i2 < i + (k2 + 1) ∧
              0 < (es0 i2).cluster_count) from fun hcon => h2
              ⟨by omega, by omega, hcon.2.2⟩)]

theorem load_entries_ok_spec (a : Acfs) (m : Medium)
    (hE : a.header.data_entries ≠ 0)
    (hrec : ¬ (m.size < m.start_addr + SIZEOF_HEADER +
      a.header.data_entries * SIZEOF_ENTRY))
    (hrange : ∀ t, t < a.header.data_entries →
      0 < (m.entryRecs.getD t zeroEntry).cluster_count →
      ¬ (m.size < m.start_addr + (SIZEOF_HEADER +
        a.header.data_entries * SIZEOF_ENTRY + t * (2 * ACFS_MAX_CLUSTERS)) +
        2 * (m.entryRecs.getD t zeroEntry).cluster_count)) :
    (acfs_load_entries a m).1 = ACFS_OK ∧
    ∀ i2, (acfs_load_entries a m).2.entries i2 =
      if i2 < a.header.data_entries then
        (if 0 < (m.entryRecs.getD i2 zeroEntry).cluster_count then
          { m.entryRecs.getD i2 zeroEntry with
            cluster_list := some (readSlotBytes a.header.cluster_size
              (SIZEOF_HEADER + a.header.data_entries * SIZEOF_ENTRY +
                i2 * (2 * ACFS_MAX_CLUSTERS))
              (m.entryRecs.getD i2 zeroEntry).cluster_count m) }
        else m.entryRecs.getD i2 zeroEntry)
      else a.entries i2 := by
  obtain ⟨hok, hch⟩ := loadSlotsLoop_spec a.header.cluster_size
    (SIZEOF_HEADER + a.header.data_entries * SIZEOF_ENTRY) m
    (fun t => m.entryRecs.getD t zeroEntry) a.header.data_entries
    (fun i => if i < a.header.data_entries then m.entryRecs.getD i zeroEntry
      else a.entries i) 0
    (fun t _ h2 => by
      beta_reduce
      rw [if_pos (show t < a.header.data_entries by omega)])
    (fun t _ h2 hcnt => hrange t (by omega) hcnt)
  constructor
  · rw [acfs_load_entries, if_neg hE, if_neg hrec]
    exact hok
  · intro i2
    show (acfs_load_entries a m).2.entries i2 = _
    rw [acfs_load_entries, if_neg hE, if_neg hrec]
    show (loadSlotsLoop a.header.cluster_size
      (SIZEOF_HEADER + a.header.data_entries * SIZEOF_ENTRY) m
      (fun i => if i < a.header.data_entries then m.entryRecs.getD i zeroEntry
        else a.entries i) 0 a.header.data_entries).2 i2 = _
    rw [hch i2]
    by_cases hlt : i2 < a.header.data_entries
    · by_cases hcnt : 0 < (m.entryRecs.getD i2 zeroEntry).cluster_count
      · rw [if_pos ⟨Nat.zero_le _, by omega, hcnt⟩, if_pos hlt, if_pos hcnt]
      · rw [if_neg (show ¬ (0 ≤ i2 ∧ i2 < 0 + a.header.data_entries ∧
            0 < (m.entryRecs.getD i2 zeroEntry).cluster_count) from
            fun hcon => hcnt hcon.2.2), if_pos hlt, if_neg hcnt, if_pos hlt]
    · rw [if_neg (fun hcon => by
        have := hcon.2.1
        omega), if_neg hlt, if_neg hlt]

theorem entryMatches_set_list (e : Entry) (ol : Option (List Nat)) (id : List Nat) :
    entryMatches { e with cluster_list := ol } id = entryMatches e id := rfl

theorem entryWithList_size (e : Entry) (ol : Option (List Nat)) :
    ({ e with cluster_list := ol } : Entry).data_size = e.data_size := rfl

theorem entryWithList_count (e : Entry) (ol : Option (List Nat)) :
    ({ e with cluster_list := ol } : Entry).cluster_count = e.cluster_count := rfl

theorem entryWithList_crc (e : Entry) (ol : Option (List Nat)) :
    ({ e with cluster_list := ol } : Entry).crc32 = e.crc32 := rfl

theorem entryWithList_list (e : Entry) (ol : Option (List Nat)) :
    ({ e with cluster_list := ol } : Entry).cluster_list = ol := rfl

theorem headerWithData_total (h : Header) (v : Nat) :
    ({ h with data_entries := v } : Header).total_clusters = h.total_clusters := rfl

theorem headerWithData_sys (h : Header) (v : Nat) :
    ({ h with data_entries := v } : Header).sys_clusters = h.sys_clusters := rfl

theorem headerWithCrc_total (h : Header) (v : Nat) :
    ({ h with crc32 := v } : Header).total_clusters = h.total_clusters := rfl

theorem headerWithCrc_sys (h : Header) (v : Nat) :
    ({ h with crc32 := v } : Header).sys_clusters = h.sys_clusters := rfl

theorem free_clusters_total (a : Acfs) (l : List Nat) (c : Nat) :
    (acfs_free_clusters a l c).header.total_clusters =
      a.header.total_clusters := rfl

theorem free_clusters_sys (a : Acfs) (l : List Nat) (c : Nat) :
    (acfs_free_clusters a l c).header.sys_clusters =
      a.header.sys_clusters := rfl

theorem finishWrite_header_ts (a1 : Acfs) (m : Medium) (idx : Nat)
    (buf : Nat → Nat) (n : Nat) :
    (finishWrite a1 m idx buf n).2.1.header.total_clusters =
      a1.header.total_clusters ∧
    (finishWrite a1 m idx buf n).2.1.header.sys_clusters =
      a1.header.sys_clusters := by
  rw [finishWrite]
  split
  · exact ⟨rfl, rfl⟩
  · rw [persistMeta_acfs]
    exact ⟨rfl, rfl⟩

theorem headerWithData_cs (h : Header) (v : Nat) :
    ({ h with data_entries := v } : Header).cluster_size = h.cluster_size := rfl

theorem finishWrite_header_cs (a1 : Acfs) (m : Medium) (idx : Nat)
    (buf : Nat → Nat) (n : Nat) :
    (finishWrite a1 m idx buf n).2.1.header.cluster_size =
      a1.header.cluster_size := by
  rw [finishWrite]
  split
  · rfl
  · rw [persistMeta_acfs]
    rfl

theorem finishWrite_meta_transfer (a1 : Acfs) (m : Medium) (idx : Nat)
    (buf : Nat → Nat) (n : Nat)
    (hmeta : MetaInReserved (finishWrite a1 m idx buf n).2.1) :
    ∀ t, t < a1.header.data_entries → 0 < (a1.entries t).cluster_count →
      SIZEOF_HEADER + a1.header.data_entries * SIZEOF_ENTRY +
        t * (2 * ACFS_MAX_CLUSTERS) + 2 * (a1.entries t).cluster_count ≤
      a1.header.sys_clusters * a1.header.cluster_size := by
  intro t ht hcnt
  have hE := (finishWrite_state a1 m idx buf n).2.2.1
  have hsys := (finishWrite_header_ts a1 m idx buf n).2
  have hcs := finishWrite_header_cs a1 m idx buf n
  have hcc : ((finishWrite a1 m idx buf n).2.1.entries t).cluster_count =
      (a1.entries t).cluster_count := by
    rw [(finishWrite_state a1 m idx buf n).2.2.2]
    by_cases hti : t = idx
    · subst hti
      rw [setEntry_entries_self]
    · rw [setEntry_entries_ne _ _ _ _ hti]
  have hb := hmeta t (by rw [hE]; exact ht) (by rw [hcc]; exact hcnt)
  rw [hE, hcc, hsys, hcs] at hb
  exact hb

theorem nodup_bounded_length (l : List Nat) (T : Nat) (hnd : l.Nodup)
    (hb : ∀ c ∈ l, c < T) : l.length ≤ T := by
  have h1 : l.toFinset ⊆ Finset.range T := by
    intro x hx
    rw [Finset.mem_range]
    exact hb x (List.mem_toFinset.mp hx)
  have h2 := Finset.card_le_card h1
  rw [Finset.card_range, List.toFinset_card_of_nodup hnd] at h2
  exact h2

theorem acfs_write_ok_data (a : Acfs) (m : Medium) (id : List Nat)
    (buf : Nat → Nat) (n : Nat)
    (hM : Mounted a)
    (hw : (acfs_write a m id buf n).1 = ACFS_OK)
    (hmeta : MetaInReserved (acfs_write a m id buf n).2.1) :
    ∃ idx l, WriteOk a m id buf n (acfs_write a m id buf n) idx l ∧
      readClustersAux a.header.cluster_size (acfs_write a m id buf n).2.2 [] l =
        (ACFS_OK,
          (List.range (acfs_calculate_clusters_needed a.header.cluster_size n *
            a.header.cluster_size)).map buf) ∧
      (∀ c ∈ l, a.header.sys_clusters ≤ c ∧ c < a.header.total_clusters) ∧
      (acfs_write a m id buf n).2.1.header.sys_clusters =
        a.header.sys_clusters ∧
      (acfs_write a m id buf n).2.1.header.total_clusters =
        a.header.total_clusters ∧
      (l.length ≤ 65535 → (∀ v ∈ l, v < 65536) →
        readSlotBytes a.header.cluster_size
          (SIZEOF_HEADER +
            (acfs_write a m id buf n).2.1.header.data_entries * SIZEOF_ENTRY +
            idx * (2 * ACFS_MAX_CLUSTERS)) l.length
          (acfs_write a m id buf n).2.2 = l) := by
  obtain ⟨hn, hi, hlen32⟩ := write_ok_valid a m id buf n hw
  have hE65 : a.header.data_entries < 65535 := hM.2.2.2.2.2.2.1
  cases hfe : acfs_find_entry a id with
  | some idx =>
    obtain ⟨hidx, hmatch, _⟩ := find_some_facts a id idx hfe
    have heok := hM.2.2.2.2.2.2.2 idx hidx
    by_cases hkeq : (a.entries idx).cluster_count =
        acfs_calculate_clusters_needed a.header.cluster_size n
    · have W := write_ok_spec_hit_eq a m id buf n idx hM hfe hkeq hw
      have hunf := acfs_write_unfold_hit_eq a m id buf n idx hn hi hlen32 hfe hkeq
      rw [hunf] at W hmeta hw ⊢
      have hmetaA := finishWrite_meta_transfer a m idx buf n hmeta
      have hsysA : ∀ c ∈ (a.entries idx).cluster_list.getD [],
          a.header.sys_clusters ≤ c := fun c hc => (heok.2.2.2.2 c hc).1
      have hdata := finishWrite_data_intact a m idx buf n
        ((a.entries idx).cluster_list.getD []) heok.2.1 heok.2.2.1
        heok.2.2.2.1 hsysA hmetaA hw
      rw [hkeq] at hdata
      refine ⟨idx, (a.entries idx).cluster_list.getD [], W, hdata,
        heok.2.2.2.2, ?_, ?_, ?_⟩
      · exact (finishWrite_header_ts a m idx buf n).2
      · exact (finishWrite_header_ts a m idx buf n).1
      · intro h65 hv
        have hc65 : (a.entries idx).cluster_count ≤ 65535 := by
          rw [← heok.2.2.1]
          exact h65
        have hsl := finishWrite_slot_saved a m idx buf n
          ((a.entries idx).cluster_list.getD []) heok.2.1 heok.2.2.1 hidx
          hc65 hv hw
        rw [(finishWrite_state a m idx buf n).2.2.1]
        exact hsl
    · have W := write_ok_spec_hit_realloc a m id buf n idx hM hfe hkeq hw
      have hal : (acfs_allocate_clusters
          (acfs_free_clusters a ((a.entries idx).cluster_list.getD [])
            (a.entries idx).cluster_count)
          (acfs_calculate_clusters_needed a.header.cluster_size n)).1 =
          ACFS_OK := by
        rcases allocate_err
          (acfs_free_clusters a ((a.entries idx).cluster_list.getD [])
            (a.entries idx).cluster_count)
          (acfs_calculate_clusters_needed a.header.cluster_size n) with h | h
        · exact h
        · exfalso
          rw [acfs_write, if_neg hn, if_neg (by rw [hi]; simp),
            if_neg (by simp only [ACFS_MAX_DATA_ID_LEN]; omega)] at hw
          simp only [hfe] at hw
          rw [if_pos hkeq, if_pos (by simp [h])] at hw
          rw [h] at hw
          exact absurd hw (by simp)
      obtain ⟨hALent, hALcs, hALmagic, hALE, hALinit, hLlen, hLnd⟩ :=
        allocate_ok_state
          (acfs_free_clusters a ((a.entries idx).cluster_list.getD [])
            (a.entries idx).cluster_count)
          (acfs_calculate_clusters_needed a.header.cluster_size n) hal
      obtain ⟨heq2, _, _⟩ := allocate_ok_eq
        (acfs_free_clusters a ((a.entries idx).cluster_list.getD [])
          (a.entries idx).cluster_count)
        (acfs_calculate_clusters_needed a.header.cluster_size n) hal
      have hunf := acfs_write_unfold_hit_realloc a m id buf n idx hn hi hlen32
        hfe hkeq hal
      rw [hunf] at W hmeta hw ⊢
      have hbound : ∀ c ∈ (acfs_allocate_clusters
          (acfs_free_clusters a ((a.entries idx).cluster_list.getD [])
            (a.entries idx).cluster_count)
          (acfs_calculate_clusters_needed a.header.cluster_size n)).2.2,
          a.header.sys_clusters ≤ c ∧ c < a.header.total_clusters := by
        intro c hc
        rw [show (acfs_allocate_clusters
            (acfs_free_clusters a ((a.entries idx).cluster_list.getD [])
              (a.entries idx).cluster_count)
            (acfs_calculate_clusters_needed a.header.cluster_size n)).2.2 =
            allocScan (acfs_free_clusters a ((a.entries idx).cluster_list.getD [])
              (a.entries idx).cluster_count)
            (acfs_calculate_clusters_needed a.header.cluster_size n) from by
          rw [heq2]] at hc
        have hmm := scanFree_mem _ _ _ _ c (by simpa [allocScan] using hc)
        rw [free_clusters_sys, free_clusters_total] at hmm
        exact ⟨hmm.1, by omega⟩
      have hA1l : ((setEntry
          (acfs_allocate_clusters
            (acfs_free_clusters a ((a.entries idx).cluster_list.getD [])
              (a.entries idx).cluster_count)
            (acfs_calculate_clusters_needed a.header.cluster_size n)).2.1
          idx
          { a.entries idx with
            cluster_list := some (acfs_allocate_clusters
              (acfs_free_clusters a ((a.entries idx).cluster_list.getD [])
                (a.entries idx).cluster_count)
              (acfs_calculate_clusters_needed a.header.cluster_size n)).2.2,
            cluster_count :=
              acfs_calculate_clusters_needed a.header.cluster_size n }).entries
          idx).cluster_list =
          some (acfs_allocate_clusters
            (acfs_free_clusters a ((a.entries idx).cluster_list.getD [])
              (a.entries idx).cluster_count)
            (acfs_calculate_clusters_needed a.header.cluster_size n)).2.2 := by
        rw [setEntry_entries_self]
      have hA1len : (acfs_allocate_clusters
          (acfs_free_clusters a ((a.entries idx).cluster_list.getD [])
            (a.entries idx).cluster_count)
          (acfs_calculate_clusters_needed a.header.cluster_size n)).2.2.length =
          ((setEntry
            (acfs_allocate_clusters
              (acfs_free_clusters a ((a.entries idx).cluster_list.getD [])
                (a.entries idx).cluster_count)
              (acfs_calculate_clusters_needed a.header.cluster_size n)).2.1
            idx
            { a.entries idx with
              cluster_list := some (acfs_allocate_clusters
                (acfs_free_clusters a ((a.entries idx).cluster_list.getD [])
                  (a.entries idx).cluster_count)
                (acfs_calculate_clusters_needed a.header.cluster_size n)).2.2,
              cluster_count :=
                acfs_calculate_clusters_needed a.header.cluster_size n }).entries
            idx).cluster_count := by
        rw [setEntry_entries_self]
        exact hLlen
      have hA1idx : idx < (setEntry
          (acfs_allocate_clusters
            (acfs_free_clusters a ((a.entries idx).cluster_list.getD [])
              (a.entries idx).cluster_count)
            (acfs_calculate_clusters_needed a.header.cluster_size n)).2.1
          idx
          { a.entries idx with
            cluster_list := some (acfs_allocate_clusters
              (acfs_free_clusters a ((a.entries idx).cluster_list.getD [])
                (a.entries idx).cluster_count)
              (acfs_calculate_clusters_needed a.header.cluster_size n)).2.2,
            cluster_count :=
              acfs_calculate_clusters_needed a.header.cluster_size
                n }).header.data_entries := by
        rw [setEntry_header, hALE]
        exact hidx
      have hA1S : (setEntry
          (acfs_allocate_clusters
            (acfs_free_clusters a ((a.entries idx).cluster_list.getD [])
              (a.entries idx).cluster_count)
            (acfs_calculate_clusters_needed a.header.cluster_size n)).2.1
          idx
          { a.entries idx with
            cluster_list := some (acfs_allocate_clusters
              (acfs_free_clusters a ((a.entries idx).cluster_list.getD [])
                (a.entries idx).cluster_count)
              (acfs_calculate_clusters_needed a.header.cluster_size n)).2.2,
            cluster_count :=
              acfs_calculate_clusters_needed a.header.cluster_size
                n }).header.cluster_size = a.header.cluster_size := by
        rw [setEntry_header]
        exact hALcs
      have hA1sys : (setEntry
          (acfs_allocate_clusters
            (acfs_free_clusters a ((a.entries idx).cluster_list.getD [])
              (a.entries idx).cluster_count)
            (acfs_calculate_clusters_needed a.header.cluster_size n)).2.1
          idx
          { a.entries idx with
            cluster_list := some (acfs_allocate_clusters
              (acfs_free_clusters a ((a.entries idx).cluster_list.getD [])
                (a.entries idx).cluster_count)
              (acfs_calculate_clusters_needed a.header.cluster_size n)).2.2,
            cluster_count :=
              acfs_calculate_clusters_needed a.header.cluster_size
                n }).header.sys_clusters = a.header.sys_clusters := by
        rw [setEntry_header]
        rw [show (acfs_allocate_clusters
            (acfs_free_clusters a ((a.entries idx).cluster_list.getD [])
              (a.entries idx).cluster_count)
            (acfs_calculate_clusters_needed a.header.cluster_size
              n)).2.1.header.sys_clusters =
            (acfs_free_clusters a ((a.entries idx).cluster_list.getD [])
              (a.entries idx).cluster_count).header.sys_clusters from by
          rw [heq2]]
        rw [free_clusters_sys]
      have hA1tot : (setEntry
          (acfs_allocate_clusters
            (acfs_free_clusters a ((a.entries idx).cluster_list.getD [])
              (a.entries idx).cluster_count)
            (acfs_calculate_clusters_needed a.header.cluster_size n)).2.1
          idx
          { a.entries idx with
            cluster_list := some (acfs_allocate_clusters
              (acfs_free_clusters a ((a.entries idx).cluster_list.getD [])
                (a.entries idx).cluster_count)
              (acfs_calculate_clusters_needed a.header.cluster_size n)).2.2,
            cluster_count :=
              acfs_calculate_clusters_needed a.header.cluster_size
                n }).header.total_clusters = a.header.total_clusters := by
        rw [setEntry_header]
        rw [show (acfs_allocate_clusters
            (acfs_free_clusters a ((a.entries idx).cluster_list.getD [])
              (a.entries idx).cluster_count)
            (acfs_calculate_clusters_needed a.header.cluster_size
              n)).2.1.header.total_clusters =
            (acfs_free_clusters a ((a.entries idx).cluster_list.getD [])
              (a.entries idx).cluster_count).header.total_clusters from by
          rw [heq2]]
        rw [free_clusters_total]
      have hA1cnt : ((setEntry
          (acfs_allocate_clusters
            (acfs_free_clusters a ((a.entries idx).cluster_list.getD [])
              (a.entries idx).cluster_count)
            (acfs_calculate_clusters_needed a.header.cluster_size n)).2.1
          idx
          { a.entries idx with
            cluster_list := some (acfs_allocate_clusters
              (acfs_free_clusters a ((a.entries idx).cluster_list.getD [])
                (a.entries idx).cluster_count)
              (acfs_calculate_clusters_needed a.header.cluster_size n)).2.2,
            cluster_count :=
              acfs_calculate_clusters_needed a.header.cluster_size n }).entries
          idx).cluster_count =
          acfs_calculate_clusters_needed a.header.cluster_size n := by
        rw [setEntry_entries_self]
      have hmetaA := finishWrite_meta_transfer _ m idx buf n hmeta
      have hdata := finishWrite_data_intact _ m idx buf n
        (acfs_allocate_clusters
          (acfs_free_clusters a ((a.entries idx).cluster_list.getD [])
            (a.entries idx).cluster_count)
          (acfs_calculate_clusters_needed a.header.cluster_size n)).2.2
        hA1l hA1len hLnd
        (by
          intro c hc
          rw [hA1sys]
          exact (hbound c hc).1)
        hmetaA hw
      rw [hA1cnt, hA1S] at hdata
      refine ⟨idx, (acfs_allocate_clusters
        (acfs_free_clusters a ((a.entries idx).cluster_list.getD [])
          (a.entries idx).cluster_count)
        (acfs_calculate_clusters_needed a.header.cluster_size n)).2.2, W, hdata,
        hbound, ?_, ?_, ?_⟩
      · rw [(finishWrite_header_ts _ m idx buf n).2]
        exact hA1sys
      · rw [(finishWrite_header_ts _ m idx buf n).1]
        exact hA1tot
      · intro h65 hv
        have hc65 : ((setEntry
            (acfs_allocate_clusters
              (acfs_free_clusters a ((a.entries idx).cluster_list.getD [])
                (a.entries idx).cluster_count)
              (acfs_calculate_clusters_needed a.header.cluster_size n)).2.1
            idx
            { a.entries idx with
              cluster_list := some (acfs_allocate_clusters
                (acfs_free_clusters a ((a.entries idx).cluster_list.getD [])
                  (a.entries idx).cluster_count)
                (acfs_calculate_clusters_needed a.header.cluster_size n)).2.2,
              cluster_count :=
                acfs_calculate_clusters_needed a.header.cluster_size n }).entries
            idx).cluster_count ≤ 65535 := by
          rw [hA1cnt, ← hLlen]
          exact h65
        have hsl := finishWrite_slot_saved _ m idx buf n
          (acfs_allocate_clusters
            (acfs_free_clusters a ((a.entries idx).cluster_list.getD [])
              (a.entries idx).cluster_count)
            (acfs_calculate_clusters_needed a.header.cluster_size n)).2.2
          hA1l hA1len hA1idx hc65 hv hw
        rw [hA1S] at hsl
        rw [(finishWrite_state _ m idx buf n).2.2.1]
        exact hsl
  | none =>
    have hcap : a.header.data_entries < maxEntriesOf a.header := by
      by_contra hc
      rw [acfs_write, if_neg hn, if_neg (by rw [hi]; simp),
        if_neg (by simp only [ACFS_MAX_DATA_ID_LEN]; omega)] at hw
      simp only [hfe] at hw
      rw [if_pos (by omega)] at hw
      exact absurd hw (by simp)
    have hal : (acfs_allocate_clusters a
        (acfs_calculate_clusters_needed a.header.cluster_size n)).1 =
        ACFS_OK := by
      rcases allocate_err a
        (acfs_calculate_clusters_needed a.header.cluster_size n) with h | h
      · exact h
      · exfalso
        rw [acfs_write, if_neg hn, if_neg (by rw [hi]; simp),
          if_neg (by simp only [ACFS_MAX_DATA_ID_LEN]; omega)] at hw
        simp only [hfe] at hw
        rw [if_neg (by omega), if_pos (by simp [h])] at hw
        rw [h] at hw
        exact absurd hw (by simp)
    obtain ⟨hALent, hALcs, hALmagic, hALE, hALinit, hLlen, hLnd⟩ :=
      allocate_ok_state a (acfs_calculate_clusters_needed a.header.cluster_size n)
        hal
    obtain ⟨heq2, _, _⟩ := allocate_ok_eq a
      (acfs_calculate_clusters_needed a.header.cluster_size n) hal
    have hidxA : a.header.data_entries <
        ((acfs_allocate_clusters a
          (acfs_calculate_clusters_needed a.header.cluster_size
            n)).2.1.header.data_entries + 1) % 65536 := by
      rw [hALE, Nat.mod_eq_of_lt (by omega)]
      omega
    have W := write_ok_spec_miss a m id buf n hM hfe hw
    have hunf := acfs_write_unfold_miss a m id buf n hn hi hlen32 hfe hcap hal
    rw [hunf] at W hmeta hw ⊢
    have hbound : ∀ c ∈ (acfs_allocate_clusters a
        (acfs_calculate_clusters_needed a.header.cluster_size n)).2.2,
        a.header.sys_clusters ≤ c ∧ c < a.header.total_clusters := by
      intro c hc
      rw [show (acfs_allocate_clusters a
          (acfs_calculate_clusters_needed a.header.cluster_size n)).2.2 =
          allocScan a (acfs_calculate_clusters_needed a.header.cluster_size n)
          from by rw [heq2]] at hc
      have hmm := scanFree_mem _ _ _ _ c (by simpa [allocScan] using hc)
      exact ⟨hmm.1, by omega⟩
    have hA1l : (({ setEntry
        (acfs_allocate_clusters a
          (acfs_calculate_clusters_needed a.header.cluster_size n)).2.1
        a.header.data_entries
        { a.entries a.header.data_entries with
          data_id := id.take (ACFS_MAX_DATA_ID_LEN - 1),
          cluster_list := some (acfs_allocate_clusters a
            (acfs_calculate_clusters_needed a.header.cluster_size n)).2.2,
          cluster_count := acfs_calculate_clusters_needed a.header.cluster_size n,
          is_valid := true } with
      header := { (acfs_allocate_clusters a
          (acfs_calculate_clusters_needed a.header.cluster_size n)).2.1.header with
        data_entries := ((acfs_allocate_clusters a
          (acfs_calculate_clusters_needed a.header.cluster_size
            n)).2.1.header.data_entries + 1) % 65536 } } : Acfs).entries
        a.header.data_entries).cluster_list =
        some (acfs_allocate_clusters a
          (acfs_calculate_clusters_needed a.header.cluster_size n)).2.2 := by
      rw [withHeader_entries, setEntry_entries_self]
    have hA1len : (acfs_allocate_clusters a
        (acfs_calculate_clusters_needed a.header.cluster_size n)).2.2.length =
        (({ setEntry
          (acfs_allocate_clusters a
            (acfs_calculate_clusters_needed a.header.cluster_size n)).2.1
          a.header.data_entries
          { a.entries a.header.data_entries with
            data_id := id.take (ACFS_MAX_DATA_ID_LEN - 1),
            cluster_list := some (acfs_allocate_clusters a
              (acfs_calculate_clusters_needed a.header.cluster_size n)).2.2,
            cluster_count := acfs_calculate_clusters_needed a.header.cluster_size n,
            is_valid := true } with
        header := { (acfs_allocate_clusters a
            (acfs_calculate_clusters_needed a.header.cluster_size n)).2.1.header with
          data_entries := ((acfs_allocate_clusters a
            (acfs_calculate_clusters_needed a.header.cluster_size
              n)).2.1.header.data_entries + 1) % 65536 } } : Acfs).entries
          a.header.data_entries).cluster_count := by
      rw [withHeader_entries, setEntry_entries_self]
      exact hLlen
    have hA1idx : a.header.data_entries < ({ setEntry
        (acfs_allocate_clusters a
          (acfs_calculate_clusters_needed a.header.cluster_size n)).2.1
        a.header.data_entries
        { a.entries a.header.data_entries with
          data_id := id.take (ACFS_MAX_DATA_ID_LEN - 1),
          cluster_list := some (acfs_allocate_clusters a
            (acfs_calculate_clusters_needed a.header.cluster_size n)).2.2,
          cluster_count := acfs_calculate_clusters_needed a.header.cluster_size n,
          is_valid := true } with
      header := { (acfs_allocate_clusters a
          (acfs_calculate_clusters_needed a.header.cluster_size n)).2.1.header with
        data_entries := ((acfs_allocate_clusters a
          (acfs_calculate_clusters_needed a.header.cluster_size
            n)).2.1.header.data_entries + 1) % 65536 } } : Acfs).header.data_entries := by
      rw [withHeader_header, headerWithData_data]
      exact hidxA
    have hA1S : ({ setEntry
        (acfs_allocate_clusters a
          (acfs_calculate_clusters_needed a.header.cluster_size n)).2.1
        a.header.data_entries
        { a.entries a.header.data_entries with
          data_id := id.take (ACFS_MAX_DATA_ID_LEN - 1),
          cluster_list := some (acfs_allocate_clusters a
            (acfs_calculate_clusters_needed a.header.cluster_size n)).2.2,
          cluster_count := acfs_calculate_clusters_needed a.header.cluster_size n,
          is_valid := true } with
      header := { (acfs_allocate_clusters a
          (acfs_calculate_clusters_needed a.header.cluster_size n)).2.1.header with
        data_entries := ((acfs_allocate_clusters a
          (acfs_calculate_clusters_needed a.header.cluster_size
            n)).2.1.header.data_entries + 1) % 65536 } } : Acfs).header.cluster_size =
        a.header.cluster_size := by
      rw [withHeader_header, headerWithData_cs]
      exact hALcs
    have hA1sys : ({ setEntry
        (acfs_allocate_clusters a
          (acfs_calculate_clusters_needed a.header.cluster_size n)).2.1
        a.header.data_entries
        { a.entries a.header.data_entries with
          data_id := id.take (ACFS_MAX_DATA_ID_LEN - 1),
          cluster_list := some (acfs_allocate_clusters a
            (acfs_calculate_clusters_needed a.header.cluster_size n)).2.2,
          cluster_count := acfs_calculate_clusters_needed a.header.cluster_size n,
          is_valid := true } with
      header := { (acfs_allocate_clusters a
          (acfs_calculate_clusters_needed a.header.cluster_size n)).2.1.header with
        data_entries := ((acfs_allocate_clusters a
          (acfs_calculate_clusters_needed a.header.cluster_size
            n)).2.1.header.data_entries + 1) % 65536 } } : Acfs).header.sys_clusters =
        a.header.sys_clusters := by
      rw [withHeader_header, headerWithData_sys]
      rw [show (acfs_allocate_clusters a
          (acfs_calculate_clusters_needed a.header.cluster_size
            n)).2.1.header.sys_clusters = a.header.sys_clusters from by rw [heq2]]
    have hA1tot : ({ setEntry
        (acfs_allocate_clusters a
          (acfs_calculate_clusters_needed a.header.cluster_size n)).2.1
        a.header.data_entries
        { a.entries a.header.data_entries with
          data_id := id.take (ACFS_MAX_DATA_ID_LEN - 1),
          cluster_list := some (acfs_allocate_clusters a
            (acfs_calculate_clusters_needed a.header.cluster_size n)).2.2,
          cluster_count := acfs_calculate_clusters_needed a.header.cluster_size n,
          is_valid := true } with
      header := { (acfs_allocate_clusters a
          (acfs_calculate_clusters_needed a.header.cluster_size n)).2.1.header with
        data_entries := ((acfs_allocate_clusters a
          (acfs_calculate_clusters_needed a.header.cluster_size
            n)).2.1.header.data_entries + 1) % 65536 } } : Acfs).header.total_clusters =
        a.header.total_clusters := by
      rw [withHeader_header, headerWithData_total]
      rw [show (acfs_allocate_clusters a
          (acfs_calculate_clusters_needed a.header.cluster_size
            n)).2.1.header.total_clusters = a.header.total_clusters from by
        rw [heq2]]
    have hA1cnt : (({ setEntry
        (acfs_allocate_clusters a
          (acfs_calculate_clusters_needed a.header.cluster_size n)).2.1
        a.header.data_entries
        { a.entries a.header.data_entries with
          data_id := id.take (ACFS_MAX_DATA_ID_LEN - 1),
          cluster_list := some (acfs_allocate_clusters a
            (acfs_calculate_clusters_needed a.header.cluster_size n)).2.2,
          cluster_count := acfs_calculate_clusters_needed a.header.cluster_size n,
          is_valid := true } with
      header := { (acfs_allocate_clusters a
          (acfs_calculate_clusters_needed a.header.cluster_size n)).2.1.header with
        data_entries := ((acfs_allocate_clusters a
          (acfs_calculate_clusters_needed a.header.cluster_size
            n)).2.1.header.data_entries + 1) % 65536 } } : Acfs).entries
        a.header.data_entries).cluster_count =
        acfs_calculate_clusters_needed a.header.cluster_size n := by
      rw [withHeader_entries, setEntry_entries_self]
    have hmetaA := finishWrite_meta_transfer _ m a.header.data_entries buf n hmeta
    have hdata := finishWrite_data_intact _ m a.header.data_entries buf n
      (acfs_allocate_clusters a
        (acfs_calculate_clusters_needed a.header.cluster_size n)).2.2
      hA1l hA1len hLnd
      (by
        intro c hc
        rw [hA1sys]
        exact (hbound c hc).1)
      hmetaA hw
    rw [hA1cnt, hA1S] at hdata
    refine ⟨a.header.data_entries, (acfs_allocate_clusters a
      (acfs_calculate_clusters_needed a.header.cluster_size n)).2.2, W, hdata,
      hbound, ?_, ?_, ?_⟩
    · rw [(finishWrite_header_ts _ m a.header.data_entries buf n).2]
      exact hA1sys
    · rw [(finishWrite_header_ts _ m a.header.data_entries buf n).1]
      exact hA1tot
    · intro h65 hv
      have hc65 : (({ setEntry
          (acfs_allocate_clusters a
            (acfs_calculate_clusters_needed a.header.cluster_size n)).2.1
          a.header.data_entries
          { a.entries a.header.data_entries with
            data_id := id.take (ACFS_MAX_DATA_ID_LEN - 1),
            cluster_list := some (acfs_allocate_clusters a
              (acfs_calculate_clusters_needed a.header.cluster_size n)).2.2,
            cluster_count := acfs_calculate_clusters_needed a.header.cluster_size n,
            is_valid := true } with
        header := { (acfs_allocate_clusters a
            (acfs_calculate_clusters_needed a.header.cluster_size n)).2.1.header with
          data_entries := ((acfs_allocate_clusters a
            (acfs_calculate_clusters_needed a.header.cluster_size
              n)).2.1.header.data_entries + 1) % 65536 } } : Acfs).entries
          a.header.data_entries).cluster_count ≤ 65535 := by
        rw [hA1cnt, ← hLlen]
        exact h65
      have hsl := finishWrite_slot_saved _ m a.header.data_entries buf n
        (acfs_allocate_clusters a
          (acfs_calculate_clusters_needed a.header.cluster_size n)).2.2
        hA1l hA1len hA1idx hc65 hv hw
      rw [hA1S] at hsl
      rw [(finishWrite_state _ m a.header.data_entries buf n).2.2.1]
      exact hsl

/-- C1 (corrected): the claim as stated is refuted by
`acfs_write_read_clobber_counterexample` — `acfs_save_entries` writes each
cluster-list slot at byte offset `sizeof(acfs_header_t) + data_entries *
sizeof(acfs_data_entry_t) + i * ACFS_MAX_CLUSTERS * 2` guarded only by the
medium-capacity check of `eeprom_write`, so a successful write whose
directory slots reach past the reserved area overwrites its own data
clusters and the read back fails with `CRC_MISMATCH`.  Amended with the
directory-fits hypothesis `MetaInReserved` on the post-write state (and
the `uint32_t`/`uint16_t` representability of `n` and of the cluster
count): after a successful `acfs_write(id, b, n)` on a mounted
filesystem, `acfs_read(id, out, buflen)` with `buflen ≥ n` returns
`ACFS_OK`, deposits the `n` written bytes as the first `n` bytes of the
output, and reports `actual_size = n`. -/
theorem acfs_write_read_roundtrip (a : Acfs) (m : Medium) (id : List Nat)
    (buf : Nat → Nat) (n buflen : Nat)
    (hM : Mounted a) (hn32 : n < 4294967296)
    (hK65 : (n + a.header.cluster_size - 1) / a.header.cluster_size < 65536)
    (hbl : n ≤ buflen)
    (hmeta : MetaInReserved (acfs_write a m id buf n).2.1)
    (hw : (acfs_write a m id buf n).1 = ACFS_OK) :
    (acfs_read (acfs_write a m id buf n).2.1 (acfs_write a m id buf n).2.2 id
        buflen).1 = ACFS_OK ∧
    ((acfs_read (acfs_write a m id buf n).2.1 (acfs_write a m id buf n).2.2 id
        buflen).2.2.2.1).take n = (List.range n).map buf ∧
    (acfs_read (acfs_write a m id buf n).2.1 (acfs_write a m id buf n).2.2 id
        buflen).2.2.2.2 = some n := by
  obtain ⟨idx, l, W, hdata, hlb, hsysP, htotP, hslot⟩ :=
    acfs_write_ok_data a m id buf n hM hw hmeta
  obtain ⟨w1, w2, w3, w4, w5, w6, w7, w8, w9, w10, w11, w12, w13, w14, w15,
    w16, w17⟩ := W
  have hS0 : 64 ≤ a.header.cluster_size := hM.2.2.1
  have hKval : acfs_calculate_clusters_needed a.header.cluster_size n =
      (n + a.header.cluster_size - 1) / a.header.cluster_size := by
    rw [acfs_calculate_clusters_needed]
    exact Nat.mod_eq_of_lt hK65
  have hnK : n ≤ acfs_calculate_clusters_needed a.header.cluster_size n *
      a.header.cluster_size := by
    rw [hKval, Nat.mul_comm]
    have hd := Nat.div_add_mod (n + a.header.cluster_size - 1) a.header.cluster_size
    have hm2 := Nat.mod_lt (n + a.header.cluster_size - 1)
      (show 0 < a.header.cluster_size by omega)
    omega
  have hcond1 : ¬ (buflen <
      ((acfs_write a m id buf n).2.1.entries idx).data_size) := by
    rw [w3, Nat.mod_eq_of_lt hn32]
    omega
  have hIL : indexList l (acfs_calculate_clusters_needed a.header.cluster_size n)
      = l := by
    rw [← w9, indexList_eq_self]
  have hD : acfs_read_clusters (acfs_write a m id buf n).2.1
      (acfs_write a m id buf n).2.2
      (((acfs_write a m id buf n).2.1.entries idx).cluster_list.getD [])
      ((acfs_write a m id buf n).2.1.entries idx).cluster_count =
      (ACFS_OK,
        (List.range (acfs_calculate_clusters_needed a.header.cluster_size n *
          a.header.cluster_size)).map buf) := by
    rw [acfs_read_clusters, w5, Option.getD_some, w6, hIL, w10, hdata]
  have htaken : ((List.range (acfs_calculate_clusters_needed a.header.cluster_size n
      * a.header.cluster_size)).map buf).take n = (List.range n).map buf := by
    rw [← List.map_take, List.take_range, Nat.min_eq_left hnK]
  have hcrc : ¬ (acfs_crc32
      ((((List.range (acfs_calculate_clusters_needed a.header.cluster_size n *
          a.header.cluster_size)).map buf)).take
        (((acfs_write a m id buf n).2.1.entries idx).data_size)) ≠
      ((acfs_write a m id buf n).2.1.entries idx).crc32) := by
    rw [w3, Nat.mod_eq_of_lt hn32, htaken, w4]
    simp
  have hread : acfs_read (acfs_write a m id buf n).2.1
      (acfs_write a m id buf n).2.2 id buflen =
      (ACFS_OK, (acfs_write a m id buf n).2.1, (acfs_write a m id buf n).2.2,
        (List.range (acfs_calculate_clusters_needed a.header.cluster_size n *
          a.header.cluster_size)).map buf,
        some (((acfs_write a m id buf n).2.1.entries idx).data_size)) := by
    rw [acfs_read, if_neg (by rw [w13]; simp)]
    simp only [w1]
    rw [if_neg hcond1, hD, if_neg (by simp), if_neg hcrc]
  rw [hread]
  refine ⟨rfl, ?_, ?_⟩
  · exact htaken
  · rw [w3, Nat.mod_eq_of_lt hn32]

/-- `acfs_read` on a CRC mismatch: with the state initialized, the entry
found, the caller buffer large enough and the cluster read succeeding,
the read returns `ACFS_ERROR_CRC_MISMATCH` together with the raw cluster
data and no size. -/
theorem acfs_read_crc_mismatch_eq (a : Acfs) (m : Medium) (id : List Nat)
    (buflen idx : Nat)
    (hinit : a.initialized = true)
    (hfe : acfs_find_entry a id = some idx)
    (hbl : ¬ (buflen < (a.entries idx).data_size))
    (hrc : (acfs_read_clusters a m ((a.entries idx).cluster_list.getD [])
      (a.entries idx).cluster_count).1 = ACFS_OK)
    (hcrc : acfs_crc32 (((acfs_read_clusters a m
      ((a.entries idx).cluster_list.getD [])
      (a.entries idx).cluster_count).2).take (a.entries idx).data_size) ≠
      (a.entries idx).crc32) :
    acfs_read a m id buflen =
      (ACFS_ERROR_CRC_MISMATCH, a, m,
        (acfs_read_clusters a m ((a.entries idx).cluster_list.getD [])
          (a.entries idx).cluster_count).2, none) := by
  rw [acfs_read, if_neg (by rw [hinit]; simp)]
  simp only [hfe]
  rw [if_neg hbl, if_neg (by simp [hrc]), if_pos hcrc]

theorem cexDataTake1 :
    ((readClustersAux 64 cexAliasW.2.2 [] [3, 4, 5]).2).take 32 =
      cexDataSeg1 := by decide

theorem cexDataTake2 :
    (((readClustersAux 64 cexAliasW.2.2 [] [3, 4, 5]).2).drop 32).take 32 =
      cexDataSeg2 := by decide

theorem cexDataTake3 :
    (((readClustersAux 64 cexAliasW.2.2 [] [3, 4, 5]).2).drop 64).take 32 =
      cexDataSeg3 := by decide

theorem cexDataTake4 :
    (((readClustersAux 64 cexAliasW.2.2 [] [3, 4, 5]).2).drop 96).take 32 =
      cexDataSeg4 := by decide

theorem cexDataTake5 :
    (((readClustersAux 64 cexAliasW.2.2 [] [3, 4, 5]).2).drop 128).take 32 =
      cexDataSeg5 := by decide

theorem cexDataTake6 :
    (((readClustersAux 64 cexAliasW.2.2 [] [3, 4, 5]).2).drop 160).take 32 =
      cexDataSeg6 := by decide

theorem cexDataDrop192 :
    ((readClustersAux 64 cexAliasW.2.2 [] [3, 4, 5]).2).drop 192 = [] := by
  decide

theorem cexDataStep1 :
    ((readClustersAux 64 cexAliasW.2.2 [] [3, 4, 5]).2).drop 32 =
      cexDataSeg2 ++ ((readClustersAux 64 cexAliasW.2.2 [] [3, 4, 5]).2).drop 64 := by
  rw [← List.take_append_drop 32
    (((readClustersAux 64 cexAliasW.2.2 [] [3, 4, 5]).2).drop 32)]
  rw [cexDataTake2,
    show ((((readClustersAux 64 cexAliasW.2.2 [] [3, 4, 5]).2).drop 32).drop 32) =
      ((readClustersAux 64 cexAliasW.2.2 [] [3, 4, 5]).2).drop 64 from by
        rw [List.drop_drop]]

theorem cexDataStep2 :
    ((readClustersAux 64 cexAliasW.2.2 [] [3, 4, 5]).2).drop 64 =
      cexDataSeg3 ++ ((readClustersAux 64 cexAliasW.2.2 [] [3, 4, 5]).2).drop 96 := by
  rw [← List.take_append_drop 32
    (((readClustersAux 64 cexAliasW.2.2 [] [3, 4, 5]).2).drop 64)]
  rw [cexDataTake3,
    show ((((readClustersAux 64 cexAliasW.2.2 [] [3, 4, 5]).2).drop 64).drop 32) =
      ((readClustersAux 64 cexAliasW.2.2 [] [3, 4, 5]).2).drop 96 from by
        rw [List.drop_drop]]

theorem cexDataStep3 :
    ((readClustersAux 64 cexAliasW.2.2 [] [3, 4, 5]).2).drop 96 =
      cexDataSeg4 ++ ((readClustersAux 64 cexAliasW.2.2 [] [3, 4, 5]).2).drop 128 := by
  rw [← List.take_append_drop 32
    (((readClustersAux 64 cexAliasW.2.2 [] [3, 4, 5]).2).drop 96)]
  rw [cexDataTake4,
    show ((((readClustersAux 64 cexAliasW.2.2 [] [3, 4, 5]).2).drop 96).drop 32) =
      ((readClustersAux 64 cexAliasW.2.2 [] [3, 4, 5]).2).drop 128 from by
        rw [List.drop_drop]]

theorem cexDataStep4 :
    ((readClustersAux 64 cexAliasW.2.2 [] [3, 4, 5]).2).drop 128 =
      cexDataSeg5 ++ ((readClustersAux 64 cexAliasW.2.2 [] [3, 4, 5]).2).drop 160 := by
  rw [← List.take_append_drop 32
    (((readClustersAux 64 cexAliasW.2.2 [] [3, 4, 5]).2).drop 128)]
  rw [cexDataTake5,
    show ((((readClustersAux 64 cexAliasW.2.2 [] [3, 4, 5]).2).drop 128).drop 32) =
      ((readClustersAux 64 cexAliasW.2.2 [] [3, 4, 5]).2).drop 160 from by
        rw [List.drop_drop]]

theorem cexDataStep5 :
    ((readClustersAux 64 cexAliasW.2.2 [] [3, 4, 5]).2).drop 160 =
      cexDataSeg6 := by
  rw [← List.take_append_drop 32
    (((readClustersAux 64 cexAliasW.2.2 [] [3, 4, 5]).2).drop 160)]
  rw [cexDataTake6,
    show ((((readClustersAux 64 cexAliasW.2.2 [] [3, 4, 5]).2).drop 160).drop 32) =
      ((readClustersAux 64 cexAliasW.2.2 [] [3, 4, 5]).2).drop 192 from by
        rw [List.drop_drop],
    cexDataDrop192, List.append_nil]

/-- The data-area bytes the post-write medium returns for the cluster
list `[3, 4, 5]`, assembled from the 32-byte segments: the written buffer
except the first two bytes, which the directory save clobbered. -/
theorem cexDataEq : (readClustersAux 64 cexAliasW.2.2 [] [3, 4, 5]).2 =
    cexDataSeg1 ++ (cexDataSeg2 ++ (cexDataSeg3 ++ (cexDataSeg4 ++
      (cexDataSeg5 ++ cexDataSeg6)))) := by
  rw [← List.take_append_drop 32 (readClustersAux 64 cexAliasW.2.2 [] [3, 4, 5]).2]
  rw [cexDataTake1, cexDataStep1, cexDataStep2, cexDataStep3, cexDataStep4,
    cexDataStep5]

theorem cexDataLen :
    ((readClustersAux 64 cexAliasW.2.2 [] [3, 4, 5]).2).length = 192 := by
  rw [cexDataEq]
  decide

theorem cexReadOk :
    (readClustersAux 64 cexAliasW.2.2 [] [3, 4, 5]).1 = ACFS_OK := by decide

/-- CRC-32 of the post-write data bytes, evaluated fold-by-fold over the
32-byte segments. -/
theorem cexDataCrc :
    acfs_crc32 ((readClustersAux 64 cexAliasW.2.2 [] [3, 4, 5]).2) =
      1771692794 := by
  rw [cexDataEq, acfs_crc32, List.foldl_append, List.foldl_append,
    List.foldl_append, List.foldl_append, List.foldl_append]
  rw [show List.foldl crc32_byte 4294967295 cexDataSeg1 = 1444212065 from by decide]
  rw [show List.foldl crc32_byte 1444212065 cexDataSeg2 = 3968426108 from by decide]
  rw [show List.foldl crc32_byte 3968426108 cexDataSeg3 = 2039158756 from by decide]
  rw [show List.foldl crc32_byte 2039158756 cexDataSeg4 = 1615788270 from by decide]
  rw [show List.foldl crc32_byte 1615788270 cexDataSeg5 = 862832453 from by decide]
  rw [show List.foldl crc32_byte 862832453 cexDataSeg6 = 2523274501 from by decide]
  decide

theorem cexBufEq : (List.range 192).map demoBuf =
    cexBufSeg1 ++ (cexBufSeg2 ++ (cexBufSeg3 ++ (cexBufSeg4 ++
      (cexBufSeg5 ++ cexBufSeg6)))) := by decide

/-- CRC-32 of the 192 written bytes (the value `acfs_write` stores in the
entry), evaluated fold-by-fold over the 32-byte segments. -/
theorem cexBufCrc :
    acfs_crc32 ((List.range 192).map demoBuf) = 2423346525 := by
  rw [cexBufEq, acfs_crc32, List.foldl_append, List.foldl_append,
    List.foldl_append, List.foldl_append, List.foldl_append]
  rw [show List.foldl crc32_byte 4294967295 cexBufSeg1 = 435070716 from by decide]
  rw [show List.foldl crc32_byte 435070716 cexBufSeg2 = 3248120116 from by decide]
  rw [show List.foldl crc32_byte 3248120116 cexBufSeg3 = 2567244739 from by decide]
  rw [show List.foldl crc32_byte 2567244739 cexBufSeg4 = 2368977124 from by decide]
  rw [show List.foldl crc32_byte 2368977124 cexBufSeg5 = 1279403205 from by decide]
  rw [show List.foldl crc32_byte 1279403205 cexBufSeg6 = 1871620770 from by decide]
  decide

/-- C1 counterexample: on the mounted 384-byte filesystem `cexAliasAcfs`
(6 clusters of 64 bytes, 3 reserved, 3 directory entries), rewriting id
`"a"` with 192 bytes returns `ACFS_OK`, yet the save of entry 0 has
written its cluster-list slot over bytes `188..193` — two bytes past the
192-byte reserved area, clobbering the first two bytes of data cluster 3
— so the immediate read back fails with `CRC_MISMATCH` and does not
return the written bytes, refuting the claim. -/
theorem acfs_write_read_clobber_counterexample :
    Mounted cexAliasAcfs ∧
    cexAliasW.1 = ACFS_OK ∧
    (acfs_read cexAliasW.2.1 cexAliasW.2.2 [97] 192).1 =
      ACFS_ERROR_CRC_MISMATCH ∧
    ¬ (((acfs_read cexAliasW.2.1 cexAliasW.2.2 [97] 192).2.2.2.1).take 192 =
        (List.range 192).map demoBuf) := by
  have hspec : WriteOk cexAliasAcfs cexAliasMedium [97] demoBuf 192 cexAliasW 0
      [3, 4, 5] :=
    write_ok_spec_hit_eq cexAliasAcfs cexAliasMedium [97] demoBuf 192 0
      (by decide) (by decide) (by decide) (by decide)
  obtain ⟨w1, _, w3, w4, w5, _, _, _, _, _, _, _, w13, _, _, _, _⟩ := hspec
  have hcount : (cexAliasW.2.1.entries 0).cluster_count = 3 := by decide
  have hsize : (cexAliasW.2.1.entries 0).data_size = 192 := by rw [w3]
  have hconv : acfs_read_clusters cexAliasW.2.1 cexAliasW.2.2
      ((cexAliasW.2.1.entries 0).cluster_list.getD [])
      (cexAliasW.2.1.entries 0).cluster_count =
      readClustersAux 64 cexAliasW.2.2 [] [3, 4, 5] := by
    rw [w5, hcount, acfs_read_clusters,
      show cexAliasW.2.1.header.cluster_size = 64 from by decide]
    rfl
  have htake : ((readClustersAux 64 cexAliasW.2.2 [] [3, 4, 5]).2).take 192 =
      (readClustersAux 64 cexAliasW.2.2 [] [3, 4, 5]).2 :=
    List.take_of_length_le (le_of_eq cexDataLen)
  have hcrcne : acfs_crc32
      (((acfs_read_clusters cexAliasW.2.1 cexAliasW.2.2
        ((cexAliasW.2.1.entries 0).cluster_list.getD [])
        (cexAliasW.2.1.entries 0).cluster_count).2).take
        (cexAliasW.2.1.entries 0).data_size) ≠
      (cexAliasW.2.1.entries 0).crc32 := by
    rw [hconv, hsize, htake, cexDataCrc, w4, cexBufCrc]
    decide
  have hread := acfs_read_crc_mismatch_eq cexAliasW.2.1 cexAliasW.2.2 [97] 192 0
    w13 w1 (by rw [hsize]; omega) (by rw [hconv]; exact cexReadOk) hcrcne
  refine ⟨by decide, by decide, ?_, ?_⟩
  · rw [hread]
  · rw [hread]
    show ¬ (((acfs_read_clusters cexAliasW.2.1 cexAliasW.2.2
      ((cexAliasW.2.1.entries 0).cluster_list.getD [])
      (cexAliasW.2.1.entries 0).cluster_count).2).take 192 =
      (List.range 192).map demoBuf)
    rw [hconv, htake, cexDataEq, cexBufEq]
    decide

/-- C1 witness: a concrete 2-byte write on the mounted 512-byte medium
(whose directory metadata stays inside the three reserved clusters),
read back with a 2-byte caller buffer. -/
theorem acfs_write_read_roundtrip_witness :
    Mounted bInit.2.1 ∧ (2 : Nat) < 4294967296 ∧
    (2 + bInit.2.1.header.cluster_size - 1) / bInit.2.1.header.cluster_size
      < 65536 ∧ (2 : Nat) ≤ 2 ∧
    MetaInReserved (acfs_write bInit.2.1 bInit.2.2 [104, 105] demoBuf 2).2.1 ∧
    (acfs_write bInit.2.1 bInit.2.2 [104, 105] demoBuf 2).1 = ACFS_OK ∧
    ((acfs_read (acfs_write bInit.2.1 bInit.2.2 [104, 105] demoBuf 2).2.1
        (acfs_write bInit.2.1 bInit.2.2 [104, 105] demoBuf 2).2.2 [104, 105]
        2).1 = ACFS_OK ∧
      ((acfs_read (acfs_write bInit.2.1 bInit.2.2 [104, 105] demoBuf 2).2.1
        (acfs_write bInit.2.1 bInit.2.2 [104, 105] demoBuf 2).2.2 [104, 105]
        2).2.2.2.1).take 2 = (List.range 2).map demoBuf ∧
      (acfs_read (acfs_write bInit.2.1 bInit.2.2 [104, 105] demoBuf 2).2.1
        (acfs_write bInit.2.1 bInit.2.2 [104, 105] demoBuf 2).2.2 [104, 105]
        2).2.2.2.2 = some 2) :=
  ⟨by decide, by decide, by decide, by decide, by decide, by decide,
    acfs_write_read_roundtrip bInit.2.1 bInit.2.2 [104, 105] demoBuf 2 2
      (by decide) (by decide) (by decide) (by decide) (by decide) (by decide)⟩

/-- C2 (corrected): the claim as stated is refuted by
`remount_read_clobber_counterexample` — the directory save that a
successful write performs can overwrite data-cluster bytes (see C1), so
the state observable after `deinit`/`init` does not match: the remount
reloads the directory but the read of the id fails with `CRC_MISMATCH`.
Amended with the directory-fits hypothesis `MetaInReserved` on the
post-write state (plus representability of `n`, of the cluster count and
of `total_clusters`): after a successful `acfs_write` of `n` bytes under
`id` on a mounted filesystem, `acfs_deinit` then `acfs_init` over the
same medium with a config whose `cluster_size` matches succeed, and
`acfs_read` of `id` returns the same `n` bytes with `actual_size = n`. -/
theorem remount_read_roundtrip (a : Acfs) (m : Medium) (id : List Nat)
    (buf : Nat → Nat) (n buflen : Nat) (cfg : Config)
    (hM : Mounted a) (hn32 : n < 4294967296)
    (hK65 : (n + a.header.cluster_size - 1) / a.header.cluster_size < 65536)
    (hbl : n ≤ buflen)
    (hcfg : cfg.cluster_size = a.header.cluster_size)
    (htot : a.header.total_clusters < 65536)
    (hmeta : MetaInReserved (acfs_write a m id buf n).2.1)
    (hw : (acfs_write a m id buf n).1 = ACFS_OK) :
    (acfs_deinit (acfs_write a m id buf n).2.1).1 = ACFS_OK ∧
    (acfs_init (acfs_deinit (acfs_write a m id buf n).2.1).2 (acfs_write a m id buf n).2.2 cfg).1 = ACFS_OK ∧
    (acfs_read (acfs_init (acfs_deinit (acfs_write a m id buf n).2.1).2 (acfs_write a m id buf n).2.2 cfg).2.1 (acfs_write a m id buf n).2.2 id buflen).1 =
      ACFS_OK ∧
    ((acfs_read (acfs_init (acfs_deinit (acfs_write a m id buf n).2.1).2 (acfs_write a m id buf n).2.2 cfg).2.1 (acfs_write a m id buf n).2.2 id
        buflen).2.2.2.1).take n = (List.range n).map buf ∧
    (acfs_read (acfs_init (acfs_deinit (acfs_write a m id buf n).2.1).2 (acfs_write a m id buf n).2.2 cfg).2.1 (acfs_write a m id buf n).2.2 id
        buflen).2.2.2.2 = some n := by
  obtain ⟨idx, l, W, hdata, hlb, hsysP, htotP, hslot⟩ :=
    acfs_write_ok_data a m id buf n hM hw hmeta
  obtain ⟨w1, w2, w3, w4, w5, w6, w7, w8, w9, w10, w11, w12, w13, w14, w15,
    w16, w17⟩ := W
  have hn : n ≠ 0 := (write_ok_valid a m id buf n hw).1
  have hS64 : 64 ≤ a.header.cluster_size := hM.2.2.1
  have hS4096 : a.header.cluster_size ≤ 4096 := hM.2.2.2.1
  have hKval : acfs_calculate_clusters_needed a.header.cluster_size n =
      (n + a.header.cluster_size - 1) / a.header.cluster_size := by
    rw [acfs_calculate_clusters_needed]
    exact Nat.mod_eq_of_lt hK65
  have hnK : n ≤ acfs_calculate_clusters_needed a.header.cluster_size n *
      a.header.cluster_size := by
    rw [hKval, Nat.mul_comm]
    have hd := Nat.div_add_mod (n + a.header.cluster_size - 1) a.header.cluster_size
    have hm2 := Nat.mod_lt (n + a.header.cluster_size - 1)
      (show 0 < a.header.cluster_size by omega)
    omega
  have hK0 : 0 < acfs_calculate_clusters_needed a.header.cluster_size n := by
    rw [hKval]
    exact Nat.div_pos (by omega) (by omega)
  have htaken : (((List.range (acfs_calculate_clusters_needed a.header.cluster_size n * a.header.cluster_size)).map buf)).take n = (List.range n).map buf := by
    rw [← List.map_take, List.take_range, Nat.min_eq_left hnK]
  have hILL2 : indexList l (acfs_calculate_clusters_needed a.header.cluster_size n)
      = l := by
    have hself := indexList_eq_self l
    rw [w9] at hself
    exact hself
  have hl65 : l.length ≤ 65535 := by
    have hle := nodup_bounded_length l a.header.total_clusters w8
      (fun c hc => (hlb c hc).2)
    omega
  have hv : ∀ v ∈ l, v < 65536 := fun v hv2 => by
    have := (hlb v hv2).2
    omega
  have hslot2 := hslot hl65 hv
  have hlp : 0 < l.length := by rw [w9]; exact hK0
  obtain ⟨c0, hc0⟩ := List.exists_mem_of_length_pos hlp
  have hrngs := readClustersAux_ok_ranges a.header.cluster_size
    (acfs_write a m id buf n).2.2 l [] (by rw [hdata]) c0 hc0
  have hfit : (acfs_write a m id buf n).2.2.start_addr +
      a.header.sys_clusters * a.header.cluster_size ≤
      (acfs_write a m id buf n).2.2.size := by
    have hmul := Nat.mul_le_mul_right a.header.cluster_size (hlb c0 hc0).1
    omega
  have hcnt0 : 0 < ((acfs_write a m id buf n).2.1.entries idx).cluster_count := by
    rw [w6]; exact hK0
  have hm0 := hmeta idx w2 hcnt0
  rw [hsysP, w10] at hm0
  have hREC : ∀ i, i < ((acfs_write a m id buf n).2.1).header.data_entries →
      ((acfs_write a m id buf n).2.2).entryRecs.getD i zeroEntry = ((acfs_write a m id buf n).2.1).entries i := by
    intro i hilt
    rw [w16, List.getD_eq_getElem _ _ (by simpa using hilt)]
    simp only [List.getElem_map, List.getElem_range]
  have hrec2 : ¬ ((acfs_write a m id buf n).2.2.size <
      (acfs_write a m id buf n).2.2.start_addr + SIZEOF_HEADER +
      (acfs_write a m id buf n).2.1.header.data_entries * SIZEOF_ENTRY) := by
    omega
  have hrange2 : ∀ t, t < (acfs_write a m id buf n).2.1.header.data_entries →
      0 < (((acfs_write a m id buf n).2.2.entryRecs.getD t zeroEntry)).cluster_count →
      ¬ ((acfs_write a m id buf n).2.2.size <
        (acfs_write a m id buf n).2.2.start_addr + (SIZEOF_HEADER +
          (acfs_write a m id buf n).2.1.header.data_entries * SIZEOF_ENTRY +
          t * (2 * ACFS_MAX_CLUSTERS)) +
        2 * (((acfs_write a m id buf n).2.2.entryRecs.getD t zeroEntry)).cluster_count) := by
    intro t hlt hcnt
    rw [hREC t hlt] at hcnt ⊢
    have hmt := hmeta t hlt hcnt
    rw [hsysP, w10] at hmt
    omega
  have hDE : acfs_deinit (acfs_write a m id buf n).2.1 = (ACFS_OK, emptyAcfs) := by
    rw [acfs_deinit, if_neg (by rw [w13]; simp)]
  have hLH : acfs_load_header emptyAcfs (acfs_write a m id buf n).2.2 = (ACFS_OK, ({ emptyAcfs with header := (acfs_write a m id buf n).2.1.header } : Acfs)) := by
    rw [acfs_load_header, if_neg w17]
    simp only [w15]
    rw [if_neg (by rw [w11, hM.2.1]; simp), if_neg (by rw [w14]; simp)]
  have hE0 : (({ emptyAcfs with header := (acfs_write a m id buf n).2.1.header } : Acfs)).header.data_entries ≠ 0 := by
    rw [withHeader_header]
    omega
  obtain ⟨hLok, hLent⟩ := load_entries_ok_spec
    ({ emptyAcfs with header := (acfs_write a m id buf n).2.1.header } : Acfs)
    (acfs_write a m id buf n).2.2 hE0 hrec2 hrange2
  have hI : acfs_init emptyAcfs (acfs_write a m id buf n).2.2 cfg = (ACFS_OK, { acfs_init_bitmap (acfs_load_entries ({ emptyAcfs with header := (acfs_write a m id buf n).2.1.header } : Acfs) (acfs_write a m id buf n).2.2).2 with initialized := true }, (acfs_write a m id buf n).2.2) := by
    rw [acfs_init,
      if_neg (show ¬(emptyAcfs.initialized = true) by decide),
      if_neg (show ¬(cfg.cluster_size < 64 ∨ 4096 < cfg.cluster_size ∨
          Nat.land cfg.cluster_size (cfg.cluster_size - 1) ≠ 0) from by
        rw [hcfg]
        simp only [not_or]
        exact ⟨by omega, by omega, by simpa using hM.2.2.2.2.1⟩)]
    have hmagic2 : (acfs_write a m id buf n).2.1.header.magic =
        ACFS_MAGIC_NUMBER := by
      rw [w11, hM.2.1]
    have hcsq : (acfs_write a m id buf n).2.1.header.cluster_size =
        cfg.cluster_size := by
      rw [w10, hcfg]
    simp only [hLH]
    simp [hmagic2, hcsq, hLok]
  have hBH : ({ acfs_init_bitmap (acfs_load_entries ({ emptyAcfs with header := (acfs_write a m id buf n).2.1.header } : Acfs) (acfs_write a m id buf n).2.2).2 with initialized := true } : Acfs).header = ((acfs_write a m id buf n).2.1).header := by
    rw [withInit_header, init_bitmap_header, load_entries_header, withHeader_header]
  have hBinit2 : ({ acfs_init_bitmap (acfs_load_entries ({ emptyAcfs with header := (acfs_write a m id buf n).2.1.header } : Acfs) (acfs_write a m id buf n).2.2).2 with initialized := true } : Acfs).initialized = true := rfl
  have hBent : ∀ i, i < ((acfs_write a m id buf n).2.1).header.data_entries →
      ({ acfs_init_bitmap (acfs_load_entries ({ emptyAcfs with header := (acfs_write a m id buf n).2.1.header } : Acfs) (acfs_write a m id buf n).2.2).2 with initialized := true } : Acfs).entries i =
        (if 0 < (((acfs_write a m id buf n).2.1).entries i).cluster_count then
          { ((acfs_write a m id buf n).2.1).entries i with
            cluster_list := some (readSlotBytes a.header.cluster_size
              (SIZEOF_HEADER + (acfs_write a m id buf n).2.1.header.data_entries * SIZEOF_ENTRY + i * (2 * ACFS_MAX_CLUSTERS))
              (((acfs_write a m id buf n).2.1).entries i).cluster_count
              (acfs_write a m id buf n).2.2) }
        else ((acfs_write a m id buf n).2.1).entries i) := by
    intro i hilt
    simp only [withInit_entries, init_bitmap_entries]
    rw [hLent i]
    simp only [withHeader_header]
    rw [if_pos hilt, hREC i hilt, w10]
  have hfindB : acfs_find_entry ({ acfs_init_bitmap (acfs_load_entries ({ emptyAcfs with header := (acfs_write a m id buf n).2.1.header } : Acfs) (acfs_write a m id buf n).2.2).2 with initialized := true }) id = some idx := by
    rw [acfs_find_entry]
    rw [show ({ acfs_init_bitmap (acfs_load_entries ({ emptyAcfs with header := (acfs_write a m id buf n).2.1.header } : Acfs) (acfs_write a m id buf n).2.2).2 with initialized := true } : Acfs).header.data_entries = ((acfs_write a m id buf n).2.1).header.data_entries from by
      rw [hBH]]
    rw [findLoop_congr ({ acfs_init_bitmap (acfs_load_entries ({ emptyAcfs with header := (acfs_write a m id buf n).2.1.header } : Acfs) (acfs_write a m id buf n).2.2).2 with initialized := true } : Acfs).entries ((acfs_write a m id buf n).2.1).entries id
      ((acfs_write a m id buf n).2.1).header.data_entries 0 (fun k hk => by
        rw [hBent (0 + k) (by omega)]
        by_cases hcnt : 0 < (((acfs_write a m id buf n).2.1).entries (0 + k)).cluster_count
        · rw [if_pos hcnt, entryMatches_set_list]
        · rw [if_neg hcnt])]
    exact w1
  have hBidx : ({ acfs_init_bitmap (acfs_load_entries ({ emptyAcfs with header := (acfs_write a m id buf n).2.1.header } : Acfs) (acfs_write a m id buf n).2.2).2 with initialized := true } : Acfs).entries idx =
      { ((acfs_write a m id buf n).2.1).entries idx with cluster_list := some l } := by
    rw [hBent idx w2]
    rw [if_pos hcnt0]
    rw [w6, ← w9, hslot2]
  have hBS : ({ acfs_init_bitmap (acfs_load_entries ({ emptyAcfs with header := (acfs_write a m id buf n).2.1.header } : Acfs) (acfs_write a m id buf n).2.2).2 with initialized := true } : Acfs).header.cluster_size = a.header.cluster_size := by
    rw [hBH, w10]
  have hcondB : ¬ (buflen < (({ acfs_init_bitmap (acfs_load_entries ({ emptyAcfs with header := (acfs_write a m id buf n).2.1.header } : Acfs) (acfs_write a m id buf n).2.2).2 with initialized := true } : Acfs).entries idx).data_size) := by
    rw [hBidx, entryWithList_size, w3, Nat.mod_eq_of_lt hn32]
    omega
  have hDB : acfs_read_clusters ({ acfs_init_bitmap (acfs_load_entries ({ emptyAcfs with header := (acfs_write a m id buf n).2.1.header } : Acfs) (acfs_write a m id buf n).2.2).2 with initialized := true }) (acfs_write a m id buf n).2.2
      ((({ acfs_init_bitmap (acfs_load_entries ({ emptyAcfs with header := (acfs_write a m id buf n).2.1.header } : Acfs) (acfs_write a m id buf n).2.2).2 with initialized := true } : Acfs).entries idx).cluster_list.getD [])
      (({ acfs_init_bitmap (acfs_load_entries ({ emptyAcfs with header := (acfs_write a m id buf n).2.1.header } : Acfs) (acfs_write a m id buf n).2.2).2 with initialized := true } : Acfs).entries idx).cluster_count = (ACFS_OK, ((List.range (acfs_calculate_clusters_needed a.header.cluster_size n * a.header.cluster_size)).map buf)) := by
    rw [acfs_read_clusters, hBidx, entryWithList_list, Option.getD_some,
      entryWithList_count, w6, hILL2, hBS, hdata]
  have hcrcB : ¬ (acfs_crc32
      ((((List.range (acfs_calculate_clusters_needed a.header.cluster_size n * a.header.cluster_size)).map buf)).take ((({ acfs_init_bitmap (acfs_load_entries ({ emptyAcfs with header := (acfs_write a m id buf n).2.1.header } : Acfs) (acfs_write a m id buf n).2.2).2 with initialized := true } : Acfs).entries idx).data_size)) ≠
      (({ acfs_init_bitmap (acfs_load_entries ({ emptyAcfs with header := (acfs_write a m id buf n).2.1.header } : Acfs) (acfs_write a m id buf n).2.2).2 with initialized := true } : Acfs).entries idx).crc32) := by
    rw [hBidx, entryWithList_size, entryWithList_crc, w3,
      Nat.mod_eq_of_lt hn32, htaken, w4]
    simp
  have hreadB : acfs_read ({ acfs_init_bitmap (acfs_load_entries ({ emptyAcfs with header := (acfs_write a m id buf n).2.1.header } : Acfs) (acfs_write a m id buf n).2.2).2 with initialized := true }) (acfs_write a m id buf n).2.2 id buflen =
      (ACFS_OK, { acfs_init_bitmap (acfs_load_entries ({ emptyAcfs with header := (acfs_write a m id buf n).2.1.header } : Acfs) (acfs_write a m id buf n).2.2).2 with initialized := true }, (acfs_write a m id buf n).2.2, ((List.range (acfs_calculate_clusters_needed a.header.cluster_size n * a.header.cluster_size)).map buf),
        some ((({ acfs_init_bitmap (acfs_load_entries ({ emptyAcfs with header := (acfs_write a m id buf n).2.1.header } : Acfs) (acfs_write a m id buf n).2.2).2 with initialized := true } : Acfs).entries idx).data_size)) := by
    rw [acfs_read, if_neg (by rw [hBinit2]; simp)]
    simp only [hfindB]
    rw [if_neg hcondB, hDB, if_neg (by simp), if_neg hcrcB]
  refine ⟨by rw [hDE], ?_, ?_, ?_, ?_⟩
  · simp only [hDE]
    rw [hI]
  · simp only [hDE, hI]
    rw [hreadB]
  · simp only [hDE, hI]
    rw [hreadB]
    exact htaken
  · simp only [hDE, hI]
    rw [hreadB]
    show some ((({ acfs_init_bitmap (acfs_load_entries ({ emptyAcfs with header := (acfs_write a m id buf n).2.1.header } : Acfs) (acfs_write a m id buf n).2.2).2 with initialized := true } : Acfs).entries idx).data_size) = some n
    rw [hBidx, entryWithList_size, w3, Nat.mod_eq_of_lt hn32]

/-- C2 counterexample: the 192-byte rewrite on `cexAliasAcfs` succeeds
but its directory save clobbers two data-cluster bytes; after `deinit`
and a successful `init` over the same medium with a matching
`cluster_size`, reading the id returns `CRC_MISMATCH`, not the written
bytes — the remount does not restore the API-observable state. -/
theorem remount_read_clobber_counterexample :
    Mounted cexAliasAcfs ∧
    demoCfg.cluster_size = cexAliasAcfs.header.cluster_size ∧
    cexAliasW.1 = ACFS_OK ∧
    (acfs_deinit cexAliasW.2.1).1 = ACFS_OK ∧
    cexAliasRemount.1 = ACFS_OK ∧
    (acfs_read cexAliasRemount.2.1 cexAliasRemount.2.2 [97] 192).1 =
      ACFS_ERROR_CRC_MISMATCH := by
  have hspec : WriteOk cexAliasAcfs cexAliasMedium [97] demoBuf 192 cexAliasW 0
      [3, 4, 5] :=
    write_ok_spec_hit_eq cexAliasAcfs cexAliasMedium [97] demoBuf 192 0
      (by decide) (by decide) (by decide) (by decide)
  obtain ⟨w1, w2, w3, w4, w5, w6, w7, w8, w9, w10, w11, w12, w13, w14, w15,
    w16, w17⟩ := hspec
  have hDE2 : acfs_deinit cexAliasW.2.1 = (ACFS_OK, emptyAcfs) := by
    rw [acfs_deinit, if_neg (by rw [w13]; simp)]
  have hLH2 : acfs_load_header emptyAcfs cexAliasW.2.2 =
      (ACFS_OK, ({ emptyAcfs with header := cexAliasW.2.1.header } : Acfs)) := by
    rw [acfs_load_header, if_neg w17]
    simp only [w15]
    rw [if_neg (by rw [w11]; decide), if_neg (by rw [w14]; simp)]
  have hE02 : ({ emptyAcfs with header := cexAliasW.2.1.header } : Acfs).header.data_entries ≠ 0 := by
    rw [withHeader_header]
    omega
  obtain ⟨hLok2, hLent2⟩ := load_entries_ok_spec
    ({ emptyAcfs with header := cexAliasW.2.1.header } : Acfs) cexAliasW.2.2
    hE02 (by decide) (by decide)
  have hI2 : acfs_init emptyAcfs cexAliasW.2.2 demoCfg = (ACFS_OK,
      ({ acfs_init_bitmap (acfs_load_entries ({ emptyAcfs with header := cexAliasW.2.1.header } : Acfs) cexAliasW.2.2).2 with initialized := true } : Acfs), cexAliasW.2.2) := by
    rw [acfs_init, if_neg (show ¬ (emptyAcfs.initialized = true) by decide),
      if_neg (by decide)]
    have hmagic2 : cexAliasW.2.1.header.magic = ACFS_MAGIC_NUMBER := by
      rw [w11]
      decide
    have hcsq : cexAliasW.2.1.header.cluster_size = demoCfg.cluster_size := by
      rw [w10]
      decide
    simp only [hLH2]
    simp [hmagic2, hcsq, hLok2]
  have hRem2 : cexAliasRemount = (ACFS_OK,
      ({ acfs_init_bitmap (acfs_load_entries ({ emptyAcfs with header := cexAliasW.2.1.header } : Acfs) cexAliasW.2.2).2 with initialized := true } : Acfs), cexAliasW.2.2) := by
    rw [cexAliasRemount, hDE2]
    exact hI2
  have hBfind : acfs_find_entry ({ acfs_init_bitmap (acfs_load_entries ({ emptyAcfs with header := cexAliasW.2.1.header } : Acfs) cexAliasW.2.2).2 with initialized := true } : Acfs) [97] = some 0 := by decide
  have hBsize : (({ acfs_init_bitmap (acfs_load_entries ({ emptyAcfs with header := cexAliasW.2.1.header } : Acfs) cexAliasW.2.2).2 with initialized := true } : Acfs).entries 0).data_size = 192 := by decide
  have hBlist : (({ acfs_init_bitmap (acfs_load_entries ({ emptyAcfs with header := cexAliasW.2.1.header } : Acfs) cexAliasW.2.2).2 with initialized := true } : Acfs).entries 0).cluster_list = some [3, 4, 5] := by decide
  have hBcount : (({ acfs_init_bitmap (acfs_load_entries ({ emptyAcfs with header := cexAliasW.2.1.header } : Acfs) cexAliasW.2.2).2 with initialized := true } : Acfs).entries 0).cluster_count = 3 := by decide
  have hBS64 : ({ acfs_init_bitmap (acfs_load_entries ({ emptyAcfs with header := cexAliasW.2.1.header } : Acfs) cexAliasW.2.2).2 with initialized := true } : Acfs).header.cluster_size = 64 := by decide
  have hBcrcf : (({ acfs_init_bitmap (acfs_load_entries ({ emptyAcfs with header := cexAliasW.2.1.header } : Acfs) cexAliasW.2.2).2 with initialized := true } : Acfs).entries 0).crc32 =
      acfs_crc32 ((List.range 192).map demoBuf) := by
    simp only [withInit_entries, init_bitmap_entries]
    rw [hLent2 0,
      if_pos (show (0 : Nat) < ({ emptyAcfs with header := cexAliasW.2.1.header } : Acfs).header.data_entries from by
        rw [withHeader_header]
        omega),
      if_pos (show 0 < (cexAliasW.2.2.entryRecs.getD 0 zeroEntry).cluster_count from by decide),
      entryWithList_crc]
    have hR0 : cexAliasW.2.2.entryRecs.getD 0 zeroEntry =
        cexAliasW.2.1.entries 0 := by
      rw [w16, List.getD_eq_getElem _ _ (by simpa using w2)]
      simp only [List.getElem_map, List.getElem_range]
    rw [hR0, w4]
  have hconvB : acfs_read_clusters ({ acfs_init_bitmap (acfs_load_entries ({ emptyAcfs with header := cexAliasW.2.1.header } : Acfs) cexAliasW.2.2).2 with initialized := true } : Acfs) cexAliasW.2.2
      ((({ acfs_init_bitmap (acfs_load_entries ({ emptyAcfs with header := cexAliasW.2.1.header } : Acfs) cexAliasW.2.2).2 with initialized := true } : Acfs).entries 0).cluster_list.getD [])
      (({ acfs_init_bitmap (acfs_load_entries ({ emptyAcfs with header := cexAliasW.2.1.header } : Acfs) cexAliasW.2.2).2 with initialized := true } : Acfs).entries 0).cluster_count =
      readClustersAux 64 cexAliasW.2.2 [] [3, 4, 5] := by
    rw [hBlist, hBcount, acfs_read_clusters, hBS64]
    rfl
  have hcrcneB : acfs_crc32
      (((acfs_read_clusters ({ acfs_init_bitmap (acfs_load_entries ({ emptyAcfs with header := cexAliasW.2.1.header } : Acfs) cexAliasW.2.2).2 with initialized := true } : Acfs) cexAliasW.2.2
        ((({ acfs_init_bitmap (acfs_load_entries ({ emptyAcfs with header := cexAliasW.2.1.header } : Acfs) cexAliasW.2.2).2 with initialized := true } : Acfs).entries 0).cluster_list.getD [])
        (({ acfs_init_bitmap (acfs_load_entries ({ emptyAcfs with header := cexAliasW.2.1.header } : Acfs) cexAliasW.2.2).2 with initialized := true } : Acfs).entries 0).cluster_count).2).take
        (({ acfs_init_bitmap (acfs_load_entries ({ emptyAcfs with header := cexAliasW.2.1.header } : Acfs) cexAliasW.2.2).2 with initialized := true } : Acfs).entries 0).data_size) ≠
      (({ acfs_init_bitmap (acfs_load_entries ({ emptyAcfs with header := cexAliasW.2.1.header } : Acfs) cexAliasW.2.2).2 with initialized := true } : Acfs).entries 0).crc32 := by
    rw [hconvB, hBsize,
      List.take_of_length_le (le_of_eq cexDataLen), cexDataCrc, hBcrcf,
      cexBufCrc]
    decide
  have hreadB := acfs_read_crc_mismatch_eq ({ acfs_init_bitmap (acfs_load_entries ({ emptyAcfs with header := cexAliasW.2.1.header } : Acfs) cexAliasW.2.2).2 with initialized := true } : Acfs) cexAliasW.2.2 [97] 192 0
    rfl hBfind (by rw [hBsize]; omega) (by rw [hconvB]; exact cexReadOk) hcrcneB
  refine ⟨by decide, by decide, by decide, ?_, ?_, ?_⟩
  · rw [hDE2]
  · rw [hRem2]
  · rw [hRem2]
    show (acfs_read ({ acfs_init_bitmap (acfs_load_entries ({ emptyAcfs with header := cexAliasW.2.1.header } : Acfs) cexAliasW.2.2).2 with initialized := true } : Acfs) cexAliasW.2.2 [97] 192).1 =
      ACFS_ERROR_CRC_MISMATCH
    rw [hreadB]

/-- C2 witness: a 2-byte write on the mounted 512-byte medium (directory
metadata inside the reserved area), then deinit, re-init with the same
configuration, and a 2-byte read. -/
theorem remount_read_roundtrip_witness :
    Mounted bInit.2.1 ∧ (2 : Nat) < 4294967296 ∧
    (2 + bInit.2.1.header.cluster_size - 1) / bInit.2.1.header.cluster_size
      < 65536 ∧ (2 : Nat) ≤ 2 ∧
    bigCfg.cluster_size = bInit.2.1.header.cluster_size ∧
    bInit.2.1.header.total_clusters < 65536 ∧
    MetaInReserved (acfs_write bInit.2.1 bInit.2.2 [104, 105] demoBuf 2).2.1 ∧
    (acfs_write bInit.2.1 bInit.2.2 [104, 105] demoBuf 2).1 = ACFS_OK ∧
    ((acfs_deinit (acfs_write bInit.2.1 bInit.2.2 [104, 105] demoBuf 2).2.1).1 =
        ACFS_OK ∧
      (acfs_init
        (acfs_deinit (acfs_write bInit.2.1 bInit.2.2 [104, 105] demoBuf 2).2.1).2
        (acfs_write bInit.2.1 bInit.2.2 [104, 105] demoBuf 2).2.2 bigCfg).1 =
        ACFS_OK ∧
      (acfs_read (acfs_init
        (acfs_deinit (acfs_write bInit.2.1 bInit.2.2 [104, 105] demoBuf 2).2.1).2
        (acfs_write bInit.2.1 bInit.2.2 [104, 105] demoBuf 2).2.2 bigCfg).2.1
        (acfs_write bInit.2.1 bInit.2.2 [104, 105] demoBuf 2).2.2 [104, 105]
        2).1 = ACFS_OK ∧
      ((acfs_read (acfs_init
        (acfs_deinit (acfs_write bInit.2.1 bInit.2.2 [104, 105] demoBuf 2).2.1).2
        (acfs_write bInit.2.1 bInit.2.2 [104, 105] demoBuf 2).2.2 bigCfg).2.1
        (acfs_write bInit.2.1 bInit.2.2 [104, 105] demoBuf 2).2.2 [104, 105]
        2).2.2.2.1).take 2 = (List.range 2).map demoBuf ∧
      (acfs_read (acfs_init
        (acfs_deinit (acfs_write bInit.2.1 bInit.2.2 [104, 105] demoBuf 2).2.1).2
        (acfs_write bInit.2.1 bInit.2.2 [104, 105] demoBuf 2).2.2 bigCfg).2.1
        (acfs_write bInit.2.1 bInit.2.2 [104, 105] demoBuf 2).2.2 [104, 105]
        2).2.2.2.2 = some 2) :=
  ⟨by decide, by decide, by decide, by decide, by decide, by decide, by decide,
    by decide,
    remount_read_roundtrip bInit.2.1 bInit.2.2 [104, 105] demoBuf 2 2 bigCfg
      (by decide) (by decide) (by decide) (by decide) (by decide) (by decide)
      (by decide) (by decide)⟩

theorem sumK_eq_of (a1 a2 : Acfs)
    (hE : a1.header.data_entries = a2.header.data_entries)
    (hc : ∀ i, i < a2.header.data_entries →
      (a1.entries i).cluster_count = (a2.entries i).cluster_count) :
    sumK a1 = sumK a2 := by
  rw [sumK, sumK, hE]
  exact Finset.sum_congr rfl (fun i hi => hc i (Finset.mem_range.mp hi))

theorem sum_update (f : Nat → Nat) (idx v : Nat) :
    ∀ E, idx < E →
      Finset.sum (Finset.range E) (fun i => if i = idx then v else f i) + f idx =
      Finset.sum (Finset.range E) f + v := by
  intro E hlt
  induction E, hlt using Nat.le_induction with
  | base =>
    have e1 : Finset.sum (Finset.range (idx + 1))
        (fun i => if i = idx then v else f i) =
        Finset.sum (Finset.range idx) (fun i => if i = idx then v else f i)
          + v := by
      rw [Finset.sum_range_succ, if_pos rfl]
    have e2 : Finset.sum (Finset.range (idx + 1)) f =
        Finset.sum (Finset.range idx) f + f idx := Finset.sum_range_succ f idx
    have e3 : Finset.sum (Finset.range idx) (fun i => if i = idx then v else f i)
        = Finset.sum (Finset.range idx) f :=
      Finset.sum_congr rfl (fun i hi => if_neg (by
        have := Finset.mem_range.mp hi
        omega))
    rw [e1, e3, e2]
    omega
  | succ E hE2 ih =>
    have e1 : Finset.sum (Finset.range (E + 1))
        (fun i => if i = idx then v else f i) =
        Finset.sum (Finset.range E) (fun i => if i = idx then v else f i)
          + f E := by
      rw [Finset.sum_range_succ, if_neg (show ¬(E = idx) by omega)]
    have e2 : Finset.sum (Finset.range (E + 1)) f =
        Finset.sum (Finset.range E) f + f E := Finset.sum_range_succ f E
    rw [e1, e2]
    omega

theorem shift_sum (f : Nat → Nat) (idx : Nat) :
    ∀ E, idx < E →
      Finset.sum (Finset.range (E - 1))
        (fun i => if idx ≤ i then f (i + 1) else f i) + f idx =
      Finset.sum (Finset.range E) f := by
  intro E hlt
  induction E, hlt using Nat.le_induction with
  | base =>
    rw [show idx + 1 - 1 = idx from rfl]
    have e3 : Finset.sum (Finset.range idx)
        (fun i => if idx ≤ i then f (i + 1) else f i) =
        Finset.sum (Finset.range idx) f :=
      Finset.sum_congr rfl (fun i hi => if_neg (by
        have := Finset.mem_range.mp hi
        omega))
    rw [e3, Finset.sum_range_succ]
  | succ E hE2 ih =>
    rw [show E + 1 - 1 = E from rfl]
    rw [Finset.sum_range_succ]
    have hEs : E = (E - 1) + 1 := by omega
    have hsplit : Finset.sum (Finset.range E)
        (fun i => if idx ≤ i then f (i + 1) else f i) =
        Finset.sum (Finset.range (E - 1))
          (fun i => if idx ≤ i then f (i + 1) else f i) +
        (if idx ≤ E - 1 then f (E - 1 + 1) else f (E - 1)) := by
      conv_lhs => rw [hEs]
      exact Finset.sum_range_succ _ _
    rw [hsplit, if_pos (by omega), show E - 1 + 1 = E from by omega]
    have ih2 : Finset.sum (Finset.range (E - 1))
        (fun i => if idx ≤ i then f (i + 1) else f i) + f idx =
        Finset.sum (Finset.range E) (fun x => f x) := ih
    omega

theorem formatZeroLoop_acfs (a : Acfs) (S : Nat) :
    ∀ k m i, (formatZeroLoop a S m i k).2.1 = a := by
  intro k
  induction k with
  | zero => intro m i; rfl
  | succ k2 ih =>
    intro m i
    rw [formatZeroLoop]
    split
    · rfl
    · exact ih _ _

theorem save_header_acfs (a : Acfs) (m : Medium) :
    (acfs_save_header a m).2.1 =
      { a with
        header := { a.header with crc32 := acfs_crc32 (headerBytes a.header) } } := by
  rw [acfs_save_header]
  split <;> rfl

theorem format_tail_acfs (x : Acfs) (m2 : Medium) (S i k : Nat) :
    (if (acfs_save_header x m2).1 ≠ ACFS_OK then acfs_save_header x m2
     else formatZeroLoop (acfs_save_header x m2).2.1 S
       (acfs_save_header x m2).2.2 i k).2.1 =
    { x with header :=
      { x.header with crc32 := acfs_crc32 (headerBytes x.header) } } := by
  split
  · rw [save_header_acfs]
  · rw [formatZeroLoop_acfs, save_header_acfs]
theorem format_ok_header (a : Acfs) (m : Medium) (cfg : Config)
    (h : (acfs_format a m cfg).1 = ACFS_OK) :
    (acfs_format a m cfg).2.1.header.data_entries = 0 ∧
    (acfs_format a m cfg).2.1.header.sys_clusters <
      (acfs_format a m cfg).2.1.header.total_clusters ∧
    (acfs_format a m cfg).2.1.header.free_clusters =
      (acfs_format a m cfg).2.1.header.total_clusters -
        (acfs_format a m cfg).2.1.header.sys_clusters ∧
    (acfs_format a m cfg).2.1.header.total_clusters < 65536 := by
  simp only [acfs_format] at h ⊢
  by_cases ht0 : m.size / cfg.cluster_size % 65536 = 0
  · rw [if_pos ht0] at h
    exact absurd h (by simp)
  · rw [if_neg ht0] at h ⊢
    by_cases hts : m.size / cfg.cluster_size % 65536 ≤
        (if cfg.reserved_clusters = 0 then
          (if (SIZEOF_HEADER + cfg.cluster_size - 1) / cfg.cluster_size < 2
            then 2
            else (SIZEOF_HEADER + cfg.cluster_size - 1) / cfg.cluster_size)
          else cfg.reserved_clusters)
    · rw [if_pos hts] at h
      exact absurd h (by simp)
    · rw [if_neg hts] at h ⊢
      rw [format_tail_acfs]
      refine ⟨rfl, ?_, rfl, ?_⟩
      · show (if cfg.reserved_clusters = 0 then
            (if (SIZEOF_HEADER + cfg.cluster_size - 1) / cfg.cluster_size < 2
              then 2
              else (SIZEOF_HEADER + cfg.cluster_size - 1) / cfg.cluster_size)
            else cfg.reserved_clusters) < m.size / cfg.cluster_size % 65536
        omega
      · show m.size / cfg.cluster_size % 65536 < 65536
        exact Nat.mod_lt _ (by omega)

theorem init_fresh_inv (m0 : Medium) (cfg : Config) (a1 : Acfs) (m1 : Medium)
    (h0 : m0.header = none)
    (h : acfs_init emptyAcfs m0 cfg = (ACFS_OK, a1, m1)) :
    a1.header.free_clusters + sumK a1 + a1.header.sys_clusters =
      a1.header.total_clusters ∧
    a1.header.total_clusters < 65536 := by
  have hlh : (acfs_load_header emptyAcfs m0).1 ≠ ACFS_OK := by
    rw [acfs_load_header]
    by_cases hb : m0.size < m0.start_addr + SIZEOF_HEADER
    · rw [if_pos hb]; simp
    · rw [if_neg hb]; simp only [h0]; simp
  have hlh2 : (acfs_load_header emptyAcfs m0).2 = emptyAcfs := by
    rw [acfs_load_header]
    by_cases hb : m0.size < m0.start_addr + SIZEOF_HEADER
    · rw [if_pos hb]
    · rw [if_neg hb]; simp only [h0]
  rw [acfs_init, if_neg (show ¬(emptyAcfs.initialized = true) by decide)] at h
  by_cases hv : cfg.cluster_size < 64 ∨ 4096 < cfg.cluster_size ∨
      Nat.land cfg.cluster_size (cfg.cluster_size - 1) ≠ 0
  · rw [if_pos hv] at h
    simp at h
  · rw [if_neg hv] at h
    obtain ⟨e1, hE1, hne⟩ : ∃ e1, acfs_load_header emptyAcfs m0 =
        (e1, emptyAcfs) ∧ e1 ≠ ACFS_OK := by
      refine ⟨(acfs_load_header emptyAcfs m0).1, ?_, hlh⟩
      conv_lhs => rw [show acfs_load_header emptyAcfs m0 =
        ((acfs_load_header emptyAcfs m0).1,
          (acfs_load_header emptyAcfs m0).2) from rfl]
      rw [hlh2]
    simp only [hE1] at h
    rw [if_neg hne] at h
    by_cases hfi : cfg.format_if_invalid = true
    · rw [if_pos hfi] at h
      by_cases hfo : (acfs_format emptyAcfs m0 cfg).1 = ACFS_OK
      · obtain ⟨d0, dst, dfree, dtot⟩ := format_ok_header emptyAcfs m0 cfg hfo
        rw [if_neg (by simp [hfo])] at h
        rw [if_neg (by rw [load_entries_E0 _ _ d0]; simp)] at h
        injection h with hE2 hP
        injection hP with hB2 hm2
        subst hB2
        have hah : ({ acfs_init_bitmap
            (acfs_load_entries (acfs_format emptyAcfs m0 cfg).2.1
              (acfs_format emptyAcfs m0 cfg).2.2).2 with
            initialized := true } : Acfs).header =
            (acfs_format emptyAcfs m0 cfg).2.1.header := by
          rw [withInit_header, init_bitmap_header, load_entries_header]
        have hsum0 : sumK ({ acfs_init_bitmap
            (acfs_load_entries (acfs_format emptyAcfs m0 cfg).2.1
              (acfs_format emptyAcfs m0 cfg).2.2).2 with
            initialized := true } : Acfs) = 0 := by
          rw [sumK]
          rw [show ({ acfs_init_bitmap
              (acfs_load_entries (acfs_format emptyAcfs m0 cfg).2.1
                (acfs_format emptyAcfs m0 cfg).2.2).2 with
              initialized := true } : Acfs).header.data_entries = 0 from by
            rw [hah]
            exact d0]
          exact Finset.sum_range_zero _
        constructor
        · rw [hsum0, hah, dfree]
          omega
        · rw [hah]
          exact dtot
      · rw [if_pos (by simp [hfo])] at h
        have := congrArg Prod.fst h
        exact absurd this hfo
    · rw [if_neg hfi] at h
      rw [if_pos (by simp)] at h
      simp at h
theorem single_le_sum_range (f : Nat → Nat) (idx : Nat) :
    ∀ E, idx < E → f idx ≤ Finset.sum (Finset.range E) f := by
  intro E hlt
  induction E, hlt using Nat.le_induction with
  | base =>
    rw [Finset.sum_range_succ]
    omega
  | succ E hE2 ih =>
    rw [Finset.sum_range_succ]
    have ih2 : f idx ≤ Finset.sum (Finset.range E) (fun x => f x) := ih
    omega

theorem write_step_inv (a : Acfs) (m : Medium) (id : List Nat) (buf : Nat → Nat)
    (n : Nat)
    (hIV : a.header.free_clusters + sumK a + a.header.sys_clusters =
      a.header.total_clusters)
    (hN : a.header.total_clusters < 65536)
    (hE : a.header.data_entries < 65535)
    (hw : (acfs_write a m id buf n).1 = ACFS_OK) :
    (acfs_write a m id buf n).2.1.header.free_clusters +
      sumK (acfs_write a m id buf n).2.1 +
      (acfs_write a m id buf n).2.1.header.sys_clusters =
      (acfs_write a m id buf n).2.1.header.total_clusters ∧
    (acfs_write a m id buf n).2.1.header.total_clusters < 65536 := by
  obtain ⟨hn, hi, hlen32⟩ := write_ok_valid a m id buf n hw
  cases hfe : acfs_find_entry a id with
  | some idx =>
    obtain ⟨hidx, hmatch, _⟩ := find_some_facts a id idx hfe
    have hKoldS : (a.entries idx).cluster_count ≤ sumK a := by
      show (a.entries idx).cluster_count ≤
        Finset.sum (Finset.range a.header.data_entries)
          fun i => (a.entries i).cluster_count
      exact single_le_sum_range (fun i => (a.entries i).cluster_count) idx
        a.header.data_entries hidx
    by_cases hkeq : (a.entries idx).cluster_count =
        acfs_calculate_clusters_needed a.header.cluster_size n
    · have hunf := acfs_write_unfold_hit_eq a m id buf n idx hn hi hlen32 hfe hkeq
      have hEe : (finishWrite a m idx buf n).2.1.header.data_entries =
          a.header.data_entries := (finishWrite_state a m idx buf n).2.2.1
      have hcc : ∀ i, i < a.header.data_entries →
          ((finishWrite a m idx buf n).2.1.entries i).cluster_count =
          (a.entries i).cluster_count := by
        intro i hi3
        rw [(finishWrite_state a m idx buf n).2.2.2]
        by_cases hii : i = idx
        · subst hii
          rw [setEntry_entries_self]
        · rw [setEntry_entries_ne _ _ _ _ hii]
      constructor
      · rw [hunf, (finishWrite_state a m idx buf n).2.1,
          (finishWrite_header_ts a m idx buf n).1,
          (finishWrite_header_ts a m idx buf n).2,
          sumK_eq_of _ a hEe hcc]
        exact hIV
      · rw [hunf, (finishWrite_header_ts a m idx buf n).1]
        exact hN
    · have hal : (acfs_allocate_clusters
          (acfs_free_clusters a ((a.entries idx).cluster_list.getD [])
            (a.entries idx).cluster_count)
          (acfs_calculate_clusters_needed a.header.cluster_size n)).1 =
          ACFS_OK := by
        rcases allocate_err
          (acfs_free_clusters a ((a.entries idx).cluster_list.getD [])
            (a.entries idx).cluster_count)
          (acfs_calculate_clusters_needed a.header.cluster_size n) with h | h
        · exact h
        · exfalso
          rw [acfs_write, if_neg hn, if_neg (by rw [hi]; simp),
            if_neg (by simp only [ACFS_MAX_DATA_ID_LEN]; omega)] at hw
          simp only [hfe] at hw
          rw [if_pos hkeq, if_pos (by simp [h])] at hw
          rw [h] at hw
          exact absurd hw (by simp)
      obtain ⟨heq, hlenL, hKle⟩ := allocate_ok_eq
        (acfs_free_clusters a ((a.entries idx).cluster_list.getD [])
          (a.entries idx).cluster_count)
        (acfs_calculate_clusters_needed a.header.cluster_size n) hal
      have hwrap : (a.header.free_clusters + (a.entries idx).cluster_count) %
          65536 = a.header.free_clusters + (a.entries idx).cluster_count :=
        Nat.mod_eq_of_lt (by omega)
      have hKle2 : acfs_calculate_clusters_needed a.header.cluster_size n ≤
          a.header.free_clusters + (a.entries idx).cluster_count := by
        rw [free_clusters_free, hwrap] at hKle
        exact hKle
      have hunf := acfs_write_unfold_hit_realloc a m id buf n idx hn hi hlen32
        hfe hkeq hal
      have hFr : (acfs_write a m id buf n).2.1.header.free_clusters =
          a.header.free_clusters + (a.entries idx).cluster_count -
            acfs_calculate_clusters_needed a.header.cluster_size n := by
        rw [hunf, (finishWrite_state _ _ _ _ _).2.1, setEntry_header]
        rw [show (acfs_allocate_clusters
            (acfs_free_clusters a ((a.entries idx).cluster_list.getD [])
              (a.entries idx).cluster_count)
            (acfs_calculate_clusters_needed a.header.cluster_size
              n)).2.1.header.free_clusters =
            (acfs_free_clusters a ((a.entries idx).cluster_list.getD [])
              (a.entries idx).cluster_count).header.free_clusters -
            acfs_calculate_clusters_needed a.header.cluster_size n from by
          rw [heq]]
        rw [free_clusters_free, hwrap]
      have hEr : (acfs_write a m id buf n).2.1.header.data_entries =
          a.header.data_entries := by
        rw [hunf, (finishWrite_state _ _ _ _ _).2.2.1, setEntry_header]
        rw [show (acfs_allocate_clusters
            (acfs_free_clusters a ((a.entries idx).cluster_list.getD [])
              (a.entries idx).cluster_count)
            (acfs_calculate_clusters_needed a.header.cluster_size
              n)).2.1.header.data_entries =
            (acfs_free_clusters a ((a.entries idx).cluster_list.getD [])
              (a.entries idx).cluster_count).header.data_entries from by
          rw [heq]]
        rw [free_clusters_data_entries]
      have hTr : (acfs_write a m id buf n).2.1.header.total_clusters =
          a.header.total_clusters := by
        rw [hunf, (finishWrite_header_ts _ _ _ _ _).1, setEntry_header]
        rw [show (acfs_allocate_clusters
            (acfs_free_clusters a ((a.entries idx).cluster_list.getD [])
              (a.entries idx).cluster_count)
            (acfs_calculate_clusters_needed a.header.cluster_size
              n)).2.1.header.total_clusters =
            (acfs_free_clusters a ((a.entries idx).cluster_list.getD [])
              (a.entries idx).cluster_count).header.total_clusters from by
          rw [heq]]
        rw [free_clusters_total]
      have hSr : (acfs_write a m id buf n).2.1.header.sys_clusters =
          a.header.sys_clusters := by
        rw [hunf, (finishWrite_header_ts _ _ _ _ _).2, setEntry_header]
        rw [show (acfs_allocate_clusters
            (acfs_free_clusters a ((a.entries idx).cluster_list.getD [])
              (a.entries idx).cluster_count)
            (acfs_calculate_clusters_needed a.header.cluster_size
              n)).2.1.header.sys_clusters =
            (acfs_free_clusters a ((a.entries idx).cluster_list.getD [])
              (a.entries idx).cluster_count).header.sys_clusters from by
          rw [heq]]
        rw [free_clusters_sys]
      have hcr : ∀ i, i < a.header.data_entries →
          ((acfs_write a m id buf n).2.1.entries i).cluster_count =
          (if i = idx then
            acfs_calculate_clusters_needed a.header.cluster_size n
          else (a.entries i).cluster_count) := by
        intro i hilt
        rw [hunf, (finishWrite_state _ _ _ _ _).2.2.2]
        by_cases hii : i = idx
        · subst hii
          rw [setEntry_entries_self, setEntry_entries_self, if_pos rfl]
        · rw [setEntry_entries_ne _ _ _ _ hii, setEntry_entries_ne _ _ _ _ hii]
          rw [show (acfs_allocate_clusters
              (acfs_free_clusters a ((a.entries idx).cluster_list.getD [])
                (a.entries idx).cluster_count)
              (acfs_calculate_clusters_needed a.header.cluster_size
                n)).2.1.entries =
              (acfs_free_clusters a ((a.entries idx).cluster_list.getD [])
                (a.entries idx).cluster_count).entries from by
            rw [heq]]
          rw [free_clusters_entries, if_neg hii]
      have hsum : sumK (acfs_write a m id buf n).2.1 +
          (a.entries idx).cluster_count =
          sumK a + acfs_calculate_clusters_needed a.header.cluster_size n := by
        rw [sumK, sumK, hEr]
        rw [Finset.sum_congr rfl
          (fun i hi2 => hcr i (Finset.mem_range.mp hi2))]
        exact sum_update (fun i => (a.entries i).cluster_count) idx
          (acfs_calculate_clusters_needed a.header.cluster_size n)
          a.header.data_entries hidx
      constructor
      · rw [hFr, hTr, hSr]
        omega
      · rw [hTr]
        exact hN
  | none =>
    have hcap : a.header.data_entries < maxEntriesOf a.header := by
      by_contra hc
      rw [acfs_write, if_neg hn, if_neg (by rw [hi]; simp),
        if_neg (by simp only [ACFS_MAX_DATA_ID_LEN]; omega)] at hw
      simp only [hfe] at hw
      rw [if_pos (by omega)] at hw
      exact absurd hw (by simp)
    have hal : (acfs_allocate_clusters a
        (acfs_calculate_clusters_needed a.header.cluster_size n)).1 =
        ACFS_OK := by
      rcases allocate_err a
        (acfs_calculate_clusters_needed a.header.cluster_size n) with h | h
      · exact h
      · exfalso
        rw [acfs_write, if_neg hn, if_neg (by rw [hi]; simp),
          if_neg (by simp only [ACFS_MAX_DATA_ID_LEN]; omega)] at hw
        simp only [hfe] at hw
        rw [if_neg (by omega), if_pos (by simp [h])] at hw
        rw [h] at hw
        exact absurd hw (by simp)
    obtain ⟨heq, hlenL, hKle⟩ := allocate_ok_eq a
      (acfs_calculate_clusters_needed a.header.cluster_size n) hal
    have hunf := acfs_write_unfold_miss a m id buf n hn hi hlen32 hfe hcap hal
    have hFr : (acfs_write a m id buf n).2.1.header.free_clusters =
        a.header.free_clusters -
          acfs_calculate_clusters_needed a.header.cluster_size n := by
      rw [hunf, (finishWrite_state _ _ _ _ _).2.1, withHeader_header,
        headerWithData_free]
      rw [show (acfs_allocate_clusters a
          (acfs_calculate_clusters_needed a.header.cluster_size
            n)).2.1.header.free_clusters =
          a.header.free_clusters -
            acfs_calculate_clusters_needed a.header.cluster_size n from by
        rw [heq]]
    have hEr : (acfs_write a m id buf n).2.1.header.data_entries =
        a.header.data_entries + 1 := by
      rw [hunf, (finishWrite_state _ _ _ _ _).2.2.1, withHeader_header,
        headerWithData_data]
      rw [show (acfs_allocate_clusters a
          (acfs_calculate_clusters_needed a.header.cluster_size
            n)).2.1.header.data_entries = a.header.data_entries from by
        rw [heq]]
      exact Nat.mod_eq_of_lt (by omega)
    have hTr : (acfs_write a m id buf n).2.1.header.total_clusters =
        a.header.total_clusters := by
      rw [hunf, (finishWrite_header_ts _ _ _ _ _).1, withHeader_header,
        headerWithData_total]
      rw [show (acfs_allocate_clusters a
          (acfs_calculate_clusters_needed a.header.cluster_size
            n)).2.1.header.total_clusters = a.header.total_clusters from by
        rw [heq]]
    have hSr : (acfs_write a m id buf n).2.1.header.sys_clusters =
        a.header.sys_clusters := by
      rw [hunf, (finishWrite_header_ts _ _ _ _ _).2, withHeader_header,
        headerWithData_sys]
      rw [show (acfs_allocate_clusters a
          (acfs_calculate_clusters_needed a.header.cluster_size
            n)).2.1.header.sys_clusters = a.header.sys_clusters from by
        rw [heq]]
    have hcr : ∀ i, i < a.header.data_entries + 1 →
        ((acfs_write a m id buf n).2.1.entries i).cluster_count =
        (if i = a.header.data_entries then
          acfs_calculate_clusters_needed a.header.cluster_size n
        else (a.entries i).cluster_count) := by
      intro i hilt
      rw [hunf, (finishWrite_state _ _ _ _ _).2.2.2]
      by_cases hii : i = a.header.data_entries
      · subst hii
        rw [setEntry_entries_self, withHeader_entries, setEntry_entries_self,
          if_pos rfl]
      · rw [setEntry_entries_ne _ _ _ _ hii, withHeader_entries,
          setEntry_entries_ne _ _ _ _ hii]
        rw [show (acfs_allocate_clusters a
            (acfs_calculate_clusters_needed a.header.cluster_size
              n)).2.1.entries = a.entries from by
          rw [heq]]
        rw [if_neg hii]
    have hsum : sumK (acfs_write a m id buf n).2.1 =
        sumK a + acfs_calculate_clusters_needed a.header.cluster_size n := by
      rw [sumK, sumK, hEr]
      rw [Finset.sum_congr rfl
        (fun i hi2 => hcr i (Finset.mem_range.mp hi2))]
      rw [Finset.sum_range_succ, if_pos rfl]
      rw [Finset.sum_congr rfl (fun i hi3 => if_neg (by
        have := Finset.mem_range.mp hi3
        omega))]
    constructor
    · rw [hFr, hTr, hSr, hsum]
      omega
    · rw [hTr]
      exact hN
theorem delete_step_inv (a : Acfs) (m : Medium) (id : List Nat)
    (hIV : a.header.free_clusters + sumK a + a.header.sys_clusters =
      a.header.total_clusters)
    (hN : a.header.total_clusters < 65536)
    (hd : (acfs_delete a m id).1 = ACFS_OK) :
    (acfs_delete a m id).2.1.header.free_clusters +
      sumK (acfs_delete a m id).2.1 +
      (acfs_delete a m id).2.1.header.sys_clusters =
      (acfs_delete a m id).2.1.header.total_clusters ∧
    (acfs_delete a m id).2.1.header.total_clusters < 65536 := by
  have hinit : a.initialized = true := by
    by_contra hi2
    have hif : a.initialized = false := by
      cases hb : a.initialized
      · rfl
      · exact absurd hb hi2
    rw [acfs_delete, if_pos hif] at hd
    exact absurd hd (by simp)
  cases hfe : acfs_find_entry a id with
  | none =>
    exfalso
    rw [acfs_delete, if_neg (by rw [hinit]; simp)] at hd
    simp only [hfe] at hd
    exact absurd hd (by simp)
  | some idx =>
    obtain ⟨hidx, _, _⟩ := find_some_facts a id idx hfe
    have hcS : (a.entries idx).cluster_count ≤ sumK a := by
      show (a.entries idx).cluster_count ≤
        Finset.sum (Finset.range a.header.data_entries)
          fun i => (a.entries i).cluster_count
      exact single_le_sum_range (fun i => (a.entries i).cluster_count) idx
        a.header.data_entries hidx
    have hdF : (acfs_delete a m id).2.1.header.free_clusters =
        a.header.free_clusters + (a.entries idx).cluster_count := by
      rw [acfs_delete, if_neg (by rw [hinit]; simp)]
      simp only [hfe]
      rw [persistMeta_acfs, withHeader_header, headerWithCrc_free,
        withEH_header, headerWithData_free, free_clusters_free]
      exact Nat.mod_eq_of_lt (by omega)
    have hdE : (acfs_delete a m id).2.1.header.data_entries =
        a.header.data_entries - 1 := by
      rw [acfs_delete, if_neg (by rw [hinit]; simp)]
      simp only [hfe]
      rw [persistMeta_acfs, withHeader_header, headerWithCrc_data,
        withEH_header, headerWithData_data, free_clusters_data_entries]
    have hdT : (acfs_delete a m id).2.1.header.total_clusters =
        a.header.total_clusters := by
      rw [acfs_delete, if_neg (by rw [hinit]; simp)]
      simp only [hfe]
      rw [persistMeta_acfs, withHeader_header, headerWithCrc_total,
        withEH_header, headerWithData_total, free_clusters_total]
    have hdS : (acfs_delete a m id).2.1.header.sys_clusters =
        a.header.sys_clusters := by
      rw [acfs_delete, if_neg (by rw [hinit]; simp)]
      simp only [hfe]
      rw [persistMeta_acfs, withHeader_header, headerWithCrc_sys,
        withEH_header, headerWithData_sys, free_clusters_sys]
    have hdEnt : ∀ i, i < a.header.data_entries - 1 →
        ((acfs_delete a m id).2.1.entries i).cluster_count =
        (if idx ≤ i then (a.entries (i + 1)).cluster_count
          else (a.entries i).cluster_count) := by
      intro i hilt
      rw [acfs_delete, if_neg (by rw [hinit]; simp)]
      simp only [hfe]
      rw [persistMeta_acfs, withHeader_entries, withEH_entries]
      simp only [free_clusters_data_entries, free_clusters_entries]
      rw [if_neg (by omega)]
      by_cases hix : idx ≤ i
      · rw [if_pos (And.intro hix (by omega)), if_pos hix]
      · rw [if_neg (show ¬(idx ≤ i ∧ i < a.header.data_entries - 1) from
          fun hand => hix hand.1), if_neg hix]
    have hsum : sumK (acfs_delete a m id).2.1 +
        (a.entries idx).cluster_count = sumK a := by
      rw [sumK, sumK, hdE]
      rw [Finset.sum_congr rfl
        (fun i hi2 => hdEnt i (Finset.mem_range.mp hi2))]
      exact shift_sum (fun i => (a.entries i).cluster_count) idx
        a.header.data_entries hidx
    refine ⟨?_, by rw [hdT]; exact hN⟩
    rw [hdF, hdT, hdS]
    omega
/-- C5 (amended): in every filesystem state reachable from a freshly
formatted medium by successful API operations, `free_clusters` plus the
sum of `cluster_count` over the live directory entries plus the reserved
count `sys_clusters` equals `total_clusters`.  The original claim also
ranged over failed operations; `free_sum_invariant_counterexample`
exhibits a failed rewrite after which the equality does not hold. -/
theorem free_sum_reserved_total (a : Acfs) (m : Medium)
    (h : Reachable a m) :
    a.header.free_clusters + sumK a + a.header.sys_clusters =
      a.header.total_clusters := by
  have main : a.header.free_clusters + sumK a + a.header.sys_clusters =
      a.header.total_clusters ∧ a.header.total_clusters < 65536 := by
    induction h with
    | root m0 cfg a1 m1 h0 hinit => exact init_fresh_inv m0 cfg a1 m1 h0 hinit
    | write_ok a2 m2 id buf n a1 m1 hre hE2 hweq ih =>
      have hw1 : (acfs_write a2 m2 id buf n).1 = ACFS_OK := by rw [hweq]
      have ha1 : a1 = (acfs_write a2 m2 id buf n).2.1 := by rw [hweq]
      rw [ha1]
      exact write_step_inv a2 m2 id buf n ih.1 ih.2 hE2 hw1
    | delete_ok a2 m2 id a1 m1 hre hdeq ih =>
      have hd1 : (acfs_delete a2 m2 id).1 = ACFS_OK := by rw [hdeq]
      have ha1 : a1 = (acfs_delete a2 m2 id).2.1 := by rw [hdeq]
      rw [ha1]
      exact delete_step_inv a2 m2 id ih.1 ih.2 hd1
  exact main.1

/-- C5 counterexample: on the 256-byte medium (4 clusters, 2 reserved),
after mounting, writing 64 bytes under `"a"` and then attempting to
rewrite `"a"` with 192 bytes, the rewrite frees the old cluster and fails
with `ACFS_ERROR_NO_SPACE`; in the resulting state
`free_clusters + Σ cluster_count + sys_clusters = 2 + 1 + 2 = 5` while
`total_clusters = 4`. -/
theorem free_sum_invariant_counterexample :
    traceInit.1 = ACFS_OK ∧ traceW1.1 = ACFS_OK ∧
    traceW2.1 = ACFS_ERROR_NO_SPACE ∧
    traceW2.2.1.header.free_clusters + sumK traceW2.2.1 +
      traceW2.2.1.header.sys_clusters ≠
      traceW2.2.1.header.total_clusters :=
  ⟨by decide, by decide, by decide, by decide⟩

/-- C5 witness: the invariant holds at the freshly mounted 256-byte
medium, a reachable state. -/
theorem free_sum_reserved_total_witness :
    Reachable traceInit.2.1 traceInit.2.2 ∧
    traceInit.2.1.header.free_clusters + sumK traceInit.2.1 +
      traceInit.2.1.header.sys_clusters =
      traceInit.2.1.header.total_clusters := by
  have hre : Reachable traceInit.2.1 traceInit.2.2 := by
    refine Reachable.root demoMedium demoCfg traceInit.2.1 traceInit.2.2
      (by decide) ?_
    have h1 : traceInit.1 = ACFS_OK := by decide
    exact (show (traceInit.1, traceInit.2.1, traceInit.2.2) =
      (ACFS_OK, traceInit.2.1, traceInit.2.2) from by rw [h1])
  exact ⟨hre, free_sum_reserved_total traceInit.2.1 traceInit.2.2 hre⟩
